import Mathlib

/-!
# Dirac operator dispatch layer (`include/dirac_quda.h`) and fused exterior kernels

A shallow embedding of the operator hierarchy declared in `dirac_quda.h`, of the matrix
functors `DiracM`, `DiracMdagM`, `DiracMMdag`, `DiracMdag` defined there, and of the
register arithmetic, the thread prologue and the sequence of branches of the two fused
exterior kernels of `lib/dslash_core`.

Conventions of the embedding.

* A `ColorSpinorField *` is an address (`FieldPtr`), the null pointer is `none`.
* The contents of a field are a value of a module `V` over the scalars `R`
  (exact arithmetic stands for `double`).  `in` is passed by value, `out` lives in the
  `World` the call acts on, so `in` and `out` never alias.
* A member function that can fail is a `Call`: it maps the state before the call to an
  `Outcome`, which is either a normal return or a failure that propagates to the caller
  together with the state at the point of failure.  Statements after a failing call are
  not executed.
* The bodies of the virtual members `M`, `MdagM` and of the members `Mdag`, `MMdag`
  live in translation units that are not part of the sources at hand; they are taken as
  parameters (`DiracOps`).  `Dirac.Mdag` and `Dirac.MMdag` model the latter two from
  their description, for the statements on the dagger flag.
-/

set_option linter.dupNamespace false

namespace quda

/-- Address of a `ColorSpinorField` object. -/
abbrev FieldPtr := Nat

/-- The enumeration `QudaDagType` (declared in `enum_quda.h`), with the enumerators the
sources name: `QUDA_DAG_NO` (`multigrid_invert_test.cpp:191`), `QUDA_DAG_YES`, and
`QUDA_DAG_INVALID` (`dirac_quda.h:52`). -/
inductive QudaDagType where
  | QUDA_DAG_NO
  | QUDA_DAG_YES
  | QUDA_DAG_INVALID
  deriving DecidableEq, Repr

/-- The classes of the operator hierarchy of `dirac_quda.h`: the abstract base `Dirac`
and the sixteen concrete classes derived from it. -/
inductive DiracClass where
  | Dirac
  | DiracWilson
  | DiracWilsonPC
  | DiracClover
  | DiracCloverPC
  | DiracDomainWall
  | DiracDomainWallPC
  | DiracDomainWall4DPC
  | DiracMobiusDomainWallPC
  | DiracTwistedMass
  | DiracTwistedMassPC
  | DiracTwistedClover
  | DiracTwistedCloverPC
  | DiracStaggered
  | DiracStaggeredPC
  | DiracImprovedStaggered
  | DiracImprovedStaggeredPC
  deriving DecidableEq, Repr, Fintype

/-- The direct base class named in each `class X : public Y` header
(`Object`, the base of `Dirac`, is outside the hierarchy). -/
def DiracClass.base : DiracClass → Option DiracClass
  | .Dirac => none
  | .DiracWilson => some .Dirac
  | .DiracWilsonPC => some .DiracWilson
  | .DiracClover => some .DiracWilson
  | .DiracCloverPC => some .DiracClover
  | .DiracDomainWall => some .DiracWilson
  | .DiracDomainWallPC => some .DiracDomainWall
  | .DiracDomainWall4DPC => some .DiracDomainWallPC
  | .DiracMobiusDomainWallPC => some .DiracDomainWallPC
  | .DiracTwistedMass => some .DiracWilson
  | .DiracTwistedMassPC => some .DiracTwistedMass
  | .DiracTwistedClover => some .DiracWilson
  | .DiracTwistedCloverPC => some .DiracTwistedClover
  | .DiracStaggered => some .Dirac
  | .DiracStaggeredPC => some .DiracStaggered
  | .DiracImprovedStaggered => some .Dirac
  | .DiracImprovedStaggeredPC => some .DiracImprovedStaggered

/-- The record `DiracParam`, with the members its constructor initialises that have a
type available here (`type` and `matpcType` are of enumerations declared elsewhere and
are read by none of the members embedded below). -/
structure DiracParam where
  kappa : ℚ
  m5 : ℚ
  dagger : QudaDagType
  gauge : Option FieldPtr
  clover : Option FieldPtr
  cloverInv : Option FieldPtr
  mu : ℚ
  epsilon : ℚ
  tmp1 : Option FieldPtr
  tmp2 : Option FieldPtr
  deriving DecidableEq, Repr

/-- The constructor `DiracParam::DiracParam()` (`dirac_quda.h:50-56`). -/
def DiracParam.DiracParam : DiracParam :=
  { kappa := 0, m5 := 0, dagger := .QUDA_DAG_INVALID, gauge := none, clover := none,
    cloverInv := none, mu := 0, epsilon := 0, tmp1 := none, tmp2 := none }

/-- The state of a `Dirac` object the embedded members read or write: its dynamic
class and the `mutable` members `dagger`, `flops`, `tmp1`, `tmp2`
(`dirac_quda.h:100-103`). -/
structure Dirac where
  cls : DiracClass
  dagger : QudaDagType
  flops : Nat
  tmp1 : Option FieldPtr
  tmp2 : Option FieldPtr
  deriving DecidableEq, Repr

/-- What a functor call acts on: the wrapped operator and the field `out`. -/
structure World (V : Type) where
  dirac : Dirac
  out : V

/-- How a call ends: it returns a value, or a failure with message `e` propagates to
the caller; in both cases `s` is the state at that point. -/
inductive Outcome (σ : Type) (α : Type) where
  | returned (a : α) (s : σ)
  | thrown (e : String) (s : σ)

/-- A call that acts on a state `σ` and may fail. -/
def Call (σ : Type) (α : Type) : Type := σ → Outcome σ α

/-- Sequencing of calls: a failure skips everything that follows. -/
def Call.bind {σ α β : Type} (m : Call σ α) (f : α → Call σ β) : Call σ β :=
  fun s =>
    match m s with
    | .returned a s' => f a s'
    | .thrown e s' => .thrown e s'

instance (σ : Type) : Monad (Call σ) where
  pure a := fun s => .returned a s
  bind := Call.bind

/-- The members `M`, `MdagM` (virtual, defined by the concrete classes) and `Mdag`,
`MMdag` (`dirac_quda.h:129-132`); each takes `in` and acts on the operator and on
`out`. -/
structure DiracOps (V : Type) where
  M : V → Call (World V) Unit
  MdagM : V → Call (World V) Unit
  Mdag : V → Call (World V) Unit
  MMdag : V → Call (World V) Unit

/-- The assignment `dirac->tmp1 = p`. -/
def setTmp1 {V : Type} (p : Option FieldPtr) : Call (World V) Unit :=
  fun w => .returned () { w with dirac := { w.dirac with tmp1 := p } }

/-- The assignment `dirac->tmp2 = p`. -/
def setTmp2 {V : Type} (p : Option FieldPtr) : Call (World V) Unit :=
  fun w => .returned () { w with dirac := { w.dirac with tmp2 := p } }

/-- The statement `blas::axpy(a, in, out)` for a given implementation `axpy a x y`
of the accumulate, whose third argument is updated in place. -/
def axpyOut {R V : Type} (axpy : R → V → V → V) (a : R) (x : V) : Call (World V) Unit :=
  fun w => .returned () { w with out := axpy a x w.out }

/-- Modelled from the spec: `blas::axpy` is declared in `blas_quda.h`, which is not
among the sources; the accumulate adds `a·x` to `y`, giving
`(operator-application) + shift·in` when called as `axpy(shift, in, out)`. -/
def blas.axpy {R V : Type} [Semiring R] [AddCommMonoid V] [Module R V]
    (a : R) (x y : V) : V :=
  a • x + y

/-- `Dirac::Flops()` (`dirac_quda.h:146`): returns the counter and resets it. -/
def Dirac.Flops (d : Dirac) : Nat × Dirac :=
  let rtn := d.flops
  (rtn, { d with flops := 0 })

/-- `Dirac::Dagger(dag)` (`dirac_quda.h:150`). -/
def Dirac.Dagger (d : Dirac) (dag : QudaDagType) : Dirac :=
  { d with dagger := dag }

/-- `DiracMatrix::flops()` (`dirac_quda.h:615`), acting on the wrapped operator. -/
def DiracMatrix.flops (dirac : Dirac) : Nat × Dirac :=
  Dirac.Flops dirac

/-- `DiracMatrix::Type()` (`dirac_quda.h:620`): the name of the dynamic class of the
wrapped operator, for a given `typeid(...).name()`. -/
def DiracMatrix.TypeName (typeidName : DiracClass → String) (dirac : Dirac) : String :=
  typeidName dirac.cls

/-- `DiracMatrix::isStaggered()` (`dirac_quda.h:622-627`); the operator is returned
along with the answer to make visible that no `mutable` member is written. -/
def DiracMatrix.isStaggered (typeidName : DiracClass → String) (dirac : Dirac) :
    Bool × Dirac :=
  (if (DiracMatrix.TypeName typeidName dirac == typeidName .DiracStaggeredPC ||
       DiracMatrix.TypeName typeidName dirac == typeidName .DiracStaggered ||
       DiracMatrix.TypeName typeidName dirac == typeidName .DiracImprovedStaggeredPC ||
       DiracMatrix.TypeName typeidName dirac == typeidName .DiracImprovedStaggered)
   then true else false, dirac)

/-- The functor classes derived from `DiracMatrix` (`dirac_quda.h:632-759`);
`DiracMdagM` and `DiracMMdag` carry the public member `shift`. -/
inductive DiracMatrix (R : Type) where
  | DiracM
  | DiracMdagM (shift : R)
  | DiracMMdag (shift : R)
  | DiracMdag

/-- The constructors `DiracMdagM::DiracMdagM` (`dirac_quda.h:664-665`): `shift(0.0)`. -/
def DiracMdagM.DiracMdagM {R : Type} [Zero R] : DiracMatrix R :=
  .DiracMdagM 0

/-- The constructors `DiracMMdag::DiracMMdag` (`dirac_quda.h:700-701`): `shift(0.0)`. -/
def DiracMMdag.DiracMMdag {R : Type} [Zero R] : DiracMatrix R :=
  .DiracMMdag 0

/-- `DiracM::operator()(out, in)` (`dirac_quda.h:638-641`). -/
def DiracM.operator {V : Type} (ops : DiracOps V) (inp : V) : Call (World V) Unit := do
  ops.M inp

/-- `DiracM::operator()(out, in, tmp)` (`dirac_quda.h:643-648`). -/
def DiracM.operator_tmp {V : Type} (ops : DiracOps V) (inp : V) (tmp : FieldPtr) :
    Call (World V) Unit := do
  setTmp1 (some tmp)
  ops.M inp
  setTmp1 none

/-- `DiracM::operator()(out, in, Tmp1, Tmp2)` (`dirac_quda.h:650-658`). -/
def DiracM.operator_Tmp1_Tmp2 {V : Type} (ops : DiracOps V) (inp : V)
    (Tmp1 Tmp2 : FieldPtr) : Call (World V) Unit := do
  setTmp1 (some Tmp1)
  setTmp2 (some Tmp2)
  ops.M inp
  setTmp2 none
  setTmp1 none

/-- `DiracMdagM::operator()(out, in)` (`dirac_quda.h:670-674`). -/
def DiracMdagM.operator {R V : Type} [Zero R] [DecidableEq R] (axpy : R → V → V → V)
    (ops : DiracOps V) (shift : R) (inp : V) : Call (World V) Unit := do
  ops.MdagM inp
  if shift ≠ 0 then axpyOut axpy shift inp

/-- `DiracMdagM::operator()(out, in, tmp)` (`dirac_quda.h:676-682`). -/
def DiracMdagM.operator_tmp {R V : Type} [Zero R] [DecidableEq R] (axpy : R → V → V → V)
    (ops : DiracOps V) (shift : R) (inp : V) (tmp : FieldPtr) : Call (World V) Unit := do
  setTmp1 (some tmp)
  ops.MdagM inp
  if shift ≠ 0 then axpyOut axpy shift inp
  setTmp1 none

/-- `DiracMdagM::operator()(out, in, Tmp1, Tmp2)` (`dirac_quda.h:684-693`). -/
def DiracMdagM.operator_Tmp1_Tmp2 {R V : Type} [Zero R] [DecidableEq R]
    (axpy : R → V → V → V) (ops : DiracOps V) (shift : R) (inp : V)
    (Tmp1 Tmp2 : FieldPtr) : Call (World V) Unit := do
  setTmp1 (some Tmp1)
  setTmp2 (some Tmp2)
  ops.MdagM inp
  if shift ≠ 0 then axpyOut axpy shift inp
  setTmp2 none
  setTmp1 none

/-- `DiracMMdag::operator()(out, in)` (`dirac_quda.h:706-710`). -/
def DiracMMdag.operator {R V : Type} [Zero R] [DecidableEq R] (axpy : R → V → V → V)
    (ops : DiracOps V) (shift : R) (inp : V) : Call (World V) Unit := do
  ops.MMdag inp
  if shift ≠ 0 then axpyOut axpy shift inp

/-- `DiracMMdag::operator()(out, in, tmp)` (`dirac_quda.h:712-718`). -/
def DiracMMdag.operator_tmp {R V : Type} [Zero R] [DecidableEq R] (axpy : R → V → V → V)
    (ops : DiracOps V) (shift : R) (inp : V) (tmp : FieldPtr) : Call (World V) Unit := do
  setTmp1 (some tmp)
  ops.MMdag inp
  if shift ≠ 0 then axpyOut axpy shift inp
  setTmp1 none

/-- `DiracMMdag::operator()(out, in, Tmp1, Tmp2)` (`dirac_quda.h:720-729`). -/
def DiracMMdag.operator_Tmp1_Tmp2 {R V : Type} [Zero R] [DecidableEq R]
    (axpy : R → V → V → V) (ops : DiracOps V) (shift : R) (inp : V)
    (Tmp1 Tmp2 : FieldPtr) : Call (World V) Unit := do
  setTmp1 (some Tmp1)
  setTmp2 (some Tmp2)
  ops.MMdag inp
  if shift ≠ 0 then axpyOut axpy shift inp
  setTmp2 none
  setTmp1 none

/-- `DiracMdag::operator()(out, in)` (`dirac_quda.h:738-741`). -/
def DiracMdag.operator {V : Type} (ops : DiracOps V) (inp : V) : Call (World V) Unit := do
  ops.Mdag inp

/-- `DiracMdag::operator()(out, in, tmp)` (`dirac_quda.h:743-748`). -/
def DiracMdag.operator_tmp {V : Type} (ops : DiracOps V) (inp : V) (tmp : FieldPtr) :
    Call (World V) Unit := do
  setTmp1 (some tmp)
  ops.Mdag inp
  setTmp1 none

/-- `DiracMdag::operator()(out, in, Tmp1, Tmp2)` (`dirac_quda.h:750-758`). -/
def DiracMdag.operator_Tmp1_Tmp2 {V : Type} (ops : DiracOps V) (inp : V)
    (Tmp1 Tmp2 : FieldPtr) : Call (World V) Unit := do
  setTmp1 (some Tmp1)
  setTmp2 (some Tmp2)
  ops.Mdag inp
  setTmp2 none
  setTmp1 none

/-- The scratch fields a caller hands to `operator()`: none, `tmp`, or `Tmp1, Tmp2`;
their number selects the overload. -/
inductive Temporaries where
  | zero
  | one (tmp : FieldPtr)
  | two (Tmp1 Tmp2 : FieldPtr)
  deriving DecidableEq, Repr

/-- The call `f(out, in, temporaries...)` through a `DiracMatrix` reference: the
virtual `operator()` of the dynamic class of `f`, in the overload the arguments
select (`dirac_quda.h:609-613`). -/
def DiracMatrix.operator {R V : Type} [Zero R] [DecidableEq R] (axpy : R → V → V → V)
    (ops : DiracOps V) (f : DiracMatrix R) (inp : V) (t : Temporaries) :
    Call (World V) Unit :=
  match f, t with
  | .DiracM, .zero => DiracM.operator ops inp
  | .DiracM, .one tmp => DiracM.operator_tmp ops inp tmp
  | .DiracM, .two Tmp1 Tmp2 => DiracM.operator_Tmp1_Tmp2 ops inp Tmp1 Tmp2
  | .DiracMdagM shift, .zero => DiracMdagM.operator axpy ops shift inp
  | .DiracMdagM shift, .one tmp => DiracMdagM.operator_tmp axpy ops shift inp tmp
  | .DiracMdagM shift, .two Tmp1 Tmp2 =>
      DiracMdagM.operator_Tmp1_Tmp2 axpy ops shift inp Tmp1 Tmp2
  | .DiracMMdag shift, .zero => DiracMMdag.operator axpy ops shift inp
  | .DiracMMdag shift, .one tmp => DiracMMdag.operator_tmp axpy ops shift inp tmp
  | .DiracMMdag shift, .two Tmp1 Tmp2 =>
      DiracMMdag.operator_Tmp1_Tmp2 axpy ops shift inp Tmp1 Tmp2
  | .DiracMdag, .zero => DiracMdag.operator ops inp
  | .DiracMdag, .one tmp => DiracMdag.operator_tmp ops inp tmp
  | .DiracMdag, .two Tmp1 Tmp2 => DiracMdag.operator_Tmp1_Tmp2 ops inp Tmp1 Tmp2

/-- The names `typeid(X).name()` yields under the Itanium C++ ABI for the classes of
namespace `quda`; the value is implementation-defined, and `DiracMatrix.isStaggered`
takes the naming as a parameter. -/
def itaniumName : DiracClass → String
  | .Dirac => "N4quda5DiracE"
  | .DiracWilson => "N4quda11DiracWilsonE"
  | .DiracWilsonPC => "N4quda13DiracWilsonPCE"
  | .DiracClover => "N4quda11DiracCloverE"
  | .DiracCloverPC => "N4quda13DiracCloverPCE"
  | .DiracDomainWall => "N4quda15DiracDomainWallE"
  | .DiracDomainWallPC => "N4quda17DiracDomainWallPCE"
  | .DiracDomainWall4DPC => "N4quda19DiracDomainWall4DPCE"
  | .DiracMobiusDomainWallPC => "N4quda23DiracMobiusDomainWallPCE"
  | .DiracTwistedMass => "N4quda16DiracTwistedMassE"
  | .DiracTwistedMassPC => "N4quda18DiracTwistedMassPCE"
  | .DiracTwistedClover => "N4quda18DiracTwistedCloverE"
  | .DiracTwistedCloverPC => "N4quda20DiracTwistedCloverPCE"
  | .DiracStaggered => "N4quda14DiracStaggeredE"
  | .DiracStaggeredPC => "N4quda16DiracStaggeredPCE"
  | .DiracImprovedStaggered => "N4quda22DiracImprovedStaggeredE"
  | .DiracImprovedStaggeredPC => "N4quda24DiracImprovedStaggeredPCE"

/-- The classes whose body declares a member `createCoarseOp`
(`dirac_quda.h:151`, `:181`, `:230`). -/
def DiracClass.declaresCreateCoarseOp : DiracClass → Bool
  | .Dirac => true
  | .DiracWilson => true
  | .DiracClover => true
  | _ => false

/-- The class whose definition a call of a virtual member runs on an object of dynamic
class `c`: the first class, from `c` up the chain of base classes, that declares the
member; `fuel` bounds the length of the chain. -/
def DiracClass.finalOverrider (declares : DiracClass → Bool) :
    Nat → DiracClass → Option DiracClass
  | 0, _ => none
  | fuel + 1, c =>
    if declares c then some c
    else
      match c.base with
      | none => none
      | some b => DiracClass.finalOverrider declares fuel b

/-- The definitions of `DiracWilson::createCoarseOp` and `DiracClover::createCoarseOp`,
which are given outside the header; they act on the fields `Y` and `X`. -/
structure CoarseOpBodies (T G : Type) where
  DiracWilson : Dirac → T → Call (G × G) Unit
  DiracClover : Dirac → T → Call (G × G) Unit

/-- `Dirac::createCoarseOp(T, Y, X)` (`dirac_quda.h:151`): `errorQuda("Not implemented")`. -/
def Dirac.createCoarseOp {T G : Type} (_dirac : Dirac) (_transfer : T) :
    Call (G × G) Unit :=
  fun s => .thrown "Not implemented" s

/-- The virtual call `dirac->createCoarseOp(T, Y, X)`: the definition of the final
overrider for the dynamic class of the operator runs (the hierarchy has 17 classes). -/
def Dirac.virtual_createCoarseOp {T G : Type} (bodies : CoarseOpBodies T G)
    (dirac : Dirac) (transfer : T) : Call (G × G) Unit :=
  match DiracClass.finalOverrider DiracClass.declaresCreateCoarseOp 17 dirac.cls with
  | some .DiracWilson => bodies.DiracWilson dirac transfer
  | some .DiracClover => bodies.DiracClover dirac transfer
  | _ => Dirac.createCoarseOp dirac transfer

/-- Sample definitions of the two overriding members: both return normally, the one of
`DiracWilson` having written `(1, 2)` to `(Y, X)`, the one of `DiracClover` `(3, 4)`. -/
def sampleCoarseOpBodies : CoarseOpBodies Unit Nat where
  DiracWilson _ _ := fun _ => .returned () (1, 2)
  DiracClover _ _ := fun _ => .returned () (3, 4)

/-! ### Vocabulary of the statements -/

/-- The member of the wrapped operator that the three `operator()` overloads of a
functor class call. -/
def DiracMatrix.wrapped {R V : Type} (ops : DiracOps V) :
    DiracMatrix R → V → Call (World V) Unit
  | .DiracM => ops.M
  | .DiracMdagM _ => ops.MdagM
  | .DiracMMdag _ => ops.MMdag
  | .DiracMdag => ops.Mdag

/-- The operator with the caller's scratch fields put into its slots. -/
def Temporaries.install (t : Temporaries) (d : Dirac) : Dirac :=
  match t with
  | .zero => d
  | .one tmp => { d with tmp1 := some tmp }
  | .two Tmp1 Tmp2 => { d with tmp1 := some Tmp1, tmp2 := some Tmp2 }

/-- The field `out` a call has written, when it returned. -/
def Outcome.written {V α : Type} : Outcome (World V) α → Option V
  | .returned _ w => some w.out
  | .thrown _ _ => none

/-- The outcome with the state changed by `g` in case of a normal return. -/
def Outcome.onReturn {σ α : Type} (g : σ → σ) : Outcome σ α → Outcome σ α
  | .returned a s => .returned a (g s)
  | .thrown e s => .thrown e s

/-- The slots as the overload selected by `t` leaves them after the wrapped member has
returned: the slots it had filled are set to null, the others are not written. -/
def Temporaries.clear (t : Temporaries) (d : Dirac) : Dirac :=
  match t with
  | .zero => d
  | .one _ => { d with tmp1 := none }
  | .two _ _ => { d with tmp1 := none, tmp2 := none }

/-- The accumulate step of a functor: `axpy(shift, in, out)` when the functor has a
`shift` and it is not zero. -/
def DiracMatrix.accumulate {R V : Type} [Zero R] [DecidableEq R] (axpy : R → V → V → V)
    (f : DiracMatrix R) (inp : V) (o : V) : V :=
  match f with
  | .DiracM => o
  | .DiracMdagM shift => if shift ≠ 0 then axpy shift inp o else o
  | .DiracMMdag shift => if shift ≠ 0 then axpy shift inp o else o
  | .DiracMdag => o

/-- The output of each of the four members is the same whatever the two scratch slots
hold when it is called. -/
def DiracOps.SlotIndependent {V : Type} (ops : DiracOps V) : Prop :=
  ∀ (op : V → Call (World V) Unit), op ∈ [ops.M, ops.MdagM, ops.MMdag, ops.Mdag] →
    ∀ (inp : V) (w : World V) (t1 t2 : Option FieldPtr),
      (op inp { w with dirac := { w.dirac with tmp1 := t1, tmp2 := t2 } }).written
        = (op inp w).written

/-- A sample operator on one-component integer fields: `M` and `Mdag` write `3·in`,
`MdagM` and `MMdag` write `9·in`, each adding its flops to the counter. -/
def sampleOps : DiracOps ℤ where
  M inp := fun w =>
    .returned () { dirac := { w.dirac with flops := w.dirac.flops + 1 }, out := 3 * inp }
  MdagM inp := fun w =>
    .returned () { dirac := { w.dirac with flops := w.dirac.flops + 2 }, out := 9 * inp }
  Mdag inp := fun w =>
    .returned () { dirac := { w.dirac with flops := w.dirac.flops + 1 }, out := 3 * inp }
  MMdag inp := fun w =>
    .returned () { dirac := { w.dirac with flops := w.dirac.flops + 2 }, out := 9 * inp }

/-- A sample operator every member of which fails at once, writing nothing. -/
def failingOps : DiracOps ℤ where
  M _ := fun w => .thrown "M failed" w
  MdagM _ := fun w => .thrown "MdagM failed" w
  Mdag _ := fun w => .thrown "Mdag failed" w
  MMdag _ := fun w => .thrown "MMdag failed" w

/-- A sample operator state of class `DiracWilson` with both slots occupied. -/
def sampleDirac : Dirac :=
  { cls := .DiracWilson, dagger := .QUDA_DAG_NO, flops := 7, tmp1 := some 11, tmp2 := some 12 }

/-! ### The fused exterior kernels (`lib/dslash_core`)

`tm_fused_exterior_dslash_gt200_core.h` (the twisted-mass kernel, below `tm`) and
`tmc_fused_exterior_dslash_dagger_gt200_core.h` (the twisted-clover dagger kernel, below
`tmc`) are straight-line code on scalar registers.  A register is a value of a ring `R`
(exact arithmetic stands for `spinorFloat`), a group of registers is a structure whose
fields carry the names of the source, a preprocessor symbol tested by `#ifdef` is a
`Bool` argument, and a block of statements is a function from the registers it reads
to the registers it writes. -/

/-- The 24 registers of a spinor (`o00_re` … `o32_im`, `i00_re` … `i32_im`,
`acc00_re` … `acc32_im`): field `vsc_re` is the real part of spin `s`, colour `c`. -/
@[ext]
structure Spinor (R : Type) where
  (v00_re v00_im : R)
  (v01_re v01_im : R)
  (v02_re v02_im : R)
  (v10_re v10_im : R)
  (v11_re v11_im : R)
  (v12_re v12_im : R)
  (v20_re v20_im : R)
  (v21_re v21_im : R)
  (v22_re v22_im : R)
  (v30_re v30_im : R)
  (v31_re v31_im : R)
  (v32_re v32_im : R)

/-- The registers `i00_re` … `i12_im` as `READ_HALF_SPINOR` has filled them. -/
structure HalfSpinorRegs (R : Type) where
  (i00_re i00_im : R)
  (i01_re i01_im : R)
  (i02_re i02_im : R)
  (i10_re i10_im : R)
  (i11_re i11_im : R)
  (i12_re i12_im : R)

/-- The locals `a0_re` … `b2_im`: the two colour vectors `a`, `b` of a half spinor. -/
@[ext]
structure HalfSpinor (R : Type) where
  (a0_re a0_im : R)
  (a1_re a1_im : R)
  (a2_re a2_im : R)
  (b0_re b0_im : R)
  (b1_re b1_im : R)
  (b2_re b2_im : R)

/-- The locals `A0_re` … `B2_im`: the half spinor after the multiplication by the
link. -/
@[ext]
structure LinkedHalfSpinor (R : Type) where
  (A0_re A0_im : R)
  (A1_re A1_im : R)
  (A2_re A2_im : R)
  (B0_re B0_im : R)
  (B1_re B1_im : R)
  (B2_re B2_im : R)

/-- The registers `g00_re` … `g22_im` of a link matrix, after
`RECONSTRUCT_GAUGE_MATRIX`. -/
structure Link (R : Type) where
  (g00_re g00_im : R)
  (g01_re g01_im : R)
  (g02_re g02_im : R)
  (g10_re g10_im : R)
  (g11_re g11_im : R)
  (g12_re g12_im : R)
  (g20_re g20_im : R)
  (g21_re g21_im : R)
  (g22_re g22_im : R)

/-! The macros `gT##_re`, `gT##_im` of the conjugated link (`tm:160-177`, the same
text at `tmc:160-177`). -/

def Link.gT00_re {R : Type} [Ring R] (G : Link R) : R := G.g00_re
def Link.gT00_im {R : Type} [Ring R] (G : Link R) : R := -G.g00_im
def Link.gT01_re {R : Type} [Ring R] (G : Link R) : R := G.g10_re
def Link.gT01_im {R : Type} [Ring R] (G : Link R) : R := -G.g10_im
def Link.gT02_re {R : Type} [Ring R] (G : Link R) : R := G.g20_re
def Link.gT02_im {R : Type} [Ring R] (G : Link R) : R := -G.g20_im
def Link.gT10_re {R : Type} [Ring R] (G : Link R) : R := G.g01_re
def Link.gT10_im {R : Type} [Ring R] (G : Link R) : R := -G.g01_im
def Link.gT11_re {R : Type} [Ring R] (G : Link R) : R := G.g11_re
def Link.gT11_im {R : Type} [Ring R] (G : Link R) : R := -G.g11_im
def Link.gT12_re {R : Type} [Ring R] (G : Link R) : R := G.g21_re
def Link.gT12_im {R : Type} [Ring R] (G : Link R) : R := -G.g21_im
def Link.gT20_re {R : Type} [Ring R] (G : Link R) : R := G.g02_re
def Link.gT20_im {R : Type} [Ring R] (G : Link R) : R := -G.g02_im
def Link.gT21_re {R : Type} [Ring R] (G : Link R) : R := G.g12_re
def Link.gT21_im {R : Type} [Ring R] (G : Link R) : R := -G.g12_im
def Link.gT22_re {R : Type} [Ring R] (G : Link R) : R := G.g22_re
def Link.gT22_im {R : Type} [Ring R] (G : Link R) : R := -G.g22_im

/-- The assignments `a0_re = i00_re; … b2_im = i12_im;` that follow `READ_HALF_SPINOR`
in the spatial branches (the same text at `tm:292-297`, `tm:453-458`, `tm:614-619`,
`tm:775-780`, `tm:936-941`, `tm:1097-1102`, `tmc:688-693`, `tmc:849-854`,
`tmc:1010-1015`, `tmc:1171-1176`, `tmc:1332-1337`, `tmc:1493-1498`) and, under
`TWIST_INV_DSLASH`, in the temporal branches of `tm`. -/
def copyHalfSpinor {R : Type} [Ring R] (I : HalfSpinorRegs R) : HalfSpinor R :=
  { a0_re := I.i00_re,
    a0_im := I.i00_im,
    a1_re := I.i01_re,
    a1_im := I.i01_im,
    a2_re := I.i02_re,
    a2_im := I.i02_im,
    b0_re := I.i10_re,
    b0_im := I.i10_im,
    b1_re := I.i11_re,
    b1_im := I.i11_im,
    b2_re := I.i12_re,
    b2_im := I.i12_im }

/-- The assignments `a0_re = 2*i00_re; … b2_im = 2*i12_im;` of the `#else` part of
`#ifdef TWIST_INV_DSLASH` in the temporal branches of `tm` (the same text at
`tm:1269-1274`, `tm:1323-1328`, `tm:1485-1490`, `tm:1539-1544`). -/
def tm.doubleHalfSpinor {R : Type} [Ring R] (I : HalfSpinorRegs R) : HalfSpinor R :=
  { a0_re := 2 * I.i00_re,
    a0_im := 2 * I.i00_im,
    a1_re := 2 * I.i01_re,
    a1_im := 2 * I.i01_im,
    a2_re := 2 * I.i02_re,
    a2_im := 2 * I.i02_im,
    b0_re := 2 * I.i10_re,
    b0_im := 2 * I.i10_im,
    b1_re := 2 * I.i11_re,
    b1_im := 2 * I.i11_im,
    b2_re := 2 * I.i12_re,
    b2_im := 2 * I.i12_im }

/-- The block `#ifdef TWIST_INV_DSLASH … #else … #endif` that follows
`READ_HALF_SPINOR` in the four temporal blocks of `tm` (`tm:1261-1275`, `tm:1315-1329`,
`tm:1477-1491`, `tm:1531-1545`). -/
def tm.temporalHalfSpinor {R : Type} [Ring R] (TWIST_INV_DSLASH : Bool) (I : HalfSpinorRegs R) :
    HalfSpinor R :=
  if TWIST_INV_DSLASH then copyHalfSpinor I else tm.doubleHalfSpinor I

/-- The assignments `a0_re = t_proj_scale*i00_re; … b2_im = t_proj_scale*i12_im;` of the
temporal branches of `tmc` (the same text at `tmc:1657-1662`, `tmc:1702-1707`,
`tmc:1855-1860`, `tmc:1900-1905`), where `const int t_proj_scale = TPROJSCALE;` and the
macro `TPROJSCALE` is defined outside the file. -/
def tmc.temporalHalfSpinor {R : Type} [Ring R] (t_proj_scale : Int) (I : HalfSpinorRegs R) : HalfSpinor R :=
  { a0_re := (t_proj_scale : R) * I.i00_re,
    a0_im := (t_proj_scale : R) * I.i00_im,
    a1_re := (t_proj_scale : R) * I.i01_re,
    a1_im := (t_proj_scale : R) * I.i01_im,
    a2_re := (t_proj_scale : R) * I.i02_re,
    a2_im := (t_proj_scale : R) * I.i02_im,
    b0_re := (t_proj_scale : R) * I.i10_re,
    b0_im := (t_proj_scale : R) * I.i10_im,
    b1_re := (t_proj_scale : R) * I.i11_re,
    b1_im := (t_proj_scale : R) * I.i11_im,
    b2_re := (t_proj_scale : R) * I.i12_re,
    b2_im := (t_proj_scale : R) * I.i12_im }

/-- The block `// identity gauge matrix` of the temporal branches, `spinorFloat A0_re =
a0_re; … B2_im = b2_im;` (the same text at `tm:1278-1283`, `tm:1494-1499`,
`tmc:1665-1670`, `tmc:1863-1868`). -/
def identityGauge {R : Type} [Ring R] (h : HalfSpinor R) : LinkedHalfSpinor R :=
  { A0_re := h.a0_re,
    A0_im := h.a0_im,
    A1_re := h.a1_re,
    A1_im := h.a1_im,
    A2_re := h.a2_re,
    A2_im := h.a2_im,
    B0_re := h.b0_re,
    B0_im := h.b0_im,
    B1_re := h.b1_re,
    B1_im := h.b1_im,
    B2_re := h.b2_re,
    B2_im := h.b2_im }

/-- The block `// multiply row 0`, `// multiply row 1`, `// multiply row 2` of a forward
branch, on the registers `g##` of the link: the same text in the eight forward branches,
at `tm:305-393`, `tm:627-715`, `tm:949-1037`, `tm:1337-1425`, `tmc:701-789`,
`tmc:1023-1111`, `tmc:1345-1433`, `tmc:1715-1803`. -/
def multiplyForward {R : Type} [Ring R] (G : Link R) (h : HalfSpinor R) : LinkedHalfSpinor R :=
  let A0_re : R := 0
  let A0_re := A0_re + G.g00_re * h.a0_re
  let A0_re := A0_re - G.g00_im * h.a0_im
  let A0_re := A0_re + G.g01_re * h.a1_re
  let A0_re := A0_re - G.g01_im * h.a1_im
  let A0_re := A0_re + G.g02_re * h.a2_re
  let A0_re := A0_re - G.g02_im * h.a2_im
  let A0_im : R := 0
  let A0_im := A0_im + G.g00_re * h.a0_im
  let A0_im := A0_im + G.g00_im * h.a0_re
  let A0_im := A0_im + G.g01_re * h.a1_im
  let A0_im := A0_im + G.g01_im * h.a1_re
  let A0_im := A0_im + G.g02_re * h.a2_im
  let A0_im := A0_im + G.g02_im * h.a2_re
  let B0_re : R := 0
  let B0_re := B0_re + G.g00_re * h.b0_re
  let B0_re := B0_re - G.g00_im * h.b0_im
  let B0_re := B0_re + G.g01_re * h.b1_re
  let B0_re := B0_re - G.g01_im * h.b1_im
  let B0_re := B0_re + G.g02_re * h.b2_re
  let B0_re := B0_re - G.g02_im * h.b2_im
  let B0_im : R := 0
  let B0_im := B0_im + G.g00_re * h.b0_im
  let B0_im := B0_im + G.g00_im * h.b0_re
  let B0_im := B0_im + G.g01_re * h.b1_im
  let B0_im := B0_im + G.g01_im * h.b1_re
  let B0_im := B0_im + G.g02_re * h.b2_im
  let B0_im := B0_im + G.g02_im * h.b2_re
  let A1_re : R := 0
  let A1_re := A1_re + G.g10_re * h.a0_re
  let A1_re := A1_re - G.g10_im * h.a0_im
  let A1_re := A1_re + G.g11_re * h.a1_re
  let A1_re := A1_re - G.g11_im * h.a1_im
  let A1_re := A1_re + G.g12_re * h.a2_re
  let A1_re := A1_re - G.g12_im * h.a2_im
  let A1_im : R := 0
  let A1_im := A1_im + G.g10_re * h.a0_im
  let A1_im := A1_im + G.g10_im * h.a0_re
  let A1_im := A1_im + G.g11_re * h.a1_im
  let A1_im := A1_im + G.g11_im * h.a1_re
  let A1_im := A1_im + G.g12_re * h.a2_im
  let A1_im := A1_im + G.g12_im * h.a2_re
  let B1_re : R := 0
  let B1_re := B1_re + G.g10_re * h.b0_re
  let B1_re := B1_re - G.g10_im * h.b0_im
  let B1_re := B1_re + G.g11_re * h.b1_re
  let B1_re := B1_re - G.g11_im * h.b1_im
  let B1_re := B1_re + G.g12_re * h.b2_re
  let B1_re := B1_re - G.g12_im * h.b2_im
  let B1_im : R := 0
  let B1_im := B1_im + G.g10_re * h.b0_im
  let B1_im := B1_im + G.g10_im * h.b0_re
  let B1_im := B1_im + G.g11_re * h.b1_im
  let B1_im := B1_im + G.g11_im * h.b1_re
  let B1_im := B1_im + G.g12_re * h.b2_im
  let B1_im := B1_im + G.g12_im * h.b2_re
  let A2_re : R := 0
  let A2_re := A2_re + G.g20_re * h.a0_re
  let A2_re := A2_re - G.g20_im * h.a0_im
  let A2_re := A2_re + G.g21_re * h.a1_re
  let A2_re := A2_re - G.g21_im * h.a1_im
  let A2_re := A2_re + G.g22_re * h.a2_re
  let A2_re := A2_re - G.g22_im * h.a2_im
  let A2_im : R := 0
  let A2_im := A2_im + G.g20_re * h.a0_im
  let A2_im := A2_im + G.g20_im * h.a0_re
  let A2_im := A2_im + G.g21_re * h.a1_im
  let A2_im := A2_im + G.g21_im * h.a1_re
  let A2_im := A2_im + G.g22_re * h.a2_im
  let A2_im := A2_im + G.g22_im * h.a2_re
  let B2_re : R := 0
  let B2_re := B2_re + G.g20_re * h.b0_re
  let B2_re := B2_re - G.g20_im * h.b0_im
  let B2_re := B2_re + G.g21_re * h.b1_re
  let B2_re := B2_re - G.g21_im * h.b1_im
  let B2_re := B2_re + G.g22_re * h.b2_re
  let B2_re := B2_re - G.g22_im * h.b2_im
  let B2_im : R := 0
  let B2_im := B2_im + G.g20_re * h.b0_im
  let B2_im := B2_im + G.g20_im * h.b0_re
  let B2_im := B2_im + G.g21_re * h.b1_im
  let B2_im := B2_im + G.g21_im * h.b1_re
  let B2_im := B2_im + G.g22_re * h.b2_im
  let B2_im := B2_im + G.g22_im * h.b2_re
  { A0_re := A0_re,
    A0_im := A0_im,
    A1_re := A1_re,
    A1_im := A1_im,
    A2_re := A2_re,
    A2_im := A2_im,
    B0_re := B0_re,
    B0_im := B0_im,
    B1_re := B1_re,
    B1_im := B1_im,
    B2_re := B2_re,
    B2_im := B2_im }

/-- The block `// multiply row 0`, `// multiply row 1`, `// multiply row 2` of a
backward branch, on the macros `gT##` of the conjugated link: the same text in the eight
backward branches, at `tm:466-554`, `tm:788-876`, `tm:1110-1198`, `tm:1553-1641`,
`tmc:862-950`, `tmc:1184-1272`, `tmc:1506-1594`, `tmc:1913-2001`. -/
def multiplyBackward {R : Type} [Ring R] (G : Link R) (h : HalfSpinor R) : LinkedHalfSpinor R :=
  let A0_re : R := 0
  let A0_re := A0_re + G.gT00_re * h.a0_re
  let A0_re := A0_re - G.gT00_im * h.a0_im
  let A0_re := A0_re + G.gT01_re * h.a1_re
  let A0_re := A0_re - G.gT01_im * h.a1_im
  let A0_re := A0_re + G.gT02_re * h.a2_re
  let A0_re := A0_re - G.gT02_im * h.a2_im
  let A0_im : R := 0
  let A0_im := A0_im + G.gT00_re * h.a0_im
  let A0_im := A0_im + G.gT00_im * h.a0_re
  let A0_im := A0_im + G.gT01_re * h.a1_im
  let A0_im := A0_im + G.gT01_im * h.a1_re
  let A0_im := A0_im + G.gT02_re * h.a2_im
  let A0_im := A0_im + G.gT02_im * h.a2_re
  let B0_re : R := 0
  let B0_re := B0_re + G.gT00_re * h.b0_re
  let B0_re := B0_re - G.gT00_im * h.b0_im
  let B0_re := B0_re + G.gT01_re * h.b1_re
  let B0_re := B0_re - G.gT01_im * h.b1_im
  let B0_re := B0_re + G.gT02_re * h.b2_re
  let B0_re := B0_re - G.gT02_im * h.b2_im
  let B0_im : R := 0
  let B0_im := B0_im + G.gT00_re * h.b0_im
  let B0_im := B0_im + G.gT00_im * h.b0_re
  let B0_im := B0_im + G.gT01_re * h.b1_im
  let B0_im := B0_im + G.gT01_im * h.b1_re
  let B0_im := B0_im + G.gT02_re * h.b2_im
  let B0_im := B0_im + G.gT02_im * h.b2_re
  let A1_re : R := 0
  let A1_re := A1_re + G.gT10_re * h.a0_re
  let A1_re := A1_re - G.gT10_im * h.a0_im
  let A1_re := A1_re + G.gT11_re * h.a1_re
  let A1_re := A1_re - G.gT11_im * h.a1_im
  let A1_re := A1_re + G.gT12_re * h.a2_re
  let A1_re := A1_re - G.gT12_im * h.a2_im
  let A1_im : R := 0
  let A1_im := A1_im + G.gT10_re * h.a0_im
  let A1_im := A1_im + G.gT10_im * h.a0_re
  let A1_im := A1_im + G.gT11_re * h.a1_im
  let A1_im := A1_im + G.gT11_im * h.a1_re
  let A1_im := A1_im + G.gT12_re * h.a2_im
  let A1_im := A1_im + G.gT12_im * h.a2_re
  let B1_re : R := 0
  let B1_re := B1_re + G.gT10_re * h.b0_re
  let B1_re := B1_re - G.gT10_im * h.b0_im
  let B1_re := B1_re + G.gT11_re * h.b1_re
  let B1_re := B1_re - G.gT11_im * h.b1_im
  let B1_re := B1_re + G.gT12_re * h.b2_re
  let B1_re := B1_re - G.gT12_im * h.b2_im
  let B1_im : R := 0
  let B1_im := B1_im + G.gT10_re * h.b0_im
  let B1_im := B1_im + G.gT10_im * h.b0_re
  let B1_im := B1_im + G.gT11_re * h.b1_im
  let B1_im := B1_im + G.gT11_im * h.b1_re
  let B1_im := B1_im + G.gT12_re * h.b2_im
  let B1_im := B1_im + G.gT12_im * h.b2_re
  let A2_re : R := 0
  let A2_re := A2_re + G.gT20_re * h.a0_re
  let A2_re := A2_re - G.gT20_im * h.a0_im
  let A2_re := A2_re + G.gT21_re * h.a1_re
  let A2_re := A2_re - G.gT21_im * h.a1_im
  let A2_re := A2_re + G.gT22_re * h.a2_re
  let A2_re := A2_re - G.gT22_im * h.a2_im
  let A2_im : R := 0
  let A2_im := A2_im + G.gT20_re * h.a0_im
  let A2_im := A2_im + G.gT20_im * h.a0_re
  let A2_im := A2_im + G.gT21_re * h.a1_im
  let A2_im := A2_im + G.gT21_im * h.a1_re
  let A2_im := A2_im + G.gT22_re * h.a2_im
  let A2_im := A2_im + G.gT22_im * h.a2_re
  let B2_re : R := 0
  let B2_re := B2_re + G.gT20_re * h.b0_re
  let B2_re := B2_re - G.gT20_im * h.b0_im
  let B2_re := B2_re + G.gT21_re * h.b1_re
  let B2_re := B2_re - G.gT21_im * h.b1_im
  let B2_re := B2_re + G.gT22_re * h.b2_re
  let B2_re := B2_re - G.gT22_im * h.b2_im
  let B2_im : R := 0
  let B2_im := B2_im + G.gT20_re * h.b0_im
  let B2_im := B2_im + G.gT20_im * h.b0_re
  let B2_im := B2_im + G.gT21_re * h.b1_im
  let B2_im := B2_im + G.gT21_im * h.b1_re
  let B2_im := B2_im + G.gT22_re * h.b2_im
  let B2_im := B2_im + G.gT22_im * h.b2_re
  { A0_re := A0_re,
    A0_im := A0_im,
    A1_re := A1_re,
    A1_im := A1_im,
    A2_re := A2_re,
    A2_im := A2_im,
    B0_re := B0_re,
    B0_im := B0_im,
    B1_re := B1_re,
    B1_im := B1_im,
    B2_re := B2_re,
    B2_im := B2_im }

/-- The updates of `o00_re` … `o32_im` that end the forward branch of direction 0 of
`tm`, commented `// Projector P0-` (`tm:395-420`). -/
def tm.accumulate0_forward {R : Type} [Ring R] (L : LinkedHalfSpinor R) (o : Spinor R) : Spinor R :=
  let o00_re := o.v00_re + L.A0_re
  let o00_im := o.v00_im + L.A0_im
  let o10_re := o.v10_re + L.B0_re
  let o10_im := o.v10_im + L.B0_im
  let o20_re := o.v20_re - L.B0_im
  let o20_im := o.v20_im + L.B0_re
  let o30_re := o.v30_re - L.A0_im
  let o30_im := o.v30_im + L.A0_re
  let o01_re := o.v01_re + L.A1_re
  let o01_im := o.v01_im + L.A1_im
  let o11_re := o.v11_re + L.B1_re
  let o11_im := o.v11_im + L.B1_im
  let o21_re := o.v21_re - L.B1_im
  let o21_im := o.v21_im + L.B1_re
  let o31_re := o.v31_re - L.A1_im
  let o31_im := o.v31_im + L.A1_re
  let o02_re := o.v02_re + L.A2_re
  let o02_im := o.v02_im + L.A2_im
  let o12_re := o.v12_re + L.B2_re
  let o12_im := o.v12_im + L.B2_im
  let o22_re := o.v22_re - L.B2_im
  let o22_im := o.v22_im + L.B2_re
  let o32_re := o.v32_re - L.A2_im
  let o32_im := o.v32_im + L.A2_re
  { v00_re := o00_re, v00_im := o00_im,
    v01_re := o01_re, v01_im := o01_im,
    v02_re := o02_re, v02_im := o02_im,
    v10_re := o10_re, v10_im := o10_im,
    v11_re := o11_re, v11_im := o11_im,
    v12_re := o12_re, v12_im := o12_im,
    v20_re := o20_re, v20_im := o20_im,
    v21_re := o21_re, v21_im := o21_im,
    v22_re := o22_re, v22_im := o22_im,
    v30_re := o30_re, v30_im := o30_im,
    v31_re := o31_re, v31_im := o31_im,
    v32_re := o32_re, v32_im := o32_im }

/-- The updates of `o00_re` … `o32_im` that end the backward branch of direction 0 of
`tm`, commented `// Projector P0+` (`tm:556-581`). -/
def tm.accumulate0_backward {R : Type} [Ring R] (L : LinkedHalfSpinor R) (o : Spinor R) : Spinor R :=
  let o00_re := o.v00_re + L.A0_re
  let o00_im := o.v00_im + L.A0_im
  let o10_re := o.v10_re + L.B0_re
  let o10_im := o.v10_im + L.B0_im
  let o20_re := o.v20_re + L.B0_im
  let o20_im := o.v20_im - L.B0_re
  let o30_re := o.v30_re + L.A0_im
  let o30_im := o.v30_im - L.A0_re
  let o01_re := o.v01_re + L.A1_re
  let o01_im := o.v01_im + L.A1_im
  let o11_re := o.v11_re + L.B1_re
  let o11_im := o.v11_im + L.B1_im
  let o21_re := o.v21_re + L.B1_im
  let o21_im := o.v21_im - L.B1_re
  let o31_re := o.v31_re + L.A1_im
  let o31_im := o.v31_im - L.A1_re
  let o02_re := o.v02_re + L.A2_re
  let o02_im := o.v02_im + L.A2_im
  let o12_re := o.v12_re + L.B2_re
  let o12_im := o.v12_im + L.B2_im
  let o22_re := o.v22_re + L.B2_im
  let o22_im := o.v22_im - L.B2_re
  let o32_re := o.v32_re + L.A2_im
  let o32_im := o.v32_im - L.A2_re
  { v00_re := o00_re, v00_im := o00_im,
    v01_re := o01_re, v01_im := o01_im,
    v02_re := o02_re, v02_im := o02_im,
    v10_re := o10_re, v10_im := o10_im,
    v11_re := o11_re, v11_im := o11_im,
    v12_re := o12_re, v12_im := o12_im,
    v20_re := o20_re, v20_im := o20_im,
    v21_re := o21_re, v21_im := o21_im,
    v22_re := o22_re, v22_im := o22_im,
    v30_re := o30_re, v30_im := o30_im,
    v31_re := o31_re, v31_im := o31_im,
    v32_re := o32_re, v32_im := o32_im }

/-- The updates of `o00_re` … `o32_im` that end the forward branch of direction 1 of
`tm`, commented `// Projector P1-` (`tm:717-742`). -/
def tm.accumulate1_forward {R : Type} [Ring R] (L : LinkedHalfSpinor R) (o : Spinor R) : Spinor R :=
  let o00_re := o.v00_re + L.A0_re
  let o00_im := o.v00_im + L.A0_im
  let o10_re := o.v10_re + L.B0_re
  let o10_im := o.v10_im + L.B0_im
  let o20_re := o.v20_re + L.B0_re
  let o20_im := o.v20_im + L.B0_im
  let o30_re := o.v30_re - L.A0_re
  let o30_im := o.v30_im - L.A0_im
  let o01_re := o.v01_re + L.A1_re
  let o01_im := o.v01_im + L.A1_im
  let o11_re := o.v11_re + L.B1_re
  let o11_im := o.v11_im + L.B1_im
  let o21_re := o.v21_re + L.B1_re
  let o21_im := o.v21_im + L.B1_im
  let o31_re := o.v31_re - L.A1_re
  let o31_im := o.v31_im - L.A1_im
  let o02_re := o.v02_re + L.A2_re
  let o02_im := o.v02_im + L.A2_im
  let o12_re := o.v12_re + L.B2_re
  let o12_im := o.v12_im + L.B2_im
  let o22_re := o.v22_re + L.B2_re
  let o22_im := o.v22_im + L.B2_im
  let o32_re := o.v32_re - L.A2_re
  let o32_im := o.v32_im - L.A2_im
  { v00_re := o00_re, v00_im := o00_im,
    v01_re := o01_re, v01_im := o01_im,
    v02_re := o02_re, v02_im := o02_im,
    v10_re := o10_re, v10_im := o10_im,
    v11_re := o11_re, v11_im := o11_im,
    v12_re := o12_re, v12_im := o12_im,
    v20_re := o20_re, v20_im := o20_im,
    v21_re := o21_re, v21_im := o21_im,
    v22_re := o22_re, v22_im := o22_im,
    v30_re := o30_re, v30_im := o30_im,
    v31_re := o31_re, v31_im := o31_im,
    v32_re := o32_re, v32_im := o32_im }

/-- The updates of `o00_re` … `o32_im` that end the backward branch of direction 1 of
`tm`, commented `// Projector P1+` (`tm:878-903`). -/
def tm.accumulate1_backward {R : Type} [Ring R] (L : LinkedHalfSpinor R) (o : Spinor R) : Spinor R :=
  let o00_re := o.v00_re + L.A0_re
  let o00_im := o.v00_im + L.A0_im
  let o10_re := o.v10_re + L.B0_re
  let o10_im := o.v10_im + L.B0_im
  let o20_re := o.v20_re - L.B0_re
  let o20_im := o.v20_im - L.B0_im
  let o30_re := o.v30_re + L.A0_re
  let o30_im := o.v30_im + L.A0_im
  let o01_re := o.v01_re + L.A1_re
  let o01_im := o.v01_im + L.A1_im
  let o11_re := o.v11_re + L.B1_re
  let o11_im := o.v11_im + L.B1_im
  let o21_re := o.v21_re - L.B1_re
  let o21_im := o.v21_im - L.B1_im
  let o31_re := o.v31_re + L.A1_re
  let o31_im := o.v31_im + L.A1_im
  let o02_re := o.v02_re + L.A2_re
  let o02_im := o.v02_im + L.A2_im
  let o12_re := o.v12_re + L.B2_re
  let o12_im := o.v12_im + L.B2_im
  let o22_re := o.v22_re - L.B2_re
  let o22_im := o.v22_im - L.B2_im
  let o32_re := o.v32_re + L.A2_re
  let o32_im := o.v32_im + L.A2_im
  { v00_re := o00_re, v00_im := o00_im,
    v01_re := o01_re, v01_im := o01_im,
    v02_re := o02_re, v02_im := o02_im,
    v10_re := o10_re, v10_im := o10_im,
    v11_re := o11_re, v11_im := o11_im,
    v12_re := o12_re, v12_im := o12_im,
    v20_re := o20_re, v20_im := o20_im,
    v21_re := o21_re, v21_im := o21_im,
    v22_re := o22_re, v22_im := o22_im,
    v30_re := o30_re, v30_im := o30_im,
    v31_re := o31_re, v31_im := o31_im,
    v32_re := o32_re, v32_im := o32_im }

/-- The updates of `o00_re` … `o32_im` that end the forward branch of direction 2 of
`tm`, commented `// Projector P2-` (`tm:1039-1064`). -/
def tm.accumulate2_forward {R : Type} [Ring R] (L : LinkedHalfSpinor R) (o : Spinor R) : Spinor R :=
  let o00_re := o.v00_re + L.A0_re
  let o00_im := o.v00_im + L.A0_im
  let o10_re := o.v10_re + L.B0_re
  let o10_im := o.v10_im + L.B0_im
  let o20_re := o.v20_re - L.A0_im
  let o20_im := o.v20_im + L.A0_re
  let o30_re := o.v30_re + L.B0_im
  let o30_im := o.v30_im - L.B0_re
  let o01_re := o.v01_re + L.A1_re
  let o01_im := o.v01_im + L.A1_im
  let o11_re := o.v11_re + L.B1_re
  let o11_im := o.v11_im + L.B1_im
  let o21_re := o.v21_re - L.A1_im
  let o21_im := o.v21_im + L.A1_re
  let o31_re := o.v31_re + L.B1_im
  let o31_im := o.v31_im - L.B1_re
  let o02_re := o.v02_re + L.A2_re
  let o02_im := o.v02_im + L.A2_im
  let o12_re := o.v12_re + L.B2_re
  let o12_im := o.v12_im + L.B2_im
  let o22_re := o.v22_re - L.A2_im
  let o22_im := o.v22_im + L.A2_re
  let o32_re := o.v32_re + L.B2_im
  let o32_im := o.v32_im - L.B2_re
  { v00_re := o00_re, v00_im := o00_im,
    v01_re := o01_re, v01_im := o01_im,
    v02_re := o02_re, v02_im := o02_im,
    v10_re := o10_re, v10_im := o10_im,
    v11_re := o11_re, v11_im := o11_im,
    v12_re := o12_re, v12_im := o12_im,
    v20_re := o20_re, v20_im := o20_im,
    v21_re := o21_re, v21_im := o21_im,
    v22_re := o22_re, v22_im := o22_im,
    v30_re := o30_re, v30_im := o30_im,
    v31_re := o31_re, v31_im := o31_im,
    v32_re := o32_re, v32_im := o32_im }

/-- The updates of `o00_re` … `o32_im` that end the backward branch of direction 2 of
`tm`, commented `// Projector P2+` (`tm:1200-1225`). -/
def tm.accumulate2_backward {R : Type} [Ring R] (L : LinkedHalfSpinor R) (o : Spinor R) : Spinor R :=
  let o00_re := o.v00_re + L.A0_re
  let o00_im := o.v00_im + L.A0_im
  let o10_re := o.v10_re + L.B0_re
  let o10_im := o.v10_im + L.B0_im
  let o20_re := o.v20_re + L.A0_im
  let o20_im := o.v20_im - L.A0_re
  let o30_re := o.v30_re - L.B0_im
  let o30_im := o.v30_im + L.B0_re
  let o01_re := o.v01_re + L.A1_re
  let o01_im := o.v01_im + L.A1_im
  let o11_re := o.v11_re + L.B1_re
  let o11_im := o.v11_im + L.B1_im
  let o21_re := o.v21_re + L.A1_im
  let o21_im := o.v21_im - L.A1_re
  let o31_re := o.v31_re - L.B1_im
  let o31_im := o.v31_im + L.B1_re
  let o02_re := o.v02_re + L.A2_re
  let o02_im := o.v02_im + L.A2_im
  let o12_re := o.v12_re + L.B2_re
  let o12_im := o.v12_im + L.B2_im
  let o22_re := o.v22_re + L.A2_im
  let o22_im := o.v22_im - L.A2_re
  let o32_re := o.v32_re - L.B2_im
  let o32_im := o.v32_im + L.B2_re
  { v00_re := o00_re, v00_im := o00_im,
    v01_re := o01_re, v01_im := o01_im,
    v02_re := o02_re, v02_im := o02_im,
    v10_re := o10_re, v10_im := o10_im,
    v11_re := o11_re, v11_im := o11_im,
    v12_re := o12_re, v12_im := o12_im,
    v20_re := o20_re, v20_im := o20_im,
    v21_re := o21_re, v21_im := o21_im,
    v22_re := o22_re, v22_im := o22_im,
    v30_re := o30_re, v30_im := o30_im,
    v31_re := o31_re, v31_im := o31_im,
    v32_re := o32_re, v32_im := o32_im }

/-- The updates of `o00_re` … `o32_im` that end the forward branch of direction 3 of
`tm`, commented `// Projector P3-` (`tm:1285-1298` and, the same text, `tm:1427-1440`).
-/
def tm.accumulate3_forward {R : Type} [Ring R] (L : LinkedHalfSpinor R) (o : Spinor R) : Spinor R :=
  let o20_re := o.v20_re + L.A0_re
  let o20_im := o.v20_im + L.A0_im
  let o30_re := o.v30_re + L.B0_re
  let o30_im := o.v30_im + L.B0_im
  let o21_re := o.v21_re + L.A1_re
  let o21_im := o.v21_im + L.A1_im
  let o31_re := o.v31_re + L.B1_re
  let o31_im := o.v31_im + L.B1_im
  let o22_re := o.v22_re + L.A2_re
  let o22_im := o.v22_im + L.A2_im
  let o32_re := o.v32_re + L.B2_re
  let o32_im := o.v32_im + L.B2_im
  { v00_re := o.v00_re, v00_im := o.v00_im,
    v01_re := o.v01_re, v01_im := o.v01_im,
    v02_re := o.v02_re, v02_im := o.v02_im,
    v10_re := o.v10_re, v10_im := o.v10_im,
    v11_re := o.v11_re, v11_im := o.v11_im,
    v12_re := o.v12_re, v12_im := o.v12_im,
    v20_re := o20_re, v20_im := o20_im,
    v21_re := o21_re, v21_im := o21_im,
    v22_re := o22_re, v22_im := o22_im,
    v30_re := o30_re, v30_im := o30_im,
    v31_re := o31_re, v31_im := o31_im,
    v32_re := o32_re, v32_im := o32_im }

/-- The updates of `o00_re` … `o32_im` that end the backward branch of direction 3 of
`tm`, commented `// Projector P3+` (`tm:1501-1514` and, the same text, `tm:1643-1656`).
-/
def tm.accumulate3_backward {R : Type} [Ring R] (L : LinkedHalfSpinor R) (o : Spinor R) : Spinor R :=
  let o00_re := o.v00_re + L.A0_re
  let o00_im := o.v00_im + L.A0_im
  let o10_re := o.v10_re + L.B0_re
  let o10_im := o.v10_im + L.B0_im
  let o01_re := o.v01_re + L.A1_re
  let o01_im := o.v01_im + L.A1_im
  let o11_re := o.v11_re + L.B1_re
  let o11_im := o.v11_im + L.B1_im
  let o02_re := o.v02_re + L.A2_re
  let o02_im := o.v02_im + L.A2_im
  let o12_re := o.v12_re + L.B2_re
  let o12_im := o.v12_im + L.B2_im
  { v00_re := o00_re, v00_im := o00_im,
    v01_re := o01_re, v01_im := o01_im,
    v02_re := o02_re, v02_im := o02_im,
    v10_re := o10_re, v10_im := o10_im,
    v11_re := o11_re, v11_im := o11_im,
    v12_re := o12_re, v12_im := o12_im,
    v20_re := o.v20_re, v20_im := o.v20_im,
    v21_re := o.v21_re, v21_im := o.v21_im,
    v22_re := o.v22_re, v22_im := o.v22_im,
    v30_re := o.v30_re, v30_im := o.v30_im,
    v31_re := o.v31_re, v31_im := o.v31_im,
    v32_re := o.v32_re, v32_im := o.v32_im }

/-- The updates of `o00_re` … `o32_im` that end the forward branch of direction 0 of
`tmc`, commented `// Projector P0+` (`tmc:791-816`). -/
def tmc.accumulate0_forward {R : Type} [Ring R] (L : LinkedHalfSpinor R) (o : Spinor R) : Spinor R :=
  let o00_re := o.v00_re + L.A0_re
  let o00_im := o.v00_im + L.A0_im
  let o10_re := o.v10_re + L.B0_re
  let o10_im := o.v10_im + L.B0_im
  let o20_re := o.v20_re + L.B0_im
  let o20_im := o.v20_im - L.B0_re
  let o30_re := o.v30_re + L.A0_im
  let o30_im := o.v30_im - L.A0_re
  let o01_re := o.v01_re + L.A1_re
  let o01_im := o.v01_im + L.A1_im
  let o11_re := o.v11_re + L.B1_re
  let o11_im := o.v11_im + L.B1_im
  let o21_re := o.v21_re + L.B1_im
  let o21_im := o.v21_im - L.B1_re
  let o31_re := o.v31_re + L.A1_im
  let o31_im := o.v31_im - L.A1_re
  let o02_re := o.v02_re + L.A2_re
  let o02_im := o.v02_im + L.A2_im
  let o12_re := o.v12_re + L.B2_re
  let o12_im := o.v12_im + L.B2_im
  let o22_re := o.v22_re + L.B2_im
  let o22_im := o.v22_im - L.B2_re
  let o32_re := o.v32_re + L.A2_im
  let o32_im := o.v32_im - L.A2_re
  { v00_re := o00_re, v00_im := o00_im,
    v01_re := o01_re, v01_im := o01_im,
    v02_re := o02_re, v02_im := o02_im,
    v10_re := o10_re, v10_im := o10_im,
    v11_re := o11_re, v11_im := o11_im,
    v12_re := o12_re, v12_im := o12_im,
    v20_re := o20_re, v20_im := o20_im,
    v21_re := o21_re, v21_im := o21_im,
    v22_re := o22_re, v22_im := o22_im,
    v30_re := o30_re, v30_im := o30_im,
    v31_re := o31_re, v31_im := o31_im,
    v32_re := o32_re, v32_im := o32_im }

/-- The updates of `o00_re` … `o32_im` that end the backward branch of direction 0 of
`tmc`, commented `// Projector P0-` (`tmc:952-977`). -/
def tmc.accumulate0_backward {R : Type} [Ring R] (L : LinkedHalfSpinor R) (o : Spinor R) : Spinor R :=
  let o00_re := o.v00_re + L.A0_re
  let o00_im := o.v00_im + L.A0_im
  let o10_re := o.v10_re + L.B0_re
  let o10_im := o.v10_im + L.B0_im
  let o20_re := o.v20_re - L.B0_im
  let o20_im := o.v20_im + L.B0_re
  let o30_re := o.v30_re - L.A0_im
  let o30_im := o.v30_im + L.A0_re
  let o01_re := o.v01_re + L.A1_re
  let o01_im := o.v01_im + L.A1_im
  let o11_re := o.v11_re + L.B1_re
  let o11_im := o.v11_im + L.B1_im
  let o21_re := o.v21_re - L.B1_im
  let o21_im := o.v21_im + L.B1_re
  let o31_re := o.v31_re - L.A1_im
  let o31_im := o.v31_im + L.A1_re
  let o02_re := o.v02_re + L.A2_re
  let o02_im := o.v02_im + L.A2_im
  let o12_re := o.v12_re + L.B2_re
  let o12_im := o.v12_im + L.B2_im
  let o22_re := o.v22_re - L.B2_im
  let o22_im := o.v22_im + L.B2_re
  let o32_re := o.v32_re - L.A2_im
  let o32_im := o.v32_im + L.A2_re
  { v00_re := o00_re, v00_im := o00_im,
    v01_re := o01_re, v01_im := o01_im,
    v02_re := o02_re, v02_im := o02_im,
    v10_re := o10_re, v10_im := o10_im,
    v11_re := o11_re, v11_im := o11_im,
    v12_re := o12_re, v12_im := o12_im,
    v20_re := o20_re, v20_im := o20_im,
    v21_re := o21_re, v21_im := o21_im,
    v22_re := o22_re, v22_im := o22_im,
    v30_re := o30_re, v30_im := o30_im,
    v31_re := o31_re, v31_im := o31_im,
    v32_re := o32_re, v32_im := o32_im }

/-- The updates of `o00_re` … `o32_im` that end the forward branch of direction 1 of
`tmc`, commented `// Projector P1+` (`tmc:1113-1138`). -/
def tmc.accumulate1_forward {R : Type} [Ring R] (L : LinkedHalfSpinor R) (o : Spinor R) : Spinor R :=
  let o00_re := o.v00_re + L.A0_re
  let o00_im := o.v00_im + L.A0_im
  let o10_re := o.v10_re + L.B0_re
  let o10_im := o.v10_im + L.B0_im
  let o20_re := o.v20_re - L.B0_re
  let o20_im := o.v20_im - L.B0_im
  let o30_re := o.v30_re + L.A0_re
  let o30_im := o.v30_im + L.A0_im
  let o01_re := o.v01_re + L.A1_re
  let o01_im := o.v01_im + L.A1_im
  let o11_re := o.v11_re + L.B1_re
  let o11_im := o.v11_im + L.B1_im
  let o21_re := o.v21_re - L.B1_re
  let o21_im := o.v21_im - L.B1_im
  let o31_re := o.v31_re + L.A1_re
  let o31_im := o.v31_im + L.A1_im
  let o02_re := o.v02_re + L.A2_re
  let o02_im := o.v02_im + L.A2_im
  let o12_re := o.v12_re + L.B2_re
  let o12_im := o.v12_im + L.B2_im
  let o22_re := o.v22_re - L.B2_re
  let o22_im := o.v22_im - L.B2_im
  let o32_re := o.v32_re + L.A2_re
  let o32_im := o.v32_im + L.A2_im
  { v00_re := o00_re, v00_im := o00_im,
    v01_re := o01_re, v01_im := o01_im,
    v02_re := o02_re, v02_im := o02_im,
    v10_re := o10_re, v10_im := o10_im,
    v11_re := o11_re, v11_im := o11_im,
    v12_re := o12_re, v12_im := o12_im,
    v20_re := o20_re, v20_im := o20_im,
    v21_re := o21_re, v21_im := o21_im,
    v22_re := o22_re, v22_im := o22_im,
    v30_re := o30_re, v30_im := o30_im,
    v31_re := o31_re, v31_im := o31_im,
    v32_re := o32_re, v32_im := o32_im }

/-- The updates of `o00_re` … `o32_im` that end the backward branch of direction 1 of
`tmc`, commented `// Projector P1-` (`tmc:1274-1299`). -/
def tmc.accumulate1_backward {R : Type} [Ring R] (L : LinkedHalfSpinor R) (o : Spinor R) : Spinor R :=
  let o00_re := o.v00_re + L.A0_re
  let o00_im := o.v00_im + L.A0_im
  let o10_re := o.v10_re + L.B0_re
  let o10_im := o.v10_im + L.B0_im
  let o20_re := o.v20_re + L.B0_re
  let o20_im := o.v20_im + L.B0_im
  let o30_re := o.v30_re - L.A0_re
  let o30_im := o.v30_im - L.A0_im
  let o01_re := o.v01_re + L.A1_re
  let o01_im := o.v01_im + L.A1_im
  let o11_re := o.v11_re + L.B1_re
  let o11_im := o.v11_im + L.B1_im
  let o21_re := o.v21_re + L.B1_re
  let o21_im := o.v21_im + L.B1_im
  let o31_re := o.v31_re - L.A1_re
  let o31_im := o.v31_im - L.A1_im
  let o02_re := o.v02_re + L.A2_re
  let o02_im := o.v02_im + L.A2_im
  let o12_re := o.v12_re + L.B2_re
  let o12_im := o.v12_im + L.B2_im
  let o22_re := o.v22_re + L.B2_re
  let o22_im := o.v22_im + L.B2_im
  let o32_re := o.v32_re - L.A2_re
  let o32_im := o.v32_im - L.A2_im
  { v00_re := o00_re, v00_im := o00_im,
    v01_re := o01_re, v01_im := o01_im,
    v02_re := o02_re, v02_im := o02_im,
    v10_re := o10_re, v10_im := o10_im,
    v11_re := o11_re, v11_im := o11_im,
    v12_re := o12_re, v12_im := o12_im,
    v20_re := o20_re, v20_im := o20_im,
    v21_re := o21_re, v21_im := o21_im,
    v22_re := o22_re, v22_im := o22_im,
    v30_re := o30_re, v30_im := o30_im,
    v31_re := o31_re, v31_im := o31_im,
    v32_re := o32_re, v32_im := o32_im }

/-- The updates of `o00_re` … `o32_im` that end the forward branch of direction 2 of
`tmc`, commented `// Projector P2+` (`tmc:1435-1460`). -/
def tmc.accumulate2_forward {R : Type} [Ring R] (L : LinkedHalfSpinor R) (o : Spinor R) : Spinor R :=
  let o00_re := o.v00_re + L.A0_re
  let o00_im := o.v00_im + L.A0_im
  let o10_re := o.v10_re + L.B0_re
  let o10_im := o.v10_im + L.B0_im
  let o20_re := o.v20_re + L.A0_im
  let o20_im := o.v20_im - L.A0_re
  let o30_re := o.v30_re - L.B0_im
  let o30_im := o.v30_im + L.B0_re
  let o01_re := o.v01_re + L.A1_re
  let o01_im := o.v01_im + L.A1_im
  let o11_re := o.v11_re + L.B1_re
  let o11_im := o.v11_im + L.B1_im
  let o21_re := o.v21_re + L.A1_im
  let o21_im := o.v21_im - L.A1_re
  let o31_re := o.v31_re - L.B1_im
  let o31_im := o.v31_im + L.B1_re
  let o02_re := o.v02_re + L.A2_re
  let o02_im := o.v02_im + L.A2_im
  let o12_re := o.v12_re + L.B2_re
  let o12_im := o.v12_im + L.B2_im
  let o22_re := o.v22_re + L.A2_im
  let o22_im := o.v22_im - L.A2_re
  let o32_re := o.v32_re - L.B2_im
  let o32_im := o.v32_im + L.B2_re
  { v00_re := o00_re, v00_im := o00_im,
    v01_re := o01_re, v01_im := o01_im,
    v02_re := o02_re, v02_im := o02_im,
    v10_re := o10_re, v10_im := o10_im,
    v11_re := o11_re, v11_im := o11_im,
    v12_re := o12_re, v12_im := o12_im,
    v20_re := o20_re, v20_im := o20_im,
    v21_re := o21_re, v21_im := o21_im,
    v22_re := o22_re, v22_im := o22_im,
    v30_re := o30_re, v30_im := o30_im,
    v31_re := o31_re, v31_im := o31_im,
    v32_re := o32_re, v32_im := o32_im }

/-- The updates of `o00_re` … `o32_im` that end the backward branch of direction 2 of
`tmc`, commented `// Projector P2-` (`tmc:1596-1621`). -/
def tmc.accumulate2_backward {R : Type} [Ring R] (L : LinkedHalfSpinor R) (o : Spinor R) : Spinor R :=
  let o00_re := o.v00_re + L.A0_re
  let o00_im := o.v00_im + L.A0_im
  let o10_re := o.v10_re + L.B0_re
  let o10_im := o.v10_im + L.B0_im
  let o20_re := o.v20_re - L.A0_im
  let o20_im := o.v20_im + L.A0_re
  let o30_re := o.v30_re + L.B0_im
  let o30_im := o.v30_im - L.B0_re
  let o01_re := o.v01_re + L.A1_re
  let o01_im := o.v01_im + L.A1_im
  let o11_re := o.v11_re + L.B1_re
  let o11_im := o.v11_im + L.B1_im
  let o21_re := o.v21_re - L.A1_im
  let o21_im := o.v21_im + L.A1_re
  let o31_re := o.v31_re + L.B1_im
  let o31_im := o.v31_im - L.B1_re
  let o02_re := o.v02_re + L.A2_re
  let o02_im := o.v02_im + L.A2_im
  let o12_re := o.v12_re + L.B2_re
  let o12_im := o.v12_im + L.B2_im
  let o22_re := o.v22_re - L.A2_im
  let o22_im := o.v22_im + L.A2_re
  let o32_re := o.v32_re + L.B2_im
  let o32_im := o.v32_im - L.B2_re
  { v00_re := o00_re, v00_im := o00_im,
    v01_re := o01_re, v01_im := o01_im,
    v02_re := o02_re, v02_im := o02_im,
    v10_re := o10_re, v10_im := o10_im,
    v11_re := o11_re, v11_im := o11_im,
    v12_re := o12_re, v12_im := o12_im,
    v20_re := o20_re, v20_im := o20_im,
    v21_re := o21_re, v21_im := o21_im,
    v22_re := o22_re, v22_im := o22_im,
    v30_re := o30_re, v30_im := o30_im,
    v31_re := o31_re, v31_im := o31_im,
    v32_re := o32_re, v32_im := o32_im }

/-- The updates of `o00_re` … `o32_im` that end the forward branch of direction 3 of
`tmc`, commented `// Projector P3+` (`tmc:1672-1685` and, the same text,
`tmc:1805-1818`). -/
def tmc.accumulate3_forward {R : Type} [Ring R] (L : LinkedHalfSpinor R) (o : Spinor R) : Spinor R :=
  let o00_re := o.v00_re + L.A0_re
  let o00_im := o.v00_im + L.A0_im
  let o10_re := o.v10_re + L.B0_re
  let o10_im := o.v10_im + L.B0_im
  let o01_re := o.v01_re + L.A1_re
  let o01_im := o.v01_im + L.A1_im
  let o11_re := o.v11_re + L.B1_re
  let o11_im := o.v11_im + L.B1_im
  let o02_re := o.v02_re + L.A2_re
  let o02_im := o.v02_im + L.A2_im
  let o12_re := o.v12_re + L.B2_re
  let o12_im := o.v12_im + L.B2_im
  { v00_re := o00_re, v00_im := o00_im,
    v01_re := o01_re, v01_im := o01_im,
    v02_re := o02_re, v02_im := o02_im,
    v10_re := o10_re, v10_im := o10_im,
    v11_re := o11_re, v11_im := o11_im,
    v12_re := o12_re, v12_im := o12_im,
    v20_re := o.v20_re, v20_im := o.v20_im,
    v21_re := o.v21_re, v21_im := o.v21_im,
    v22_re := o.v22_re, v22_im := o.v22_im,
    v30_re := o.v30_re, v30_im := o.v30_im,
    v31_re := o.v31_re, v31_im := o.v31_im,
    v32_re := o.v32_re, v32_im := o.v32_im }

/-- The updates of `o00_re` … `o32_im` that end the backward branch of direction 3 of
`tmc`, commented `// Projector P3-` (`tmc:1870-1883` and, the same text,
`tmc:2003-2016`). -/
def tmc.accumulate3_backward {R : Type} [Ring R] (L : LinkedHalfSpinor R) (o : Spinor R) : Spinor R :=
  let o20_re := o.v20_re + L.A0_re
  let o20_im := o.v20_im + L.A0_im
  let o30_re := o.v30_re + L.B0_re
  let o30_im := o.v30_im + L.B0_im
  let o21_re := o.v21_re + L.A1_re
  let o21_im := o.v21_im + L.A1_im
  let o31_re := o.v31_re + L.B1_re
  let o31_im := o.v31_im + L.B1_im
  let o22_re := o.v22_re + L.A2_re
  let o22_im := o.v22_im + L.A2_im
  let o32_re := o.v32_re + L.B2_re
  let o32_im := o.v32_im + L.B2_im
  { v00_re := o.v00_re, v00_im := o.v00_im,
    v01_re := o.v01_re, v01_im := o.v01_im,
    v02_re := o.v02_re, v02_im := o.v02_im,
    v10_re := o.v10_re, v10_im := o.v10_im,
    v11_re := o.v11_re, v11_im := o.v11_im,
    v12_re := o.v12_re, v12_im := o.v12_im,
    v20_re := o20_re, v20_im := o20_im,
    v21_re := o21_re, v21_im := o21_im,
    v22_re := o22_re, v22_im := o22_im,
    v30_re := o30_re, v30_im := o30_im,
    v31_re := o31_re, v31_im := o31_im,
    v32_re := o32_re, v32_im := o32_im }

/-- The body of `if (isActive(dim,0,+1,x1,x2,x3,x4,param.commDim,param.X) && x1==X1m1 )`
(`tm:263-422`): the half spinor read from the ghost zone is multiplied by the link and
added to the output spinor. -/
def tm.branch0_forward {R : Type} [Ring R] (G : Link R) (I : HalfSpinorRegs R) (o : Spinor R) : Spinor R :=
  tm.accumulate0_forward (multiplyForward G (copyHalfSpinor I)) o

/-- The body of `if (isActive(dim,0,-1,x1,x2,x3,x4,param.commDim,param.X) && x1==0 )`
(`tm:424-583`): the half spinor read from the ghost zone is multiplied by the link and
added to the output spinor. -/
def tm.branch0_backward {R : Type} [Ring R] (G : Link R) (I : HalfSpinorRegs R) (o : Spinor R) : Spinor R :=
  tm.accumulate0_backward (multiplyBackward G (copyHalfSpinor I)) o

/-- The body of `if (isActive(dim,1,+1,x1,x2,x3,x4,param.commDim,param.X) && x2==X2m1 )`
(`tm:585-744`): the half spinor read from the ghost zone is multiplied by the link and
added to the output spinor. -/
def tm.branch1_forward {R : Type} [Ring R] (G : Link R) (I : HalfSpinorRegs R) (o : Spinor R) : Spinor R :=
  tm.accumulate1_forward (multiplyForward G (copyHalfSpinor I)) o

/-- The body of `if (isActive(dim,1,-1,x1,x2,x3,x4,param.commDim,param.X) && x2==0 )`
(`tm:746-905`): the half spinor read from the ghost zone is multiplied by the link and
added to the output spinor. -/
def tm.branch1_backward {R : Type} [Ring R] (G : Link R) (I : HalfSpinorRegs R) (o : Spinor R) : Spinor R :=
  tm.accumulate1_backward (multiplyBackward G (copyHalfSpinor I)) o

/-- The body of `if (isActive(dim,2,+1,x1,x2,x3,x4,param.commDim,param.X) && x3==X3m1 )`
(`tm:907-1066`): the half spinor read from the ghost zone is multiplied by the link and
added to the output spinor. -/
def tm.branch2_forward {R : Type} [Ring R] (G : Link R) (I : HalfSpinorRegs R) (o : Spinor R) : Spinor R :=
  tm.accumulate2_forward (multiplyForward G (copyHalfSpinor I)) o

/-- The body of `if (isActive(dim,2,-1,x1,x2,x3,x4,param.commDim,param.X) && x3==0 )`
(`tm:1068-1227`): the half spinor read from the ghost zone is multiplied by the link and
added to the output spinor. -/
def tm.branch2_backward {R : Type} [Ring R] (G : Link R) (I : HalfSpinorRegs R) (o : Spinor R) : Spinor R :=
  tm.accumulate2_backward (multiplyBackward G (copyHalfSpinor I)) o

/-- The body of `if (isActive(dim,3,+1,x1,x2,x3,x4,param.commDim,param.X) && x4==X4m1 )`
(`tm:1229-1443`), with its two parts `if (gauge_fixed && ga_idx < X4X3X2X1hmX3X2X1h) { …
} else { … }` (`tm:1245`); `G` is the link the `else` part reads. -/
def tm.branch3_forward {R : Type} [Ring R] (TWIST_INV_DSLASH : Bool) (gauge_fixed : Bool)
    (ga_idx X4X3X2X1hmX3X2X1h : Int) (G : Link R) (I : HalfSpinorRegs R) (o : Spinor R) :
    Spinor R :=
  if gauge_fixed && decide (ga_idx < X4X3X2X1hmX3X2X1h) then
    tm.accumulate3_forward (identityGauge (tm.temporalHalfSpinor TWIST_INV_DSLASH I)) o
  else
    tm.accumulate3_forward (multiplyForward G (tm.temporalHalfSpinor TWIST_INV_DSLASH I)) o

/-- The body of `if (isActive(dim,3,-1,x1,x2,x3,x4,param.commDim,param.X) && x4==0 )`
(`tm:1445-1659`), with its two parts `if (gauge_fixed && ga_idx < X4X3X2X1hmX3X2X1h) { …
} else { … }` (`tm:1461`); `G` is the link the `else` part reads. -/
def tm.branch3_backward {R : Type} [Ring R] (TWIST_INV_DSLASH : Bool) (gauge_fixed : Bool)
    (ga_idx X4X3X2X1hmX3X2X1h : Int) (G : Link R) (I : HalfSpinorRegs R) (o : Spinor R) :
    Spinor R :=
  if gauge_fixed && decide (ga_idx < X4X3X2X1hmX3X2X1h) then
    tm.accumulate3_backward (identityGauge (tm.temporalHalfSpinor TWIST_INV_DSLASH I)) o
  else
    tm.accumulate3_backward (multiplyBackward G (tm.temporalHalfSpinor TWIST_INV_DSLASH I)) o

/-- The body of `if (isActive(dim,0,+1,x1,x2,x3,x4,param.commDim,param.X) && x1==X1m1 )`
(`tmc:659-818`): the half spinor read from the ghost zone is multiplied by the link and
added to the output spinor. -/
def tmc.branch0_forward {R : Type} [Ring R] (G : Link R) (I : HalfSpinorRegs R) (o : Spinor R) : Spinor R :=
  tmc.accumulate0_forward (multiplyForward G (copyHalfSpinor I)) o

/-- The body of `if (isActive(dim,0,-1,x1,x2,x3,x4,param.commDim,param.X) && x1==0 )`
(`tmc:820-979`): the half spinor read from the ghost zone is multiplied by the link and
added to the output spinor. -/
def tmc.branch0_backward {R : Type} [Ring R] (G : Link R) (I : HalfSpinorRegs R) (o : Spinor R) : Spinor R :=
  tmc.accumulate0_backward (multiplyBackward G (copyHalfSpinor I)) o

/-- The body of `if (isActive(dim,1,+1,x1,x2,x3,x4,param.commDim,param.X) && x2==X2m1 )`
(`tmc:981-1140`): the half spinor read from the ghost zone is multiplied by the link and
added to the output spinor. -/
def tmc.branch1_forward {R : Type} [Ring R] (G : Link R) (I : HalfSpinorRegs R) (o : Spinor R) : Spinor R :=
  tmc.accumulate1_forward (multiplyForward G (copyHalfSpinor I)) o

/-- The body of `if (isActive(dim,1,-1,x1,x2,x3,x4,param.commDim,param.X) && x2==0 )`
(`tmc:1142-1301`): the half spinor read from the ghost zone is multiplied by the link
and added to the output spinor. -/
def tmc.branch1_backward {R : Type} [Ring R] (G : Link R) (I : HalfSpinorRegs R) (o : Spinor R) : Spinor R :=
  tmc.accumulate1_backward (multiplyBackward G (copyHalfSpinor I)) o

/-- The body of `if (isActive(dim,2,+1,x1,x2,x3,x4,param.commDim,param.X) && x3==X3m1 )`
(`tmc:1303-1462`): the half spinor read from the ghost zone is multiplied by the link
and added to the output spinor. -/
def tmc.branch2_forward {R : Type} [Ring R] (G : Link R) (I : HalfSpinorRegs R) (o : Spinor R) : Spinor R :=
  tmc.accumulate2_forward (multiplyForward G (copyHalfSpinor I)) o

/-- The body of `if (isActive(dim,2,-1,x1,x2,x3,x4,param.commDim,param.X) && x3==0 )`
(`tmc:1464-1623`): the half spinor read from the ghost zone is multiplied by the link
and added to the output spinor. -/
def tmc.branch2_backward {R : Type} [Ring R] (G : Link R) (I : HalfSpinorRegs R) (o : Spinor R) : Spinor R :=
  tmc.accumulate2_backward (multiplyBackward G (copyHalfSpinor I)) o

/-- The body of `if (isActive(dim,3,+1,x1,x2,x3,x4,param.commDim,param.X) && x4==X4m1 )`
(`tmc:1625-1821`), with its two parts `if (gauge_fixed && ga_idx < X4X3X2X1hmX3X2X1h) {
… } else { … }` (`tmc:1641`); `G` is the link the `else` part reads. -/
def tmc.branch3_forward {R : Type} [Ring R] (TPROJSCALE : Int) (gauge_fixed : Bool)
    (ga_idx X4X3X2X1hmX3X2X1h : Int) (G : Link R) (I : HalfSpinorRegs R) (o : Spinor R) :
    Spinor R :=
  if gauge_fixed && decide (ga_idx < X4X3X2X1hmX3X2X1h) then
    tmc.accumulate3_forward (identityGauge (tmc.temporalHalfSpinor TPROJSCALE I)) o
  else
    tmc.accumulate3_forward (multiplyForward G (tmc.temporalHalfSpinor TPROJSCALE I)) o

/-- The body of `if (isActive(dim,3,-1,x1,x2,x3,x4,param.commDim,param.X) && x4==0 )`
(`tmc:1823-2019`), with its two parts `if (gauge_fixed && ga_idx < X4X3X2X1hmX3X2X1h) {
… } else { … }` (`tmc:1839`); `G` is the link the `else` part reads. -/
def tmc.branch3_backward {R : Type} [Ring R] (TPROJSCALE : Int) (gauge_fixed : Bool)
    (ga_idx X4X3X2X1hmX3X2X1h : Int) (G : Link R) (I : HalfSpinorRegs R) (o : Spinor R) :
    Spinor R :=
  if gauge_fixed && decide (ga_idx < X4X3X2X1hmX3X2X1h) then
    tmc.accumulate3_backward (identityGauge (tmc.temporalHalfSpinor TPROJSCALE I)) o
  else
    tmc.accumulate3_backward (multiplyBackward G (tmc.temporalHalfSpinor TPROJSCALE I)) o


/-! ### The final stage of the exterior kernels -/

/-- The statements `o00_re += acc00_re; … o32_im += acc32_im;` (`tm:1670-1693`). -/
def tm.addAccum {R : Type} [Ring R] (acc : Spinor R) (o : Spinor R) : Spinor R :=
  let o00_re := o.v00_re + acc.v00_re
  let o00_im := o.v00_im + acc.v00_im
  let o01_re := o.v01_re + acc.v01_re
  let o01_im := o.v01_im + acc.v01_im
  let o02_re := o.v02_re + acc.v02_re
  let o02_im := o.v02_im + acc.v02_im
  let o10_re := o.v10_re + acc.v10_re
  let o10_im := o.v10_im + acc.v10_im
  let o11_re := o.v11_re + acc.v11_re
  let o11_im := o.v11_im + acc.v11_im
  let o12_re := o.v12_re + acc.v12_re
  let o12_im := o.v12_im + acc.v12_im
  let o20_re := o.v20_re + acc.v20_re
  let o20_im := o.v20_im + acc.v20_im
  let o21_re := o.v21_re + acc.v21_re
  let o21_im := o.v21_im + acc.v21_im
  let o22_re := o.v22_re + acc.v22_re
  let o22_im := o.v22_im + acc.v22_im
  let o30_re := o.v30_re + acc.v30_re
  let o30_im := o.v30_im + acc.v30_im
  let o31_re := o.v31_re + acc.v31_re
  let o31_im := o.v31_im + acc.v31_im
  let o32_re := o.v32_re + acc.v32_re
  let o32_im := o.v32_im + acc.v32_im
  { v00_re := o00_re, v00_im := o00_im,
    v01_re := o01_re, v01_im := o01_im,
    v02_re := o02_re, v02_im := o02_im,
    v10_re := o10_re, v10_im := o10_im,
    v11_re := o11_re, v11_im := o11_im,
    v12_re := o12_re, v12_im := o12_im,
    v20_re := o20_re, v20_im := o20_im,
    v21_re := o21_re, v21_im := o21_im,
    v22_re := o22_re, v22_im := o22_im,
    v30_re := o30_re, v30_im := o30_im,
    v31_re := o31_re, v31_im := o31_im,
    v32_re := o32_re, v32_im := o32_im }

/-- The statements `o00_re = b*o00_re+acc00_re; … o32_im = b*o32_im+acc32_im;`
(`tm:1698-1721`). -/
def tm.scaleAddAccum {R : Type} [Ring R] (b : R) (acc : Spinor R) (o : Spinor R) : Spinor R :=
  let o00_re := b * o.v00_re + acc.v00_re
  let o00_im := b * o.v00_im + acc.v00_im
  let o01_re := b * o.v01_re + acc.v01_re
  let o01_im := b * o.v01_im + acc.v01_im
  let o02_re := b * o.v02_re + acc.v02_re
  let o02_im := b * o.v02_im + acc.v02_im
  let o10_re := b * o.v10_re + acc.v10_re
  let o10_im := b * o.v10_im + acc.v10_im
  let o11_re := b * o.v11_re + acc.v11_re
  let o11_im := b * o.v11_im + acc.v11_im
  let o12_re := b * o.v12_re + acc.v12_re
  let o12_im := b * o.v12_im + acc.v12_im
  let o20_re := b * o.v20_re + acc.v20_re
  let o20_im := b * o.v20_im + acc.v20_im
  let o21_re := b * o.v21_re + acc.v21_re
  let o21_im := b * o.v21_im + acc.v21_im
  let o22_re := b * o.v22_re + acc.v22_re
  let o22_im := b * o.v22_im + acc.v22_im
  let o30_re := b * o.v30_re + acc.v30_re
  let o30_im := b * o.v30_im + acc.v30_im
  let o31_re := b * o.v31_re + acc.v31_re
  let o31_im := b * o.v31_im + acc.v31_im
  let o32_re := b * o.v32_re + acc.v32_re
  let o32_im := b * o.v32_im + acc.v32_im
  { v00_re := o00_re, v00_im := o00_im,
    v01_re := o01_re, v01_im := o01_im,
    v02_re := o02_re, v02_im := o02_im,
    v10_re := o10_re, v10_im := o10_im,
    v11_re := o11_re, v11_im := o11_im,
    v12_re := o12_re, v12_im := o12_im,
    v20_re := o20_re, v20_im := o20_im,
    v21_re := o21_re, v21_im := o21_im,
    v22_re := o22_re, v22_im := o22_im,
    v30_re := o30_re, v30_im := o30_im,
    v31_re := o31_re, v31_im := o31_im,
    v32_re := o32_re, v32_im := o32_im }

/-- The statements `o00_re = b*o00_re + acc00_re; … o32_im = b*o32_im + acc32_im;`
(`tmc:2037-2060`). -/
def tmc.scaleAddAccum {R : Type} [Ring R] (b : R) (acc : Spinor R) (o : Spinor R) : Spinor R :=
  let o00_re := b * o.v00_re + acc.v00_re
  let o00_im := b * o.v00_im + acc.v00_im
  let o01_re := b * o.v01_re + acc.v01_re
  let o01_im := b * o.v01_im + acc.v01_im
  let o02_re := b * o.v02_re + acc.v02_re
  let o02_im := b * o.v02_im + acc.v02_im
  let o10_re := b * o.v10_re + acc.v10_re
  let o10_im := b * o.v10_im + acc.v10_im
  let o11_re := b * o.v11_re + acc.v11_re
  let o11_im := b * o.v11_im + acc.v11_im
  let o12_re := b * o.v12_re + acc.v12_re
  let o12_im := b * o.v12_im + acc.v12_im
  let o20_re := b * o.v20_re + acc.v20_re
  let o20_im := b * o.v20_im + acc.v20_im
  let o21_re := b * o.v21_re + acc.v21_re
  let o21_im := b * o.v21_im + acc.v21_im
  let o22_re := b * o.v22_re + acc.v22_re
  let o22_im := b * o.v22_im + acc.v22_im
  let o30_re := b * o.v30_re + acc.v30_re
  let o30_im := b * o.v30_im + acc.v30_im
  let o31_re := b * o.v31_re + acc.v31_re
  let o31_im := b * o.v31_im + acc.v31_im
  let o32_re := b * o.v32_re + acc.v32_re
  let o32_im := b * o.v32_im + acc.v32_im
  { v00_re := o00_re, v00_im := o00_im,
    v01_re := o01_re, v01_im := o01_im,
    v02_re := o02_re, v02_im := o02_im,
    v10_re := o10_re, v10_im := o10_im,
    v11_re := o11_re, v11_im := o11_im,
    v12_re := o12_re, v12_im := o12_im,
    v20_re := o20_re, v20_im := o20_im,
    v21_re := o21_re, v21_im := o21_im,
    v22_re := o22_re, v22_im := o22_im,
    v30_re := o30_re, v30_im := o30_im,
    v31_re := o31_re, v31_im := o31_im,
    v32_re := o32_re, v32_im := o32_im }

/-- The block that ends `tm` before `WRITE_SPINOR` (`tm:1661-1728`).  `accum` holds the
registers `acc00_re` … `acc32_im` as `READ_ACCUM` fills them, `o` the output spinor on
entry, `a` and `b` the kernel's scalars; the macros `APPLY_TWIST_INV(a, b, o)`, which
updates `o`, and `APPLY_TWIST(a, acc)`, which updates `acc`, are defined outside the
file and are arguments. -/
def tm.finalStage {R : Type} [Ring R] (DSLASH_XPAY TWIST_XPAY TWIST_INV_DSLASH : Bool)
    (APPLY_TWIST_INV : R → R → Spinor R → Spinor R) (APPLY_TWIST : R → Spinor R → Spinor R)
    (a b : R) (accum : Spinor R) (o : Spinor R) : Spinor R :=
  if DSLASH_XPAY then
    let acc := accum
    if TWIST_XPAY = false then
      let o := if TWIST_INV_DSLASH = false then APPLY_TWIST_INV a b o else o
      tm.addAccum acc o
    else
      let acc := APPLY_TWIST a acc
      tm.scaleAddAccum b acc o
  else
    if TWIST_INV_DSLASH = false then APPLY_TWIST_INV a b o else o

/-- The block that ends `tmc` before `WRITE_SPINOR` (`tmc:2021-2070`).  `accum` holds
the registers `acc00_re` … `acc32_im` as `READ_ACCUM` fills them, `o` the output spinor
on entry, `a` and `b` the kernel's scalars; the macros
`APPLY_CLOVER_TWIST_INV(c, cinv, -a, o)` and `APPLY_CLOVER_TWIST_DYN_INV(c, -a, o)`,
which update `o`, and `APPLY_CLOVER_TWIST(c, -a, acc)`, which updates `acc`, are defined
outside the file and are arguments, taking the scalar passed and the spinor updated. -/
def tmc.finalStage {R : Type} [Ring R]
    (DSLASH_XPAY CLOVER_TWIST_INV_DSLASH CLOVER_TWIST_XPAY DYNAMIC_CLOVER : Bool)
    (APPLY_CLOVER_TWIST_INV APPLY_CLOVER_TWIST_DYN_INV APPLY_CLOVER_TWIST :
      R → Spinor R → Spinor R)
    (a b : R) (accum : Spinor R) (o : Spinor R) : Spinor R :=
  if DSLASH_XPAY then
    let acc := accum
    let o_acc : Spinor R × Spinor R :=
      if CLOVER_TWIST_INV_DSLASH = false then
        if CLOVER_TWIST_XPAY = false then
          if DYNAMIC_CLOVER = false then (APPLY_CLOVER_TWIST_INV (-a) o, acc)
          else (APPLY_CLOVER_TWIST_DYN_INV (-a) o, acc)
        else (o, APPLY_CLOVER_TWIST (-a) acc)
      else (o, acc)
    tmc.scaleAddAccum b o_acc.2 o_acc.1
  else
    if CLOVER_TWIST_INV_DSLASH = false then
      if DYNAMIC_CLOVER = false then APPLY_CLOVER_TWIST_INV (-a) o
      else APPLY_CLOVER_TWIST_DYN_INV (-a) o
    else o

/-- The sum of two spinors, register by register. -/
def Spinor.add {R : Type} [Ring R] (x y : Spinor R) : Spinor R :=
  { v00_re := x.v00_re + y.v00_re, v00_im := x.v00_im + y.v00_im,
    v01_re := x.v01_re + y.v01_re, v01_im := x.v01_im + y.v01_im,
    v02_re := x.v02_re + y.v02_re, v02_im := x.v02_im + y.v02_im,
    v10_re := x.v10_re + y.v10_re, v10_im := x.v10_im + y.v10_im,
    v11_re := x.v11_re + y.v11_re, v11_im := x.v11_im + y.v11_im,
    v12_re := x.v12_re + y.v12_re, v12_im := x.v12_im + y.v12_im,
    v20_re := x.v20_re + y.v20_re, v20_im := x.v20_im + y.v20_im,
    v21_re := x.v21_re + y.v21_re, v21_im := x.v21_im + y.v21_im,
    v22_re := x.v22_re + y.v22_re, v22_im := x.v22_im + y.v22_im,
    v30_re := x.v30_re + y.v30_re, v30_im := x.v30_im + y.v30_im,
    v31_re := x.v31_re + y.v31_re, v31_im := x.v31_im + y.v31_im,
    v32_re := x.v32_re + y.v32_re, v32_im := x.v32_im + y.v32_im }

/-- The spinor `x` with every register multiplied by the scalar `k`. -/
def Spinor.scale {R : Type} [Ring R] (k : R) (x : Spinor R) : Spinor R :=
  { v00_re := k * x.v00_re, v00_im := k * x.v00_im,
    v01_re := k * x.v01_re, v01_im := k * x.v01_im,
    v02_re := k * x.v02_re, v02_im := k * x.v02_im,
    v10_re := k * x.v10_re, v10_im := k * x.v10_im,
    v11_re := k * x.v11_re, v11_im := k * x.v11_im,
    v12_re := k * x.v12_re, v12_im := k * x.v12_im,
    v20_re := k * x.v20_re, v20_im := k * x.v20_im,
    v21_re := k * x.v21_re, v21_im := k * x.v21_im,
    v22_re := k * x.v22_re, v22_im := k * x.v22_im,
    v30_re := k * x.v30_re, v30_im := k * x.v30_im,
    v31_re := k * x.v31_re, v31_im := k * x.v31_im,
    v32_re := k * x.v32_re, v32_im := k * x.v32_im }

/-! ### The clover macros of `tmc` -/

/-- The components `.x`, `.y`, `.z`, `.w` of a `double2` or `float4` register. -/
inductive Lane where
  | x
  | y
  | z
  | w
  deriving DecidableEq, Repr

/-- The clover registers `C0`, `C1`, …: register number and component to value. -/
abbrev CloverRegs (R : Type) : Type := Nat → Lane → R

/-! The macros `c##_##` bound to registers (`tmc:181-216` under `CLOVER_DOUBLE`,
`tmc:218-253` otherwise). -/

def c00_00_re {R : Type} [Ring R] (CLOVER_DOUBLE : Bool) (C : CloverRegs R) : R :=
  if CLOVER_DOUBLE then C 0 .x else C 0 .x
def c01_01_re {R : Type} [Ring R] (CLOVER_DOUBLE : Bool) (C : CloverRegs R) : R :=
  if CLOVER_DOUBLE then C 0 .y else C 0 .y
def c02_02_re {R : Type} [Ring R] (CLOVER_DOUBLE : Bool) (C : CloverRegs R) : R :=
  if CLOVER_DOUBLE then C 1 .x else C 0 .z
def c10_10_re {R : Type} [Ring R] (CLOVER_DOUBLE : Bool) (C : CloverRegs R) : R :=
  if CLOVER_DOUBLE then C 1 .y else C 0 .w
def c11_11_re {R : Type} [Ring R] (CLOVER_DOUBLE : Bool) (C : CloverRegs R) : R :=
  if CLOVER_DOUBLE then C 2 .x else C 1 .x
def c12_12_re {R : Type} [Ring R] (CLOVER_DOUBLE : Bool) (C : CloverRegs R) : R :=
  if CLOVER_DOUBLE then C 2 .y else C 1 .y
def c01_00_re {R : Type} [Ring R] (CLOVER_DOUBLE : Bool) (C : CloverRegs R) : R :=
  if CLOVER_DOUBLE then C 3 .x else C 1 .z
def c01_00_im {R : Type} [Ring R] (CLOVER_DOUBLE : Bool) (C : CloverRegs R) : R :=
  if CLOVER_DOUBLE then C 3 .y else C 1 .w
def c02_00_re {R : Type} [Ring R] (CLOVER_DOUBLE : Bool) (C : CloverRegs R) : R :=
  if CLOVER_DOUBLE then C 4 .x else C 2 .x
def c02_00_im {R : Type} [Ring R] (CLOVER_DOUBLE : Bool) (C : CloverRegs R) : R :=
  if CLOVER_DOUBLE then C 4 .y else C 2 .y
def c10_00_re {R : Type} [Ring R] (CLOVER_DOUBLE : Bool) (C : CloverRegs R) : R :=
  if CLOVER_DOUBLE then C 5 .x else C 2 .z
def c10_00_im {R : Type} [Ring R] (CLOVER_DOUBLE : Bool) (C : CloverRegs R) : R :=
  if CLOVER_DOUBLE then C 5 .y else C 2 .w
def c11_00_re {R : Type} [Ring R] (CLOVER_DOUBLE : Bool) (C : CloverRegs R) : R :=
  if CLOVER_DOUBLE then C 6 .x else C 3 .x
def c11_00_im {R : Type} [Ring R] (CLOVER_DOUBLE : Bool) (C : CloverRegs R) : R :=
  if CLOVER_DOUBLE then C 6 .y else C 3 .y
def c12_00_re {R : Type} [Ring R] (CLOVER_DOUBLE : Bool) (C : CloverRegs R) : R :=
  if CLOVER_DOUBLE then C 7 .x else C 3 .z
def c12_00_im {R : Type} [Ring R] (CLOVER_DOUBLE : Bool) (C : CloverRegs R) : R :=
  if CLOVER_DOUBLE then C 7 .y else C 3 .w
def c02_01_re {R : Type} [Ring R] (CLOVER_DOUBLE : Bool) (C : CloverRegs R) : R :=
  if CLOVER_DOUBLE then C 8 .x else C 4 .x
def c02_01_im {R : Type} [Ring R] (CLOVER_DOUBLE : Bool) (C : CloverRegs R) : R :=
  if CLOVER_DOUBLE then C 8 .y else C 4 .y
def c10_01_re {R : Type} [Ring R] (CLOVER_DOUBLE : Bool) (C : CloverRegs R) : R :=
  if CLOVER_DOUBLE then C 9 .x else C 4 .z
def c10_01_im {R : Type} [Ring R] (CLOVER_DOUBLE : Bool) (C : CloverRegs R) : R :=
  if CLOVER_DOUBLE then C 9 .y else C 4 .w
def c11_01_re {R : Type} [Ring R] (CLOVER_DOUBLE : Bool) (C : CloverRegs R) : R :=
  if CLOVER_DOUBLE then C 10 .x else C 5 .x
def c11_01_im {R : Type} [Ring R] (CLOVER_DOUBLE : Bool) (C : CloverRegs R) : R :=
  if CLOVER_DOUBLE then C 10 .y else C 5 .y
def c12_01_re {R : Type} [Ring R] (CLOVER_DOUBLE : Bool) (C : CloverRegs R) : R :=
  if CLOVER_DOUBLE then C 11 .x else C 5 .z
def c12_01_im {R : Type} [Ring R] (CLOVER_DOUBLE : Bool) (C : CloverRegs R) : R :=
  if CLOVER_DOUBLE then C 11 .y else C 5 .w
def c10_02_re {R : Type} [Ring R] (CLOVER_DOUBLE : Bool) (C : CloverRegs R) : R :=
  if CLOVER_DOUBLE then C 12 .x else C 6 .x
def c10_02_im {R : Type} [Ring R] (CLOVER_DOUBLE : Bool) (C : CloverRegs R) : R :=
  if CLOVER_DOUBLE then C 12 .y else C 6 .y
def c11_02_re {R : Type} [Ring R] (CLOVER_DOUBLE : Bool) (C : CloverRegs R) : R :=
  if CLOVER_DOUBLE then C 13 .x else C 6 .z
def c11_02_im {R : Type} [Ring R] (CLOVER_DOUBLE : Bool) (C : CloverRegs R) : R :=
  if CLOVER_DOUBLE then C 13 .y else C 6 .w
def c12_02_re {R : Type} [Ring R] (CLOVER_DOUBLE : Bool) (C : CloverRegs R) : R :=
  if CLOVER_DOUBLE then C 14 .x else C 7 .x
def c12_02_im {R : Type} [Ring R] (CLOVER_DOUBLE : Bool) (C : CloverRegs R) : R :=
  if CLOVER_DOUBLE then C 14 .y else C 7 .y
def c11_10_re {R : Type} [Ring R] (CLOVER_DOUBLE : Bool) (C : CloverRegs R) : R :=
  if CLOVER_DOUBLE then C 15 .x else C 7 .z
def c11_10_im {R : Type} [Ring R] (CLOVER_DOUBLE : Bool) (C : CloverRegs R) : R :=
  if CLOVER_DOUBLE then C 15 .y else C 7 .w
def c12_10_re {R : Type} [Ring R] (CLOVER_DOUBLE : Bool) (C : CloverRegs R) : R :=
  if CLOVER_DOUBLE then C 16 .x else C 8 .x
def c12_10_im {R : Type} [Ring R] (CLOVER_DOUBLE : Bool) (C : CloverRegs R) : R :=
  if CLOVER_DOUBLE then C 16 .y else C 8 .y
def c12_11_re {R : Type} [Ring R] (CLOVER_DOUBLE : Bool) (C : CloverRegs R) : R :=
  if CLOVER_DOUBLE then C 17 .x else C 8 .z
def c12_11_im {R : Type} [Ring R] (CLOVER_DOUBLE : Bool) (C : CloverRegs R) : R :=
  if CLOVER_DOUBLE then C 17 .y else C 8 .w

/-! The macros `c##_##` defined from the ones above (`tmc:256-285`). -/

def c00_01_re {R : Type} [Ring R] (CLOVER_DOUBLE : Bool) (C : CloverRegs R) : R :=
  c01_00_re CLOVER_DOUBLE C
def c00_01_im {R : Type} [Ring R] (CLOVER_DOUBLE : Bool) (C : CloverRegs R) : R :=
  -c01_00_im CLOVER_DOUBLE C
def c00_02_re {R : Type} [Ring R] (CLOVER_DOUBLE : Bool) (C : CloverRegs R) : R :=
  c02_00_re CLOVER_DOUBLE C
def c00_02_im {R : Type} [Ring R] (CLOVER_DOUBLE : Bool) (C : CloverRegs R) : R :=
  -c02_00_im CLOVER_DOUBLE C
def c01_02_re {R : Type} [Ring R] (CLOVER_DOUBLE : Bool) (C : CloverRegs R) : R :=
  c02_01_re CLOVER_DOUBLE C
def c01_02_im {R : Type} [Ring R] (CLOVER_DOUBLE : Bool) (C : CloverRegs R) : R :=
  -c02_01_im CLOVER_DOUBLE C
def c00_10_re {R : Type} [Ring R] (CLOVER_DOUBLE : Bool) (C : CloverRegs R) : R :=
  c10_00_re CLOVER_DOUBLE C
def c00_10_im {R : Type} [Ring R] (CLOVER_DOUBLE : Bool) (C : CloverRegs R) : R :=
  -c10_00_im CLOVER_DOUBLE C
def c01_10_re {R : Type} [Ring R] (CLOVER_DOUBLE : Bool) (C : CloverRegs R) : R :=
  c10_01_re CLOVER_DOUBLE C
def c01_10_im {R : Type} [Ring R] (CLOVER_DOUBLE : Bool) (C : CloverRegs R) : R :=
  -c10_01_im CLOVER_DOUBLE C
def c02_10_re {R : Type} [Ring R] (CLOVER_DOUBLE : Bool) (C : CloverRegs R) : R :=
  c10_02_re CLOVER_DOUBLE C
def c02_10_im {R : Type} [Ring R] (CLOVER_DOUBLE : Bool) (C : CloverRegs R) : R :=
  -c10_02_im CLOVER_DOUBLE C
def c00_11_re {R : Type} [Ring R] (CLOVER_DOUBLE : Bool) (C : CloverRegs R) : R :=
  c11_00_re CLOVER_DOUBLE C
def c00_11_im {R : Type} [Ring R] (CLOVER_DOUBLE : Bool) (C : CloverRegs R) : R :=
  -c11_00_im CLOVER_DOUBLE C
def c01_11_re {R : Type} [Ring R] (CLOVER_DOUBLE : Bool) (C : CloverRegs R) : R :=
  c11_01_re CLOVER_DOUBLE C
def c01_11_im {R : Type} [Ring R] (CLOVER_DOUBLE : Bool) (C : CloverRegs R) : R :=
  -c11_01_im CLOVER_DOUBLE C
def c02_11_re {R : Type} [Ring R] (CLOVER_DOUBLE : Bool) (C : CloverRegs R) : R :=
  c11_02_re CLOVER_DOUBLE C
def c02_11_im {R : Type} [Ring R] (CLOVER_DOUBLE : Bool) (C : CloverRegs R) : R :=
  -c11_02_im CLOVER_DOUBLE C
def c10_11_re {R : Type} [Ring R] (CLOVER_DOUBLE : Bool) (C : CloverRegs R) : R :=
  c11_10_re CLOVER_DOUBLE C
def c10_11_im {R : Type} [Ring R] (CLOVER_DOUBLE : Bool) (C : CloverRegs R) : R :=
  -c11_10_im CLOVER_DOUBLE C
def c00_12_re {R : Type} [Ring R] (CLOVER_DOUBLE : Bool) (C : CloverRegs R) : R :=
  c12_00_re CLOVER_DOUBLE C
def c00_12_im {R : Type} [Ring R] (CLOVER_DOUBLE : Bool) (C : CloverRegs R) : R :=
  -c12_00_im CLOVER_DOUBLE C
def c01_12_re {R : Type} [Ring R] (CLOVER_DOUBLE : Bool) (C : CloverRegs R) : R :=
  c12_01_re CLOVER_DOUBLE C
def c01_12_im {R : Type} [Ring R] (CLOVER_DOUBLE : Bool) (C : CloverRegs R) : R :=
  -c12_01_im CLOVER_DOUBLE C
def c02_12_re {R : Type} [Ring R] (CLOVER_DOUBLE : Bool) (C : CloverRegs R) : R :=
  c12_02_re CLOVER_DOUBLE C
def c02_12_im {R : Type} [Ring R] (CLOVER_DOUBLE : Bool) (C : CloverRegs R) : R :=
  -c12_02_im CLOVER_DOUBLE C
def c10_12_re {R : Type} [Ring R] (CLOVER_DOUBLE : Bool) (C : CloverRegs R) : R :=
  c12_10_re CLOVER_DOUBLE C
def c10_12_im {R : Type} [Ring R] (CLOVER_DOUBLE : Bool) (C : CloverRegs R) : R :=
  -c12_10_im CLOVER_DOUBLE C
def c11_12_re {R : Type} [Ring R] (CLOVER_DOUBLE : Bool) (C : CloverRegs R) : R :=
  c12_11_re CLOVER_DOUBLE C
def c11_12_im {R : Type} [Ring R] (CLOVER_DOUBLE : Bool) (C : CloverRegs R) : R :=
  -c12_11_im CLOVER_DOUBLE C

/-! The macros `c##_##` of the second chiral block (`tmc:288-353`). -/

def c20_20_re {R : Type} [Ring R] (CLOVER_DOUBLE : Bool) (C : CloverRegs R) : R :=
  c00_00_re CLOVER_DOUBLE C
def c21_20_re {R : Type} [Ring R] (CLOVER_DOUBLE : Bool) (C : CloverRegs R) : R :=
  c01_00_re CLOVER_DOUBLE C
def c21_20_im {R : Type} [Ring R] (CLOVER_DOUBLE : Bool) (C : CloverRegs R) : R :=
  c01_00_im CLOVER_DOUBLE C
def c22_20_re {R : Type} [Ring R] (CLOVER_DOUBLE : Bool) (C : CloverRegs R) : R :=
  c02_00_re CLOVER_DOUBLE C
def c22_20_im {R : Type} [Ring R] (CLOVER_DOUBLE : Bool) (C : CloverRegs R) : R :=
  c02_00_im CLOVER_DOUBLE C
def c30_20_re {R : Type} [Ring R] (CLOVER_DOUBLE : Bool) (C : CloverRegs R) : R :=
  c10_00_re CLOVER_DOUBLE C
def c30_20_im {R : Type} [Ring R] (CLOVER_DOUBLE : Bool) (C : CloverRegs R) : R :=
  c10_00_im CLOVER_DOUBLE C
def c31_20_re {R : Type} [Ring R] (CLOVER_DOUBLE : Bool) (C : CloverRegs R) : R :=
  c11_00_re CLOVER_DOUBLE C
def c31_20_im {R : Type} [Ring R] (CLOVER_DOUBLE : Bool) (C : CloverRegs R) : R :=
  c11_00_im CLOVER_DOUBLE C
def c32_20_re {R : Type} [Ring R] (CLOVER_DOUBLE : Bool) (C : CloverRegs R) : R :=
  c12_00_re CLOVER_DOUBLE C
def c32_20_im {R : Type} [Ring R] (CLOVER_DOUBLE : Bool) (C : CloverRegs R) : R :=
  c12_00_im CLOVER_DOUBLE C
def c20_21_re {R : Type} [Ring R] (CLOVER_DOUBLE : Bool) (C : CloverRegs R) : R :=
  c00_01_re CLOVER_DOUBLE C
def c20_21_im {R : Type} [Ring R] (CLOVER_DOUBLE : Bool) (C : CloverRegs R) : R :=
  c00_01_im CLOVER_DOUBLE C
def c21_21_re {R : Type} [Ring R] (CLOVER_DOUBLE : Bool) (C : CloverRegs R) : R :=
  c01_01_re CLOVER_DOUBLE C
def c22_21_re {R : Type} [Ring R] (CLOVER_DOUBLE : Bool) (C : CloverRegs R) : R :=
  c02_01_re CLOVER_DOUBLE C
def c22_21_im {R : Type} [Ring R] (CLOVER_DOUBLE : Bool) (C : CloverRegs R) : R :=
  c02_01_im CLOVER_DOUBLE C
def c30_21_re {R : Type} [Ring R] (CLOVER_DOUBLE : Bool) (C : CloverRegs R) : R :=
  c10_01_re CLOVER_DOUBLE C
def c30_21_im {R : Type} [Ring R] (CLOVER_DOUBLE : Bool) (C : CloverRegs R) : R :=
  c10_01_im CLOVER_DOUBLE C
def c31_21_re {R : Type} [Ring R] (CLOVER_DOUBLE : Bool) (C : CloverRegs R) : R :=
  c11_01_re CLOVER_DOUBLE C
def c31_21_im {R : Type} [Ring R] (CLOVER_DOUBLE : Bool) (C : CloverRegs R) : R :=
  c11_01_im CLOVER_DOUBLE C
def c32_21_re {R : Type} [Ring R] (CLOVER_DOUBLE : Bool) (C : CloverRegs R) : R :=
  c12_01_re CLOVER_DOUBLE C
def c32_21_im {R : Type} [Ring R] (CLOVER_DOUBLE : Bool) (C : CloverRegs R) : R :=
  c12_01_im CLOVER_DOUBLE C
def c20_22_re {R : Type} [Ring R] (CLOVER_DOUBLE : Bool) (C : CloverRegs R) : R :=
  c00_02_re CLOVER_DOUBLE C
def c20_22_im {R : Type} [Ring R] (CLOVER_DOUBLE : Bool) (C : CloverRegs R) : R :=
  c00_02_im CLOVER_DOUBLE C
def c21_22_re {R : Type} [Ring R] (CLOVER_DOUBLE : Bool) (C : CloverRegs R) : R :=
  c01_02_re CLOVER_DOUBLE C
def c21_22_im {R : Type} [Ring R] (CLOVER_DOUBLE : Bool) (C : CloverRegs R) : R :=
  c01_02_im CLOVER_DOUBLE C
def c22_22_re {R : Type} [Ring R] (CLOVER_DOUBLE : Bool) (C : CloverRegs R) : R :=
  c02_02_re CLOVER_DOUBLE C
def c30_22_re {R : Type} [Ring R] (CLOVER_DOUBLE : Bool) (C : CloverRegs R) : R :=
  c10_02_re CLOVER_DOUBLE C
def c30_22_im {R : Type} [Ring R] (CLOVER_DOUBLE : Bool) (C : CloverRegs R) : R :=
  c10_02_im CLOVER_DOUBLE C
def c31_22_re {R : Type} [Ring R] (CLOVER_DOUBLE : Bool) (C : CloverRegs R) : R :=
  c11_02_re CLOVER_DOUBLE C
def c31_22_im {R : Type} [Ring R] (CLOVER_DOUBLE : Bool) (C : CloverRegs R) : R :=
  c11_02_im CLOVER_DOUBLE C
def c32_22_re {R : Type} [Ring R] (CLOVER_DOUBLE : Bool) (C : CloverRegs R) : R :=
  c12_02_re CLOVER_DOUBLE C
def c32_22_im {R : Type} [Ring R] (CLOVER_DOUBLE : Bool) (C : CloverRegs R) : R :=
  c12_02_im CLOVER_DOUBLE C
def c20_30_re {R : Type} [Ring R] (CLOVER_DOUBLE : Bool) (C : CloverRegs R) : R :=
  c00_10_re CLOVER_DOUBLE C
def c20_30_im {R : Type} [Ring R] (CLOVER_DOUBLE : Bool) (C : CloverRegs R) : R :=
  c00_10_im CLOVER_DOUBLE C
def c21_30_re {R : Type} [Ring R] (CLOVER_DOUBLE : Bool) (C : CloverRegs R) : R :=
  c01_10_re CLOVER_DOUBLE C
def c21_30_im {R : Type} [Ring R] (CLOVER_DOUBLE : Bool) (C : CloverRegs R) : R :=
  c01_10_im CLOVER_DOUBLE C
def c22_30_re {R : Type} [Ring R] (CLOVER_DOUBLE : Bool) (C : CloverRegs R) : R :=
  c02_10_re CLOVER_DOUBLE C
def c22_30_im {R : Type} [Ring R] (CLOVER_DOUBLE : Bool) (C : CloverRegs R) : R :=
  c02_10_im CLOVER_DOUBLE C
def c30_30_re {R : Type} [Ring R] (CLOVER_DOUBLE : Bool) (C : CloverRegs R) : R :=
  c10_10_re CLOVER_DOUBLE C
def c31_30_re {R : Type} [Ring R] (CLOVER_DOUBLE : Bool) (C : CloverRegs R) : R :=
  c11_10_re CLOVER_DOUBLE C
def c31_30_im {R : Type} [Ring R] (CLOVER_DOUBLE : Bool) (C : CloverRegs R) : R :=
  c11_10_im CLOVER_DOUBLE C
def c32_30_re {R : Type} [Ring R] (CLOVER_DOUBLE : Bool) (C : CloverRegs R) : R :=
  c12_10_re CLOVER_DOUBLE C
def c32_30_im {R : Type} [Ring R] (CLOVER_DOUBLE : Bool) (C : CloverRegs R) : R :=
  c12_10_im CLOVER_DOUBLE C
def c20_31_re {R : Type} [Ring R] (CLOVER_DOUBLE : Bool) (C : CloverRegs R) : R :=
  c00_11_re CLOVER_DOUBLE C
def c20_31_im {R : Type} [Ring R] (CLOVER_DOUBLE : Bool) (C : CloverRegs R) : R :=
  c00_11_im CLOVER_DOUBLE C
def c21_31_re {R : Type} [Ring R] (CLOVER_DOUBLE : Bool) (C : CloverRegs R) : R :=
  c01_11_re CLOVER_DOUBLE C
def c21_31_im {R : Type} [Ring R] (CLOVER_DOUBLE : Bool) (C : CloverRegs R) : R :=
  c01_11_im CLOVER_DOUBLE C
def c22_31_re {R : Type} [Ring R] (CLOVER_DOUBLE : Bool) (C : CloverRegs R) : R :=
  c02_11_re CLOVER_DOUBLE C
def c22_31_im {R : Type} [Ring R] (CLOVER_DOUBLE : Bool) (C : CloverRegs R) : R :=
  c02_11_im CLOVER_DOUBLE C
def c30_31_re {R : Type} [Ring R] (CLOVER_DOUBLE : Bool) (C : CloverRegs R) : R :=
  c10_11_re CLOVER_DOUBLE C
def c30_31_im {R : Type} [Ring R] (CLOVER_DOUBLE : Bool) (C : CloverRegs R) : R :=
  c10_11_im CLOVER_DOUBLE C
def c31_31_re {R : Type} [Ring R] (CLOVER_DOUBLE : Bool) (C : CloverRegs R) : R :=
  c11_11_re CLOVER_DOUBLE C
def c32_31_re {R : Type} [Ring R] (CLOVER_DOUBLE : Bool) (C : CloverRegs R) : R :=
  c12_11_re CLOVER_DOUBLE C
def c32_31_im {R : Type} [Ring R] (CLOVER_DOUBLE : Bool) (C : CloverRegs R) : R :=
  c12_11_im CLOVER_DOUBLE C
def c20_32_re {R : Type} [Ring R] (CLOVER_DOUBLE : Bool) (C : CloverRegs R) : R :=
  c00_12_re CLOVER_DOUBLE C
def c20_32_im {R : Type} [Ring R] (CLOVER_DOUBLE : Bool) (C : CloverRegs R) : R :=
  c00_12_im CLOVER_DOUBLE C
def c21_32_re {R : Type} [Ring R] (CLOVER_DOUBLE : Bool) (C : CloverRegs R) : R :=
  c01_12_re CLOVER_DOUBLE C
def c21_32_im {R : Type} [Ring R] (CLOVER_DOUBLE : Bool) (C : CloverRegs R) : R :=
  c01_12_im CLOVER_DOUBLE C
def c22_32_re {R : Type} [Ring R] (CLOVER_DOUBLE : Bool) (C : CloverRegs R) : R :=
  c02_12_re CLOVER_DOUBLE C
def c22_32_im {R : Type} [Ring R] (CLOVER_DOUBLE : Bool) (C : CloverRegs R) : R :=
  c02_12_im CLOVER_DOUBLE C
def c30_32_re {R : Type} [Ring R] (CLOVER_DOUBLE : Bool) (C : CloverRegs R) : R :=
  c10_12_re CLOVER_DOUBLE C
def c30_32_im {R : Type} [Ring R] (CLOVER_DOUBLE : Bool) (C : CloverRegs R) : R :=
  c10_12_im CLOVER_DOUBLE C
def c31_32_re {R : Type} [Ring R] (CLOVER_DOUBLE : Bool) (C : CloverRegs R) : R :=
  c11_12_re CLOVER_DOUBLE C
def c31_32_im {R : Type} [Ring R] (CLOVER_DOUBLE : Bool) (C : CloverRegs R) : R :=
  c11_12_im CLOVER_DOUBLE C
def c32_32_re {R : Type} [Ring R] (CLOVER_DOUBLE : Bool) (C : CloverRegs R) : R :=
  c12_12_re CLOVER_DOUBLE C

/-! The macros `cinv##_##` bound to registers (`tmc:358-393` under `CLOVER_DOUBLE`,
`tmc:395-430` otherwise). -/

def cinv00_00_re {R : Type} [Ring R] (CLOVER_DOUBLE : Bool) (C : CloverRegs R) : R :=
  if CLOVER_DOUBLE then C 0 .x else C 0 .x
def cinv01_01_re {R : Type} [Ring R] (CLOVER_DOUBLE : Bool) (C : CloverRegs R) : R :=
  if CLOVER_DOUBLE then C 0 .y else C 0 .y
def cinv02_02_re {R : Type} [Ring R] (CLOVER_DOUBLE : Bool) (C : CloverRegs R) : R :=
  if CLOVER_DOUBLE then C 1 .x else C 0 .z
def cinv10_10_re {R : Type} [Ring R] (CLOVER_DOUBLE : Bool) (C : CloverRegs R) : R :=
  if CLOVER_DOUBLE then C 1 .y else C 0 .w
def cinv11_11_re {R : Type} [Ring R] (CLOVER_DOUBLE : Bool) (C : CloverRegs R) : R :=
  if CLOVER_DOUBLE then C 2 .x else C 1 .x
def cinv12_12_re {R : Type} [Ring R] (CLOVER_DOUBLE : Bool) (C : CloverRegs R) : R :=
  if CLOVER_DOUBLE then C 2 .y else C 1 .y
def cinv01_00_re {R : Type} [Ring R] (CLOVER_DOUBLE : Bool) (C : CloverRegs R) : R :=
  if CLOVER_DOUBLE then C 3 .x else C 1 .z
def cinv01_00_im {R : Type} [Ring R] (CLOVER_DOUBLE : Bool) (C : CloverRegs R) : R :=
  if CLOVER_DOUBLE then C 3 .y else C 1 .w
def cinv02_00_re {R : Type} [Ring R] (CLOVER_DOUBLE : Bool) (C : CloverRegs R) : R :=
  if CLOVER_DOUBLE then C 4 .x else C 2 .x
def cinv02_00_im {R : Type} [Ring R] (CLOVER_DOUBLE : Bool) (C : CloverRegs R) : R :=
  if CLOVER_DOUBLE then C 4 .y else C 2 .y
def cinv10_00_re {R : Type} [Ring R] (CLOVER_DOUBLE : Bool) (C : CloverRegs R) : R :=
  if CLOVER_DOUBLE then C 5 .x else C 2 .z
def cinv10_00_im {R : Type} [Ring R] (CLOVER_DOUBLE : Bool) (C : CloverRegs R) : R :=
  if CLOVER_DOUBLE then C 5 .y else C 2 .w
def cinv11_00_re {R : Type} [Ring R] (CLOVER_DOUBLE : Bool) (C : CloverRegs R) : R :=
  if CLOVER_DOUBLE then C 6 .x else C 3 .x
def cinv11_00_im {R : Type} [Ring R] (CLOVER_DOUBLE : Bool) (C : CloverRegs R) : R :=
  if CLOVER_DOUBLE then C 6 .y else C 3 .y
def cinv12_00_re {R : Type} [Ring R] (CLOVER_DOUBLE : Bool) (C : CloverRegs R) : R :=
  if CLOVER_DOUBLE then C 7 .x else C 3 .z
def cinv12_00_im {R : Type} [Ring R] (CLOVER_DOUBLE : Bool) (C : CloverRegs R) : R :=
  if CLOVER_DOUBLE then C 7 .y else C 3 .w
def cinv02_01_re {R : Type} [Ring R] (CLOVER_DOUBLE : Bool) (C : CloverRegs R) : R :=
  if CLOVER_DOUBLE then C 8 .x else C 4 .x
def cinv02_01_im {R : Type} [Ring R] (CLOVER_DOUBLE : Bool) (C : CloverRegs R) : R :=
  if CLOVER_DOUBLE then C 8 .y else C 4 .y
def cinv10_01_re {R : Type} [Ring R] (CLOVER_DOUBLE : Bool) (C : CloverRegs R) : R :=
  if CLOVER_DOUBLE then C 9 .x else C 4 .z
def cinv10_01_im {R : Type} [Ring R] (CLOVER_DOUBLE : Bool) (C : CloverRegs R) : R :=
  if CLOVER_DOUBLE then C 9 .y else C 4 .w
def cinv11_01_re {R : Type} [Ring R] (CLOVER_DOUBLE : Bool) (C : CloverRegs R) : R :=
  if CLOVER_DOUBLE then C 10 .x else C 5 .x
def cinv11_01_im {R : Type} [Ring R] (CLOVER_DOUBLE : Bool) (C : CloverRegs R) : R :=
  if CLOVER_DOUBLE then C 10 .y else C 5 .y
def cinv12_01_re {R : Type} [Ring R] (CLOVER_DOUBLE : Bool) (C : CloverRegs R) : R :=
  if CLOVER_DOUBLE then C 11 .x else C 5 .z
def cinv12_01_im {R : Type} [Ring R] (CLOVER_DOUBLE : Bool) (C : CloverRegs R) : R :=
  if CLOVER_DOUBLE then C 11 .y else C 5 .w
def cinv10_02_re {R : Type} [Ring R] (CLOVER_DOUBLE : Bool) (C : CloverRegs R) : R :=
  if CLOVER_DOUBLE then C 12 .x else C 6 .x
def cinv10_02_im {R : Type} [Ring R] (CLOVER_DOUBLE : Bool) (C : CloverRegs R) : R :=
  if CLOVER_DOUBLE then C 12 .y else C 6 .y
def cinv11_02_re {R : Type} [Ring R] (CLOVER_DOUBLE : Bool) (C : CloverRegs R) : R :=
  if CLOVER_DOUBLE then C 13 .x else C 6 .z
def cinv11_02_im {R : Type} [Ring R] (CLOVER_DOUBLE : Bool) (C : CloverRegs R) : R :=
  if CLOVER_DOUBLE then C 13 .y else C 6 .w
def cinv12_02_re {R : Type} [Ring R] (CLOVER_DOUBLE : Bool) (C : CloverRegs R) : R :=
  if CLOVER_DOUBLE then C 14 .x else C 7 .x
def cinv12_02_im {R : Type} [Ring R] (CLOVER_DOUBLE : Bool) (C : CloverRegs R) : R :=
  if CLOVER_DOUBLE then C 14 .y else C 7 .y
def cinv11_10_re {R : Type} [Ring R] (CLOVER_DOUBLE : Bool) (C : CloverRegs R) : R :=
  if CLOVER_DOUBLE then C 15 .x else C 7 .z
def cinv11_10_im {R : Type} [Ring R] (CLOVER_DOUBLE : Bool) (C : CloverRegs R) : R :=
  if CLOVER_DOUBLE then C 15 .y else C 7 .w
def cinv12_10_re {R : Type} [Ring R] (CLOVER_DOUBLE : Bool) (C : CloverRegs R) : R :=
  if CLOVER_DOUBLE then C 16 .x else C 8 .x
def cinv12_10_im {R : Type} [Ring R] (CLOVER_DOUBLE : Bool) (C : CloverRegs R) : R :=
  if CLOVER_DOUBLE then C 16 .y else C 8 .y
def cinv12_11_re {R : Type} [Ring R] (CLOVER_DOUBLE : Bool) (C : CloverRegs R) : R :=
  if CLOVER_DOUBLE then C 17 .x else C 8 .z
def cinv12_11_im {R : Type} [Ring R] (CLOVER_DOUBLE : Bool) (C : CloverRegs R) : R :=
  if CLOVER_DOUBLE then C 17 .y else C 8 .w

/-! The macros `cinv##_##` defined from the ones above (`tmc:433-462`). -/

def cinv00_01_re {R : Type} [Ring R] (CLOVER_DOUBLE : Bool) (C : CloverRegs R) : R :=
  cinv01_00_re CLOVER_DOUBLE C
def cinv00_01_im {R : Type} [Ring R] (CLOVER_DOUBLE : Bool) (C : CloverRegs R) : R :=
  -cinv01_00_im CLOVER_DOUBLE C
def cinv00_02_re {R : Type} [Ring R] (CLOVER_DOUBLE : Bool) (C : CloverRegs R) : R :=
  cinv02_00_re CLOVER_DOUBLE C
def cinv00_02_im {R : Type} [Ring R] (CLOVER_DOUBLE : Bool) (C : CloverRegs R) : R :=
  -cinv02_00_im CLOVER_DOUBLE C
def cinv01_02_re {R : Type} [Ring R] (CLOVER_DOUBLE : Bool) (C : CloverRegs R) : R :=
  cinv02_01_re CLOVER_DOUBLE C
def cinv01_02_im {R : Type} [Ring R] (CLOVER_DOUBLE : Bool) (C : CloverRegs R) : R :=
  -cinv02_01_im CLOVER_DOUBLE C
def cinv00_10_re {R : Type} [Ring R] (CLOVER_DOUBLE : Bool) (C : CloverRegs R) : R :=
  cinv10_00_re CLOVER_DOUBLE C
def cinv00_10_im {R : Type} [Ring R] (CLOVER_DOUBLE : Bool) (C : CloverRegs R) : R :=
  -cinv10_00_im CLOVER_DOUBLE C
def cinv01_10_re {R : Type} [Ring R] (CLOVER_DOUBLE : Bool) (C : CloverRegs R) : R :=
  cinv10_01_re CLOVER_DOUBLE C
def cinv01_10_im {R : Type} [Ring R] (CLOVER_DOUBLE : Bool) (C : CloverRegs R) : R :=
  -cinv10_01_im CLOVER_DOUBLE C
def cinv02_10_re {R : Type} [Ring R] (CLOVER_DOUBLE : Bool) (C : CloverRegs R) : R :=
  cinv10_02_re CLOVER_DOUBLE C
def cinv02_10_im {R : Type} [Ring R] (CLOVER_DOUBLE : Bool) (C : CloverRegs R) : R :=
  -cinv10_02_im CLOVER_DOUBLE C
def cinv00_11_re {R : Type} [Ring R] (CLOVER_DOUBLE : Bool) (C : CloverRegs R) : R :=
  cinv11_00_re CLOVER_DOUBLE C
def cinv00_11_im {R : Type} [Ring R] (CLOVER_DOUBLE : Bool) (C : CloverRegs R) : R :=
  -cinv11_00_im CLOVER_DOUBLE C
def cinv01_11_re {R : Type} [Ring R] (CLOVER_DOUBLE : Bool) (C : CloverRegs R) : R :=
  cinv11_01_re CLOVER_DOUBLE C
def cinv01_11_im {R : Type} [Ring R] (CLOVER_DOUBLE : Bool) (C : CloverRegs R) : R :=
  -cinv11_01_im CLOVER_DOUBLE C
def cinv02_11_re {R : Type} [Ring R] (CLOVER_DOUBLE : Bool) (C : CloverRegs R) : R :=
  cinv11_02_re CLOVER_DOUBLE C
def cinv02_11_im {R : Type} [Ring R] (CLOVER_DOUBLE : Bool) (C : CloverRegs R) : R :=
  -cinv11_02_im CLOVER_DOUBLE C
def cinv10_11_re {R : Type} [Ring R] (CLOVER_DOUBLE : Bool) (C : CloverRegs R) : R :=
  cinv11_10_re CLOVER_DOUBLE C
def cinv10_11_im {R : Type} [Ring R] (CLOVER_DOUBLE : Bool) (C : CloverRegs R) : R :=
  -cinv11_10_im CLOVER_DOUBLE C
def cinv00_12_re {R : Type} [Ring R] (CLOVER_DOUBLE : Bool) (C : CloverRegs R) : R :=
  cinv12_00_re CLOVER_DOUBLE C
def cinv00_12_im {R : Type} [Ring R] (CLOVER_DOUBLE : Bool) (C : CloverRegs R) : R :=
  -cinv12_00_im CLOVER_DOUBLE C
def cinv01_12_re {R : Type} [Ring R] (CLOVER_DOUBLE : Bool) (C : CloverRegs R) : R :=
  cinv12_01_re CLOVER_DOUBLE C
def cinv01_12_im {R : Type} [Ring R] (CLOVER_DOUBLE : Bool) (C : CloverRegs R) : R :=
  -cinv12_01_im CLOVER_DOUBLE C
def cinv02_12_re {R : Type} [Ring R] (CLOVER_DOUBLE : Bool) (C : CloverRegs R) : R :=
  cinv12_02_re CLOVER_DOUBLE C
def cinv02_12_im {R : Type} [Ring R] (CLOVER_DOUBLE : Bool) (C : CloverRegs R) : R :=
  -cinv12_02_im CLOVER_DOUBLE C
def cinv10_12_re {R : Type} [Ring R] (CLOVER_DOUBLE : Bool) (C : CloverRegs R) : R :=
  cinv12_10_re CLOVER_DOUBLE C
def cinv10_12_im {R : Type} [Ring R] (CLOVER_DOUBLE : Bool) (C : CloverRegs R) : R :=
  -cinv12_10_im CLOVER_DOUBLE C
def cinv11_12_re {R : Type} [Ring R] (CLOVER_DOUBLE : Bool) (C : CloverRegs R) : R :=
  cinv12_11_re CLOVER_DOUBLE C
def cinv11_12_im {R : Type} [Ring R] (CLOVER_DOUBLE : Bool) (C : CloverRegs R) : R :=
  -cinv12_11_im CLOVER_DOUBLE C

/-! The macros `cinv##_##` of the second chiral block (`tmc:465-530`). -/

def cinv20_20_re {R : Type} [Ring R] (CLOVER_DOUBLE : Bool) (C : CloverRegs R) : R :=
  cinv00_00_re CLOVER_DOUBLE C
def cinv21_20_re {R : Type} [Ring R] (CLOVER_DOUBLE : Bool) (C : CloverRegs R) : R :=
  cinv01_00_re CLOVER_DOUBLE C
def cinv21_20_im {R : Type} [Ring R] (CLOVER_DOUBLE : Bool) (C : CloverRegs R) : R :=
  cinv01_00_im CLOVER_DOUBLE C
def cinv22_20_re {R : Type} [Ring R] (CLOVER_DOUBLE : Bool) (C : CloverRegs R) : R :=
  cinv02_00_re CLOVER_DOUBLE C
def cinv22_20_im {R : Type} [Ring R] (CLOVER_DOUBLE : Bool) (C : CloverRegs R) : R :=
  cinv02_00_im CLOVER_DOUBLE C
def cinv30_20_re {R : Type} [Ring R] (CLOVER_DOUBLE : Bool) (C : CloverRegs R) : R :=
  cinv10_00_re CLOVER_DOUBLE C
def cinv30_20_im {R : Type} [Ring R] (CLOVER_DOUBLE : Bool) (C : CloverRegs R) : R :=
  cinv10_00_im CLOVER_DOUBLE C
def cinv31_20_re {R : Type} [Ring R] (CLOVER_DOUBLE : Bool) (C : CloverRegs R) : R :=
  cinv11_00_re CLOVER_DOUBLE C
def cinv31_20_im {R : Type} [Ring R] (CLOVER_DOUBLE : Bool) (C : CloverRegs R) : R :=
  cinv11_00_im CLOVER_DOUBLE C
def cinv32_20_re {R : Type} [Ring R] (CLOVER_DOUBLE : Bool) (C : CloverRegs R) : R :=
  cinv12_00_re CLOVER_DOUBLE C
def cinv32_20_im {R : Type} [Ring R] (CLOVER_DOUBLE : Bool) (C : CloverRegs R) : R :=
  cinv12_00_im CLOVER_DOUBLE C
def cinv20_21_re {R : Type} [Ring R] (CLOVER_DOUBLE : Bool) (C : CloverRegs R) : R :=
  cinv00_01_re CLOVER_DOUBLE C
def cinv20_21_im {R : Type} [Ring R] (CLOVER_DOUBLE : Bool) (C : CloverRegs R) : R :=
  cinv00_01_im CLOVER_DOUBLE C
def cinv21_21_re {R : Type} [Ring R] (CLOVER_DOUBLE : Bool) (C : CloverRegs R) : R :=
  cinv01_01_re CLOVER_DOUBLE C
def cinv22_21_re {R : Type} [Ring R] (CLOVER_DOUBLE : Bool) (C : CloverRegs R) : R :=
  cinv02_01_re CLOVER_DOUBLE C
def cinv22_21_im {R : Type} [Ring R] (CLOVER_DOUBLE : Bool) (C : CloverRegs R) : R :=
  cinv02_01_im CLOVER_DOUBLE C
def cinv30_21_re {R : Type} [Ring R] (CLOVER_DOUBLE : Bool) (C : CloverRegs R) : R :=
  cinv10_01_re CLOVER_DOUBLE C
def cinv30_21_im {R : Type} [Ring R] (CLOVER_DOUBLE : Bool) (C : CloverRegs R) : R :=
  cinv10_01_im CLOVER_DOUBLE C
def cinv31_21_re {R : Type} [Ring R] (CLOVER_DOUBLE : Bool) (C : CloverRegs R) : R :=
  cinv11_01_re CLOVER_DOUBLE C
def cinv31_21_im {R : Type} [Ring R] (CLOVER_DOUBLE : Bool) (C : CloverRegs R) : R :=
  cinv11_01_im CLOVER_DOUBLE C
def cinv32_21_re {R : Type} [Ring R] (CLOVER_DOUBLE : Bool) (C : CloverRegs R) : R :=
  cinv12_01_re CLOVER_DOUBLE C
def cinv32_21_im {R : Type} [Ring R] (CLOVER_DOUBLE : Bool) (C : CloverRegs R) : R :=
  cinv12_01_im CLOVER_DOUBLE C
def cinv20_22_re {R : Type} [Ring R] (CLOVER_DOUBLE : Bool) (C : CloverRegs R) : R :=
  cinv00_02_re CLOVER_DOUBLE C
def cinv20_22_im {R : Type} [Ring R] (CLOVER_DOUBLE : Bool) (C : CloverRegs R) : R :=
  cinv00_02_im CLOVER_DOUBLE C
def cinv21_22_re {R : Type} [Ring R] (CLOVER_DOUBLE : Bool) (C : CloverRegs R) : R :=
  cinv01_02_re CLOVER_DOUBLE C
def cinv21_22_im {R : Type} [Ring R] (CLOVER_DOUBLE : Bool) (C : CloverRegs R) : R :=
  cinv01_02_im CLOVER_DOUBLE C
def cinv22_22_re {R : Type} [Ring R] (CLOVER_DOUBLE : Bool) (C : CloverRegs R) : R :=
  cinv02_02_re CLOVER_DOUBLE C
def cinv30_22_re {R : Type} [Ring R] (CLOVER_DOUBLE : Bool) (C : CloverRegs R) : R :=
  cinv10_02_re CLOVER_DOUBLE C
def cinv30_22_im {R : Type} [Ring R] (CLOVER_DOUBLE : Bool) (C : CloverRegs R) : R :=
  cinv10_02_im CLOVER_DOUBLE C
def cinv31_22_re {R : Type} [Ring R] (CLOVER_DOUBLE : Bool) (C : CloverRegs R) : R :=
  cinv11_02_re CLOVER_DOUBLE C
def cinv31_22_im {R : Type} [Ring R] (CLOVER_DOUBLE : Bool) (C : CloverRegs R) : R :=
  cinv11_02_im CLOVER_DOUBLE C
def cinv32_22_re {R : Type} [Ring R] (CLOVER_DOUBLE : Bool) (C : CloverRegs R) : R :=
  cinv12_02_re CLOVER_DOUBLE C
def cinv32_22_im {R : Type} [Ring R] (CLOVER_DOUBLE : Bool) (C : CloverRegs R) : R :=
  cinv12_02_im CLOVER_DOUBLE C
def cinv20_30_re {R : Type} [Ring R] (CLOVER_DOUBLE : Bool) (C : CloverRegs R) : R :=
  cinv00_10_re CLOVER_DOUBLE C
def cinv20_30_im {R : Type} [Ring R] (CLOVER_DOUBLE : Bool) (C : CloverRegs R) : R :=
  cinv00_10_im CLOVER_DOUBLE C
def cinv21_30_re {R : Type} [Ring R] (CLOVER_DOUBLE : Bool) (C : CloverRegs R) : R :=
  cinv01_10_re CLOVER_DOUBLE C
def cinv21_30_im {R : Type} [Ring R] (CLOVER_DOUBLE : Bool) (C : CloverRegs R) : R :=
  cinv01_10_im CLOVER_DOUBLE C
def cinv22_30_re {R : Type} [Ring R] (CLOVER_DOUBLE : Bool) (C : CloverRegs R) : R :=
  cinv02_10_re CLOVER_DOUBLE C
def cinv22_30_im {R : Type} [Ring R] (CLOVER_DOUBLE : Bool) (C : CloverRegs R) : R :=
  cinv02_10_im CLOVER_DOUBLE C
def cinv30_30_re {R : Type} [Ring R] (CLOVER_DOUBLE : Bool) (C : CloverRegs R) : R :=
  cinv10_10_re CLOVER_DOUBLE C
def cinv31_30_re {R : Type} [Ring R] (CLOVER_DOUBLE : Bool) (C : CloverRegs R) : R :=
  cinv11_10_re CLOVER_DOUBLE C
def cinv31_30_im {R : Type} [Ring R] (CLOVER_DOUBLE : Bool) (C : CloverRegs R) : R :=
  cinv11_10_im CLOVER_DOUBLE C
def cinv32_30_re {R : Type} [Ring R] (CLOVER_DOUBLE : Bool) (C : CloverRegs R) : R :=
  cinv12_10_re CLOVER_DOUBLE C
def cinv32_30_im {R : Type} [Ring R] (CLOVER_DOUBLE : Bool) (C : CloverRegs R) : R :=
  cinv12_10_im CLOVER_DOUBLE C
def cinv20_31_re {R : Type} [Ring R] (CLOVER_DOUBLE : Bool) (C : CloverRegs R) : R :=
  cinv00_11_re CLOVER_DOUBLE C
def cinv20_31_im {R : Type} [Ring R] (CLOVER_DOUBLE : Bool) (C : CloverRegs R) : R :=
  cinv00_11_im CLOVER_DOUBLE C
def cinv21_31_re {R : Type} [Ring R] (CLOVER_DOUBLE : Bool) (C : CloverRegs R) : R :=
  cinv01_11_re CLOVER_DOUBLE C
def cinv21_31_im {R : Type} [Ring R] (CLOVER_DOUBLE : Bool) (C : CloverRegs R) : R :=
  cinv01_11_im CLOVER_DOUBLE C
def cinv22_31_re {R : Type} [Ring R] (CLOVER_DOUBLE : Bool) (C : CloverRegs R) : R :=
  cinv02_11_re CLOVER_DOUBLE C
def cinv22_31_im {R : Type} [Ring R] (CLOVER_DOUBLE : Bool) (C : CloverRegs R) : R :=
  cinv02_11_im CLOVER_DOUBLE C
def cinv30_31_re {R : Type} [Ring R] (CLOVER_DOUBLE : Bool) (C : CloverRegs R) : R :=
  cinv10_11_re CLOVER_DOUBLE C
def cinv30_31_im {R : Type} [Ring R] (CLOVER_DOUBLE : Bool) (C : CloverRegs R) : R :=
  cinv10_11_im CLOVER_DOUBLE C
def cinv31_31_re {R : Type} [Ring R] (CLOVER_DOUBLE : Bool) (C : CloverRegs R) : R :=
  cinv11_11_re CLOVER_DOUBLE C
def cinv32_31_re {R : Type} [Ring R] (CLOVER_DOUBLE : Bool) (C : CloverRegs R) : R :=
  cinv12_11_re CLOVER_DOUBLE C
def cinv32_31_im {R : Type} [Ring R] (CLOVER_DOUBLE : Bool) (C : CloverRegs R) : R :=
  cinv12_11_im CLOVER_DOUBLE C
def cinv20_32_re {R : Type} [Ring R] (CLOVER_DOUBLE : Bool) (C : CloverRegs R) : R :=
  cinv00_12_re CLOVER_DOUBLE C
def cinv20_32_im {R : Type} [Ring R] (CLOVER_DOUBLE : Bool) (C : CloverRegs R) : R :=
  cinv00_12_im CLOVER_DOUBLE C
def cinv21_32_re {R : Type} [Ring R] (CLOVER_DOUBLE : Bool) (C : CloverRegs R) : R :=
  cinv01_12_re CLOVER_DOUBLE C
def cinv21_32_im {R : Type} [Ring R] (CLOVER_DOUBLE : Bool) (C : CloverRegs R) : R :=
  cinv01_12_im CLOVER_DOUBLE C
def cinv22_32_re {R : Type} [Ring R] (CLOVER_DOUBLE : Bool) (C : CloverRegs R) : R :=
  cinv02_12_re CLOVER_DOUBLE C
def cinv22_32_im {R : Type} [Ring R] (CLOVER_DOUBLE : Bool) (C : CloverRegs R) : R :=
  cinv02_12_im CLOVER_DOUBLE C
def cinv30_32_re {R : Type} [Ring R] (CLOVER_DOUBLE : Bool) (C : CloverRegs R) : R :=
  cinv10_12_re CLOVER_DOUBLE C
def cinv30_32_im {R : Type} [Ring R] (CLOVER_DOUBLE : Bool) (C : CloverRegs R) : R :=
  cinv10_12_im CLOVER_DOUBLE C
def cinv31_32_re {R : Type} [Ring R] (CLOVER_DOUBLE : Bool) (C : CloverRegs R) : R :=
  cinv11_12_re CLOVER_DOUBLE C
def cinv31_32_im {R : Type} [Ring R] (CLOVER_DOUBLE : Bool) (C : CloverRegs R) : R :=
  cinv11_12_im CLOVER_DOUBLE C
def cinv32_32_re {R : Type} [Ring R] (CLOVER_DOUBLE : Bool) (C : CloverRegs R) : R :=
  cinv12_12_re CLOVER_DOUBLE C

/-- The 6x6 complex matrix of the first chiral block of the clover term: its entry in row
`(s, c)` and column `(s', c')`, spins 0 and 1, is `csc_s'c'_re + i·csc_s'c'_im`; on the
diagonal only a macro `_re` is defined, and the imaginary part is 0; `D` stands for
`CLOVER_DOUBLE`. -/
def cloverFirstBlock (D : Bool) (C : CloverRegs ℝ) :
    Matrix (Fin 2 × Fin 3) (Fin 2 × Fin 3) ℂ :=
  Matrix.of fun r k =>
    (![![![![⟨c00_00_re D C, 0⟩, ⟨c00_01_re D C, c00_01_im D C⟩, ⟨c00_02_re D C, c00_02_im D C⟩],
         ![⟨c00_10_re D C, c00_10_im D C⟩, ⟨c00_11_re D C, c00_11_im D C⟩, ⟨c00_12_re D C, c00_12_im D C⟩]],
       ![![⟨c01_00_re D C, c01_00_im D C⟩, ⟨c01_01_re D C, 0⟩, ⟨c01_02_re D C, c01_02_im D C⟩],
         ![⟨c01_10_re D C, c01_10_im D C⟩, ⟨c01_11_re D C, c01_11_im D C⟩, ⟨c01_12_re D C, c01_12_im D C⟩]],
       ![![⟨c02_00_re D C, c02_00_im D C⟩, ⟨c02_01_re D C, c02_01_im D C⟩, ⟨c02_02_re D C, 0⟩],
         ![⟨c02_10_re D C, c02_10_im D C⟩, ⟨c02_11_re D C, c02_11_im D C⟩, ⟨c02_12_re D C, c02_12_im D C⟩]]],
      ![![![⟨c10_00_re D C, c10_00_im D C⟩, ⟨c10_01_re D C, c10_01_im D C⟩, ⟨c10_02_re D C, c10_02_im D C⟩],
         ![⟨c10_10_re D C, 0⟩, ⟨c10_11_re D C, c10_11_im D C⟩, ⟨c10_12_re D C, c10_12_im D C⟩]],
       ![![⟨c11_00_re D C, c11_00_im D C⟩, ⟨c11_01_re D C, c11_01_im D C⟩, ⟨c11_02_re D C, c11_02_im D C⟩],
         ![⟨c11_10_re D C, c11_10_im D C⟩, ⟨c11_11_re D C, 0⟩, ⟨c11_12_re D C, c11_12_im D C⟩]],
       ![![⟨c12_00_re D C, c12_00_im D C⟩, ⟨c12_01_re D C, c12_01_im D C⟩, ⟨c12_02_re D C, c12_02_im D C⟩],
         ![⟨c12_10_re D C, c12_10_im D C⟩, ⟨c12_11_re D C, c12_11_im D C⟩, ⟨c12_12_re D C, 0⟩]]]] :
      Fin 2 → Fin 3 → Fin 2 → Fin 3 → ℂ) r.1 r.2 k.1 k.2

/-- The 6x6 complex matrix of the second chiral block of the clover term: its entry in row
`(s, c)` and column `(s', c')`, spins 2 and 3, is `csc_s'c'_re + i·csc_s'c'_im`; on the
diagonal only a macro `_re` is defined, and the imaginary part is 0; `D` stands for
`CLOVER_DOUBLE`. -/
def cloverSecondBlock (D : Bool) (C : CloverRegs ℝ) :
    Matrix (Fin 2 × Fin 3) (Fin 2 × Fin 3) ℂ :=
  Matrix.of fun r k =>
    (![![![![⟨c20_20_re D C, 0⟩, ⟨c20_21_re D C, c20_21_im D C⟩, ⟨c20_22_re D C, c20_22_im D C⟩],
         ![⟨c20_30_re D C, c20_30_im D C⟩, ⟨c20_31_re D C, c20_31_im D C⟩, ⟨c20_32_re D C, c20_32_im D C⟩]],
       ![![⟨c21_20_re D C, c21_20_im D C⟩, ⟨c21_21_re D C, 0⟩, ⟨c21_22_re D C, c21_22_im D C⟩],
         ![⟨c21_30_re D C, c21_30_im D C⟩, ⟨c21_31_re D C, c21_31_im D C⟩, ⟨c21_32_re D C, c21_32_im D C⟩]],
       ![![⟨c22_20_re D C, c22_20_im D C⟩, ⟨c22_21_re D C, c22_21_im D C⟩, ⟨c22_22_re D C, 0⟩],
         ![⟨c22_30_re D C, c22_30_im D C⟩, ⟨c22_31_re D C, c22_31_im D C⟩, ⟨c22_32_re D C, c22_32_im D C⟩]]],
      ![![![⟨c30_20_re D C, c30_20_im D C⟩, ⟨c30_21_re D C, c30_21_im D C⟩, ⟨c30_22_re D C, c30_22_im D C⟩],
         ![⟨c30_30_re D C, 0⟩, ⟨c30_31_re D C, c30_31_im D C⟩, ⟨c30_32_re D C, c30_32_im D C⟩]],
       ![![⟨c31_20_re D C, c31_20_im D C⟩, ⟨c31_21_re D C, c31_21_im D C⟩, ⟨c31_22_re D C, c31_22_im D C⟩],
         ![⟨c31_30_re D C, c31_30_im D C⟩, ⟨c31_31_re D C, 0⟩, ⟨c31_32_re D C, c31_32_im D C⟩]],
       ![![⟨c32_20_re D C, c32_20_im D C⟩, ⟨c32_21_re D C, c32_21_im D C⟩, ⟨c32_22_re D C, c32_22_im D C⟩],
         ![⟨c32_30_re D C, c32_30_im D C⟩, ⟨c32_31_re D C, c32_31_im D C⟩, ⟨c32_32_re D C, 0⟩]]]] :
      Fin 2 → Fin 3 → Fin 2 → Fin 3 → ℂ) r.1 r.2 k.1 k.2

/-- The 6x6 complex matrix of the first chiral block of the inverted clover term: its entry in row
`(s, c)` and column `(s', c')`, spins 0 and 1, is `cinvsc_s'c'_re + i·cinvsc_s'c'_im`; on the
diagonal only a macro `_re` is defined, and the imaginary part is 0; `D` stands for
`CLOVER_DOUBLE`. -/
def cloverInvFirstBlock (D : Bool) (C : CloverRegs ℝ) :
    Matrix (Fin 2 × Fin 3) (Fin 2 × Fin 3) ℂ :=
  Matrix.of fun r k =>
    (![![![![⟨cinv00_00_re D C, 0⟩, ⟨cinv00_01_re D C, cinv00_01_im D C⟩, ⟨cinv00_02_re D C, cinv00_02_im D C⟩],
         ![⟨cinv00_10_re D C, cinv00_10_im D C⟩, ⟨cinv00_11_re D C, cinv00_11_im D C⟩, ⟨cinv00_12_re D C, cinv00_12_im D C⟩]],
       ![![⟨cinv01_00_re D C, cinv01_00_im D C⟩, ⟨cinv01_01_re D C, 0⟩, ⟨cinv01_02_re D C, cinv01_02_im D C⟩],
         ![⟨cinv01_10_re D C, cinv01_10_im D C⟩, ⟨cinv01_11_re D C, cinv01_11_im D C⟩, ⟨cinv01_12_re D C, cinv01_12_im D C⟩]],
       ![![⟨cinv02_00_re D C, cinv02_00_im D C⟩, ⟨cinv02_01_re D C, cinv02_01_im D C⟩, ⟨cinv02_02_re D C, 0⟩],
         ![⟨cinv02_10_re D C, cinv02_10_im D C⟩, ⟨cinv02_11_re D C, cinv02_11_im D C⟩, ⟨cinv02_12_re D C, cinv02_12_im D C⟩]]],
      ![![![⟨cinv10_00_re D C, cinv10_00_im D C⟩, ⟨cinv10_01_re D C, cinv10_01_im D C⟩, ⟨cinv10_02_re D C, cinv10_02_im D C⟩],
         ![⟨cinv10_10_re D C, 0⟩, ⟨cinv10_11_re D C, cinv10_11_im D C⟩, ⟨cinv10_12_re D C, cinv10_12_im D C⟩]],
       ![![⟨cinv11_00_re D C, cinv11_00_im D C⟩, ⟨cinv11_01_re D C, cinv11_01_im D C⟩, ⟨cinv11_02_re D C, cinv11_02_im D C⟩],
         ![⟨cinv11_10_re D C, cinv11_10_im D C⟩, ⟨cinv11_11_re D C, 0⟩, ⟨cinv11_12_re D C, cinv11_12_im D C⟩]],
       ![![⟨cinv12_00_re D C, cinv12_00_im D C⟩, ⟨cinv12_01_re D C, cinv12_01_im D C⟩, ⟨cinv12_02_re D C, cinv12_02_im D C⟩],
         ![⟨cinv12_10_re D C, cinv12_10_im D C⟩, ⟨cinv12_11_re D C, cinv12_11_im D C⟩, ⟨cinv12_12_re D C, 0⟩]]]] :
      Fin 2 → Fin 3 → Fin 2 → Fin 3 → ℂ) r.1 r.2 k.1 k.2

/-- The 6x6 complex matrix of the second chiral block of the inverted clover term: its entry in row
`(s, c)` and column `(s', c')`, spins 2 and 3, is `cinvsc_s'c'_re + i·cinvsc_s'c'_im`; on the
diagonal only a macro `_re` is defined, and the imaginary part is 0; `D` stands for
`CLOVER_DOUBLE`. -/
def cloverInvSecondBlock (D : Bool) (C : CloverRegs ℝ) :
    Matrix (Fin 2 × Fin 3) (Fin 2 × Fin 3) ℂ :=
  Matrix.of fun r k =>
    (![![![![⟨cinv20_20_re D C, 0⟩, ⟨cinv20_21_re D C, cinv20_21_im D C⟩, ⟨cinv20_22_re D C, cinv20_22_im D C⟩],
         ![⟨cinv20_30_re D C, cinv20_30_im D C⟩, ⟨cinv20_31_re D C, cinv20_31_im D C⟩, ⟨cinv20_32_re D C, cinv20_32_im D C⟩]],
       ![![⟨cinv21_20_re D C, cinv21_20_im D C⟩, ⟨cinv21_21_re D C, 0⟩, ⟨cinv21_22_re D C, cinv21_22_im D C⟩],
         ![⟨cinv21_30_re D C, cinv21_30_im D C⟩, ⟨cinv21_31_re D C, cinv21_31_im D C⟩, ⟨cinv21_32_re D C, cinv21_32_im D C⟩]],
       ![![⟨cinv22_20_re D C, cinv22_20_im D C⟩, ⟨cinv22_21_re D C, cinv22_21_im D C⟩, ⟨cinv22_22_re D C, 0⟩],
         ![⟨cinv22_30_re D C, cinv22_30_im D C⟩, ⟨cinv22_31_re D C, cinv22_31_im D C⟩, ⟨cinv22_32_re D C, cinv22_32_im D C⟩]]],
      ![![![⟨cinv30_20_re D C, cinv30_20_im D C⟩, ⟨cinv30_21_re D C, cinv30_21_im D C⟩, ⟨cinv30_22_re D C, cinv30_22_im D C⟩],
         ![⟨cinv30_30_re D C, 0⟩, ⟨cinv30_31_re D C, cinv30_31_im D C⟩, ⟨cinv30_32_re D C, cinv30_32_im D C⟩]],
       ![![⟨cinv31_20_re D C, cinv31_20_im D C⟩, ⟨cinv31_21_re D C, cinv31_21_im D C⟩, ⟨cinv31_22_re D C, cinv31_22_im D C⟩],
         ![⟨cinv31_30_re D C, cinv31_30_im D C⟩, ⟨cinv31_31_re D C, 0⟩, ⟨cinv31_32_re D C, cinv31_32_im D C⟩]],
       ![![⟨cinv32_20_re D C, cinv32_20_im D C⟩, ⟨cinv32_21_re D C, cinv32_21_im D C⟩, ⟨cinv32_22_re D C, cinv32_22_im D C⟩],
         ![⟨cinv32_30_re D C, cinv32_30_im D C⟩, ⟨cinv32_31_re D C, cinv32_31_im D C⟩, ⟨cinv32_32_re D C, 0⟩]]]] :
      Fin 2 → Fin 3 → Fin 2 → Fin 3 → ℂ) r.1 r.2 k.1 k.2

/-! ### Complex form of the registers (vocabulary of the statements on the kernels) -/

/-- The complex 3x3 matrix `U` held in the registers of a link: entry `(i, j)` is
`gij_re + i·gij_im`. -/
def Link.toMatrix (G : Link ℝ) : Matrix (Fin 3) (Fin 3) ℂ :=
  !![⟨G.g00_re, G.g00_im⟩, ⟨G.g01_re, G.g01_im⟩, ⟨G.g02_re, G.g02_im⟩;
     ⟨G.g10_re, G.g10_im⟩, ⟨G.g11_re, G.g11_im⟩, ⟨G.g12_re, G.g12_im⟩;
     ⟨G.g20_re, G.g20_im⟩, ⟨G.g21_re, G.g21_im⟩, ⟨G.g22_re, G.g22_im⟩]

/-- The complex 3x3 matrix whose entry `(i, j)` is `gTij_re + i·gTij_im`. -/
def Link.gTMatrix (G : Link ℝ) : Matrix (Fin 3) (Fin 3) ℂ :=
  !![⟨G.gT00_re, G.gT00_im⟩, ⟨G.gT01_re, G.gT01_im⟩, ⟨G.gT02_re, G.gT02_im⟩;
     ⟨G.gT10_re, G.gT10_im⟩, ⟨G.gT11_re, G.gT11_im⟩, ⟨G.gT12_re, G.gT12_im⟩;
     ⟨G.gT20_re, G.gT20_im⟩, ⟨G.gT21_re, G.gT21_im⟩, ⟨G.gT22_re, G.gT22_im⟩]

/-- The colour vector `a` of a half spinor, as three complex numbers. -/
def HalfSpinor.a (h : HalfSpinor ℝ) : Fin 3 → ℂ :=
  ![⟨h.a0_re, h.a0_im⟩, ⟨h.a1_re, h.a1_im⟩, ⟨h.a2_re, h.a2_im⟩]

/-- The colour vector `b` of a half spinor, as three complex numbers. -/
def HalfSpinor.b (h : HalfSpinor ℝ) : Fin 3 → ℂ :=
  ![⟨h.b0_re, h.b0_im⟩, ⟨h.b1_re, h.b1_im⟩, ⟨h.b2_re, h.b2_im⟩]

/-- The colour vector `A`, as three complex numbers. -/
def LinkedHalfSpinor.A (h : LinkedHalfSpinor ℝ) : Fin 3 → ℂ :=
  ![⟨h.A0_re, h.A0_im⟩, ⟨h.A1_re, h.A1_im⟩, ⟨h.A2_re, h.A2_im⟩]

/-- The colour vector `B`, as three complex numbers. -/
def LinkedHalfSpinor.B (h : LinkedHalfSpinor ℝ) : Fin 3 → ℂ :=
  ![⟨h.B0_re, h.B0_im⟩, ⟨h.B1_re, h.B1_im⟩, ⟨h.B2_re, h.B2_im⟩]

/-- The half spinor held in the registers `i00_re` … `i12_im`: its upper colour vector
(`i00`, `i01`, `i02`). -/
def HalfSpinorRegs.upper (I : HalfSpinorRegs ℝ) : Fin 3 → ℂ :=
  ![⟨I.i00_re, I.i00_im⟩, ⟨I.i01_re, I.i01_im⟩, ⟨I.i02_re, I.i02_im⟩]

/-- The half spinor held in the registers `i00_re` … `i12_im`: its lower colour vector
(`i10`, `i11`, `i12`). -/
def HalfSpinorRegs.lower (I : HalfSpinorRegs ℝ) : Fin 3 → ℂ :=
  ![⟨I.i10_re, I.i10_im⟩, ⟨I.i11_re, I.i11_im⟩, ⟨I.i12_re, I.i12_im⟩]

/-- The spinor held in 24 registers, as complex numbers indexed by spin and colour. -/
def Spinor.toComplex (o : Spinor ℝ) : Fin 4 → Fin 3 → ℂ :=
  ![![⟨o.v00_re, o.v00_im⟩, ⟨o.v01_re, o.v01_im⟩, ⟨o.v02_re, o.v02_im⟩],
    ![⟨o.v10_re, o.v10_im⟩, ⟨o.v11_re, o.v11_im⟩, ⟨o.v12_re, o.v12_im⟩],
    ![⟨o.v20_re, o.v20_im⟩, ⟨o.v21_re, o.v21_im⟩, ⟨o.v22_re, o.v22_im⟩],
    ![⟨o.v30_re, o.v30_im⟩, ⟨o.v31_re, o.v31_im⟩, ⟨o.v32_re, o.v32_im⟩]]

/-- The link whose matrix is the 3x3 identity. -/
def Link.identity {R : Type} [Ring R] : Link R :=
  { g00_re := 1, g00_im := 0, g01_re := 0, g01_im := 0, g02_re := 0, g02_im := 0,
    g10_re := 0, g10_im := 0, g11_re := 1, g11_im := 0, g12_re := 0, g12_im := 0,
    g20_re := 0, g20_im := 0, g21_re := 0, g21_im := 0, g22_re := 1, g22_im := 0 }

/-- The matrix of the comment `// Projector P0-` that heads the forward branch of
direction 0 of `tm` (`tm:265-269`). -/
def tm.projector0_forward : Matrix (Fin 4) (Fin 4) ℂ :=
  !![1, 0, 0, -Complex.I;
     0, 1, -Complex.I, 0;
     0, Complex.I, 1, 0;
     Complex.I, 0, 0, 1]

/-- The matrix of the comment `// Projector P0+` that heads the backward branch of
direction 0 of `tm` (`tm:426-430`). -/
def tm.projector0_backward : Matrix (Fin 4) (Fin 4) ℂ :=
  !![1, 0, 0, Complex.I;
     0, 1, Complex.I, 0;
     0, -Complex.I, 1, 0;
     -Complex.I, 0, 0, 1]

/-- The matrix of the comment `// Projector P1-` that heads the forward branch of
direction 1 of `tm` (`tm:587-591`). -/
def tm.projector1_forward : Matrix (Fin 4) (Fin 4) ℂ :=
  !![1, 0, 0, -1;
     0, 1, 1, 0;
     0, 1, 1, 0;
     -1, 0, 0, 1]

/-- The matrix of the comment `// Projector P1+` that heads the backward branch of
direction 1 of `tm` (`tm:748-752`). -/
def tm.projector1_backward : Matrix (Fin 4) (Fin 4) ℂ :=
  !![1, 0, 0, 1;
     0, 1, -1, 0;
     0, -1, 1, 0;
     1, 0, 0, 1]

/-- The matrix of the comment `// Projector P2-` that heads the forward branch of
direction 2 of `tm` (`tm:909-913`). -/
def tm.projector2_forward : Matrix (Fin 4) (Fin 4) ℂ :=
  !![1, 0, -Complex.I, 0;
     0, 1, 0, Complex.I;
     Complex.I, 0, 1, 0;
     0, -Complex.I, 0, 1]

/-- The matrix of the comment `// Projector P2+` that heads the backward branch of
direction 2 of `tm` (`tm:1070-1074`). -/
def tm.projector2_backward : Matrix (Fin 4) (Fin 4) ℂ :=
  !![1, 0, Complex.I, 0;
     0, 1, 0, -Complex.I;
     -Complex.I, 0, 1, 0;
     0, Complex.I, 0, 1]

/-- The matrix of the comment `// Projector P3-` that heads the forward branch of
direction 3 of `tm` (`tm:1231-1235`). -/
def tm.projector3_forward : Matrix (Fin 4) (Fin 4) ℂ :=
  !![0, 0, 0, 0;
     0, 0, 0, 0;
     0, 0, 2, 0;
     0, 0, 0, 2]

/-- The matrix of the comment `// Projector P3+` that heads the backward branch of
direction 3 of `tm` (`tm:1447-1451`). -/
def tm.projector3_backward : Matrix (Fin 4) (Fin 4) ℂ :=
  !![2, 0, 0, 0;
     0, 2, 0, 0;
     0, 0, 0, 0;
     0, 0, 0, 0]

/-- The matrix of the comment `// Projector P0+` that heads the forward branch of
direction 0 of `tmc` (`tmc:661-665`). -/
def tmc.projector0_forward : Matrix (Fin 4) (Fin 4) ℂ :=
  !![1, 0, 0, Complex.I;
     0, 1, Complex.I, 0;
     0, -Complex.I, 1, 0;
     -Complex.I, 0, 0, 1]

/-- The matrix of the comment `// Projector P0-` that heads the backward branch of
direction 0 of `tmc` (`tmc:822-826`). -/
def tmc.projector0_backward : Matrix (Fin 4) (Fin 4) ℂ :=
  !![1, 0, 0, -Complex.I;
     0, 1, -Complex.I, 0;
     0, Complex.I, 1, 0;
     Complex.I, 0, 0, 1]

/-- The matrix of the comment `// Projector P1+` that heads the forward branch of
direction 1 of `tmc` (`tmc:983-987`). -/
def tmc.projector1_forward : Matrix (Fin 4) (Fin 4) ℂ :=
  !![1, 0, 0, 1;
     0, 1, -1, 0;
     0, -1, 1, 0;
     1, 0, 0, 1]

/-- The matrix of the comment `// Projector P1-` that heads the backward branch of
direction 1 of `tmc` (`tmc:1144-1148`). -/
def tmc.projector1_backward : Matrix (Fin 4) (Fin 4) ℂ :=
  !![1, 0, 0, -1;
     0, 1, 1, 0;
     0, 1, 1, 0;
     -1, 0, 0, 1]

/-- The matrix of the comment `// Projector P2+` that heads the forward branch of
direction 2 of `tmc` (`tmc:1305-1309`). -/
def tmc.projector2_forward : Matrix (Fin 4) (Fin 4) ℂ :=
  !![1, 0, Complex.I, 0;
     0, 1, 0, -Complex.I;
     -Complex.I, 0, 1, 0;
     0, Complex.I, 0, 1]

/-- The matrix of the comment `// Projector P2-` that heads the backward branch of
direction 2 of `tmc` (`tmc:1466-1470`). -/
def tmc.projector2_backward : Matrix (Fin 4) (Fin 4) ℂ :=
  !![1, 0, -Complex.I, 0;
     0, 1, 0, Complex.I;
     Complex.I, 0, 1, 0;
     0, -Complex.I, 0, 1]

/-- The matrix of the comment `// Projector P3+` that heads the forward branch of
direction 3 of `tmc` (`tmc:1627-1631`). -/
def tmc.projector3_forward : Matrix (Fin 4) (Fin 4) ℂ :=
  !![2, 0, 0, 0;
     0, 2, 0, 0;
     0, 0, 0, 0;
     0, 0, 0, 0]

/-- The matrix of the comment `// Projector P3-` that heads the backward branch of
direction 3 of `tmc` (`tmc:1825-1829`). -/
def tmc.projector3_backward : Matrix (Fin 4) (Fin 4) ℂ :=
  !![0, 0, 0, 0;
     0, 0, 0, 0;
     0, 0, 2, 0;
     0, 0, 0, 2]


/-- The branch `branch` adds to the output spinor, for every colour `c`, the matrix `P`
applied to the spinor `(A c, B c, 0, 0)`, where `A = W a` and `B = W b` are the colour
vectors `a`, `b` of the half spinor read from the ghost zone, multiplied by the matrix
`W` of the link. -/
def AddsProjected (P : Matrix (Fin 4) (Fin 4) ℂ) (W : Link ℝ → Matrix (Fin 3) (Fin 3) ℂ)
    (branch : Link ℝ → HalfSpinorRegs ℝ → Spinor ℝ → Spinor ℝ) : Prop :=
  ∀ (G : Link ℝ) (I : HalfSpinorRegs ℝ) (o : Spinor ℝ) (c : Fin 3),
    (fun s => (branch G I o).toComplex s c - o.toComplex s c)
      = P.mulVec ![(W G).mulVec I.upper c, (W G).mulVec I.lower c, 0, 0]

/-- A sample half spinor on integer registers: `i00 = 1`, every other register 0. -/
def sampleHalfSpinorRegs : HalfSpinorRegs ℤ :=
  { i00_re := 1, i00_im := 0, i01_re := 0, i01_im := 0, i02_re := 0, i02_im := 0,
    i10_re := 0, i10_im := 0, i11_re := 0, i11_im := 0, i12_re := 0, i12_im := 0 }

/-- The spinor all of whose 24 registers hold `x`. -/
def Spinor.const {R : Type} (x : R) : Spinor R :=
  { v00_re := x, v00_im := x, v01_re := x, v01_im := x, v02_re := x, v02_im := x,
    v10_re := x, v10_im := x, v11_re := x, v11_im := x, v12_re := x, v12_im := x,
    v20_re := x, v20_im := x, v21_re := x, v21_im := x, v22_re := x, v22_im := x,
    v30_re := x, v30_im := x, v31_re := x, v31_im := x, v32_re := x, v32_im := x }

/-- A sample link on integer registers, not the identity. -/
def sampleLink : Link ℤ :=
  { g00_re := 2, g00_im := 1, g01_re := 0, g01_im := 3, g02_re := 1, g02_im := 0,
    g10_re := 0, g10_im := 0, g11_re := 1, g11_im := 2, g12_re := 4, g12_im := 0,
    g20_re := 1, g20_im := 1, g21_re := 0, g21_im := 0, g22_re := 3, g22_im := 5 }

/-! ### `Mdag` and `MMdag` -/

/-- The toggle of the dagger flag between its two states `QUDA_DAG_NO` (NORMAL) and
`QUDA_DAG_YES` (DAGGER); `QUDA_DAG_INVALID` is neither and is left as it is. -/
def QudaDagType.toggle : QudaDagType → QudaDagType
  | .QUDA_DAG_NO => .QUDA_DAG_YES
  | .QUDA_DAG_YES => .QUDA_DAG_NO
  | .QUDA_DAG_INVALID => .QUDA_DAG_INVALID

/-- Modelled from the spec: the body of `Dirac::Mdag` (declared at `dirac_quda.h:131`)
is not among the sources.  "Toggle the dagger flag, invoke `M`, toggle it back. This
save/restore must be exception-safe: a failing `M` call must still restore the dagger
flag before propagating the failure."  The flag is saved, toggled for the call of the
member `M`, and set back to the saved value whether that call returns or fails. -/
def Dirac.Mdag {V : Type} (M : V → Call (World V) Unit) (inp : V) : Call (World V) Unit :=
  fun w =>
    let saved := w.dirac.dagger
    match M inp { w with dirac := { w.dirac with dagger := saved.toggle } } with
    | .returned a w' => .returned a { w' with dirac := { w'.dirac with dagger := saved } }
    | .thrown e w' => .thrown e { w' with dirac := { w'.dirac with dagger := saved } }

/-- Modelled from the spec: the body of `Dirac::MMdag` (declared at `dirac_quda.h:132`)
is not among the sources.  The spec gives it the protocol of `Mdag` ("toggle the dagger
flag, invoke `M`, toggle it back", exception-safe); the member invoked between the two
toggles is the argument `M`. -/
def Dirac.MMdag {V : Type} (M : V → Call (World V) Unit) (inp : V) : Call (World V) Unit :=
  fun w =>
    let saved := w.dirac.dagger
    match M inp { w with dirac := { w.dirac with dagger := saved.toggle } } with
    | .returned a w' => .returned a { w' with dirac := { w'.dirac with dagger := saved } }
    | .thrown e w' => .thrown e { w' with dirac := { w'.dirac with dagger := saved } }

/-- The members of an operator whose `Mdag` and `MMdag` are the ones of the base class
`Dirac`; `inner` is the member `MMdag` invokes between its two toggles. -/
def DiracOps.ofVirtual {V : Type} (M MdagM inner : V → Call (World V) Unit) : DiracOps V :=
  { M := M, MdagM := MdagM, Mdag := Dirac.Mdag M, MMdag := Dirac.MMdag inner }

/-- The state in which a call ends, on either path. -/
def Outcome.state {σ α : Type} : Outcome σ α → σ
  | .returned _ s => s
  | .thrown _ s => s

/-! ### The thread prologue and the sequence of branches of the exterior kernels

The text from `sid = blockIdx.x*blockDim.x + threadIdx.x;` to the assignments
`o00_re = i00_re; … o32_im = i32_im;` is the same in the two files (`tm:228-262`,
`tmc:624-658`), and so are, branch by branch, the eight conditions and the statements
that compute the indices and read the half spinor and the link. -/

/-- The value of an `int` expression whose mathematical value is `x`: `x` reduced modulo
`2^32` to the range `-2^31 … 2^31 - 1`. -/
def int32 (x : Int) : Int := (x + 2147483648) % 4294967296 - 2147483648

/-- `sid = blockIdx.x*blockDim.x + threadIdx.x;` (`tm:228`, `tmc:624`): the operands are
`unsigned int`, the result is converted to `int`. -/
def threadIndex (blockIdx_x blockDim_x threadIdx_x : Nat) : Int :=
  int32 (((blockIdx_x * blockDim_x + threadIdx_x) % 4294967296 : Nat) : Int)

/-- `const int face_volume = ((param.threadDimMapUpper[dim] -
param.threadDimMapLower[dim]) >> 1);` (`tm:234`, `tmc:630`); the arguments are the two
array elements. -/
def face_volume (threadDimMapUpper threadDimMapLower : Int) : Int :=
  int32 (threadDimMapUpper - threadDimMapLower) >>> (1 : Nat)

/-- `const int face_num = (sid >= face_volume);` (`tm:235`, `tmc:631`). -/
def face_num (sid face_volume : Int) : Int :=
  if sid ≥ face_volume then 1 else 0

/-- `face_idx = sid - face_num*face_volume;` (`tm:236`, `tmc:632`). -/
def face_idx (sid face_num face_volume : Int) : Int :=
  int32 (sid - int32 (face_num * face_volume))

/-- The variables `X`, `sid`, `x1`, `x2`, `x3`, `x4` as the call of
`coordsFromFaceIndex<1>` leaves them. -/
structure Coords where
  X : Int
  sid : Int
  x1 : Int
  x2 : Int
  x3 : Int
  x4 : Int

/-- What the body of an exterior kernel takes from outside the two files: fields of
`param`, constants, functions of other headers and the macros that access device
memory.  `dimFromFaceIndex(sid, param)` yields `dim` and the new value of `sid` (`// sid
is also modified`); `coordsFromFaceIndex<1>(X, sid, x1, x2, x3, x4, face_idx,
face_volume, dim, face_num, param.parity, dims)` is taken to write its first six
arguments from `sid`, `face_idx`, `face_volume`, `dim`, `face_num`; `isActive(dim, dir,
offset, x1, x2, x3, x4, param.commDim, param.X)` is a value of `dim`, `dir`, `offset` and
the coordinates; `faceIndexFromCoords<1>(face_idx, x1, x2, x3, x4, D, Y)` yields the new
value of `face_idx` from the old one, the coordinates and `D`.
`READ_INTERMEDIATE_SPINOR(INTERTEX, param.sp_stride, sid, sid)` and
`READ_ACCUM(ACCUMTEX, param.sp_stride)` yield the spinor stored at `sid`,
`READ_HALF_SPINOR(SPINORTEX, stride, idx, sp_norm_idx)` the half spinor at `idx`
(`sp_norm_idx` exists only when `DD_PREC==2`), `READ_GAUGE_MATRIX(G, …, dir, ga_idx,
ga_stride)` followed by `RECONSTRUCT_GAUGE_MATRIX(dir)` the link of `dir` at `ga_idx`. -/
structure KernelContext (R : Type) where
  threads : Int
  threadDimMapUpper : Int → Int
  threadDimMapLower : Int → Int
  ghostOffset : Int → Int
  ghostNormOffset : Int → Int
  ghostFace : Int → Int
  X1 : Int
  X2 : Int
  X3 : Int
  X4 : Int
  X1m1 : Int
  X2m1 : Int
  X3m1 : Int
  X4m1 : Int
  Vh : Int
  X4X3X2X1hmX3X2X1h : Int
  SPINOR_HOP : Int
  DD_PREC : Int
  gauge_fixed : Bool
  dimFromFaceIndex : Int → Int × Int
  coordsFromFaceIndex : Int → Int → Int → Int → Int → Coords
  isActive : Int → Int → Int → Int → Int → Int → Int → Bool
  faceIndexFromCoords : Int → Int → Int → Int → Int → Int → Int
  READ_INTERMEDIATE_SPINOR : Int → Spinor R
  READ_HALF_SPINOR : Int → Int → Option Int → HalfSpinorRegs R
  READ_GAUGE_MATRIX : Int → Int → Link R
  READ_ACCUM : Int → Spinor R

/-- The array `faceVolume` of the half-precision build (`tm:222-225`, `tmc:618-621`):
`faceVolume[0] = (X2*X3*X4)>>1;` … `faceVolume[3] = (X1*X2*X3)>>1;`. -/
def faceVolume {R : Type} (E : KernelContext R) (k : Int) : Int :=
  if k = 0 then int32 (int32 (E.X2 * E.X3) * E.X4) >>> (1 : Nat)
  else if k = 1 then int32 (int32 (E.X1 * E.X3) * E.X4) >>> (1 : Nat)
  else if k = 2 then int32 (int32 (E.X1 * E.X2) * E.X4) >>> (1 : Nat)
  else int32 (int32 (E.X1 * E.X2) * E.X3) >>> (1 : Nat)

/-- The variables a thread has set when it reaches the test of `active`, none of which
is assigned afterwards, and `face_idx` as `tm:236` (`tmc:632`) leaves it. -/
structure Site where
  sid : Int
  dim : Int
  X : Int
  x1 : Int
  x2 : Int
  x3 : Int
  x4 : Int
  face_idx : Int

/-- The statements from `dim = dimFromFaceIndex(sid, param);` to the call of
`coordsFromFaceIndex<1>` (`tm:232-240`, `tmc:628-636`), run by a thread that has passed
`if (sid >= param.threads) return;` with thread index `sid`. -/
def locateSite {R : Type} (E : KernelContext R) (sid : Int) : Site :=
  let dim := (E.dimFromFaceIndex sid).1
  let sid := (E.dimFromFaceIndex sid).2
  let face_volume := face_volume (E.threadDimMapUpper dim) (E.threadDimMapLower dim)
  let face_num := face_num sid face_volume
  let face_idx := face_idx sid face_num face_volume
  let coords := E.coordsFromFaceIndex sid face_idx face_volume dim face_num
  { sid := coords.sid, dim := dim, X := coords.X, x1 := coords.x1, x2 := coords.x2,
    x3 := coords.x3, x4 := coords.x4, face_idx := face_idx }

/-- The loop `bool active = false; for(int dir=0; dir<4; ++dir){ active = active ||
isActive(dim,dir,+1,x1,x2,x3,x4,param.commDim,param.X); }` (`tm:242-245`,
`tmc:638-641`): the value of `active` when it ends. -/
def active {R : Type} (E : KernelContext R) (c : Site) : Bool :=
  (List.range 4).foldl
    (fun active dir => active || E.isActive c.dim (dir : Int) 1 c.x1 c.x2 c.x3 c.x4) false

/-- The eight `if` statements that follow the initialisation of the output spinor, in
the order of the source: for each direction 0 … 3 the one whose condition tests
`isActive(dim,D,+1,…)` (`forward`), then the one whose condition tests
`isActive(dim,D,-1,…)` (`backward`). -/
inductive Branch where
  | forward0
  | backward0
  | forward1
  | backward1
  | forward2
  | backward2
  | forward3
  | backward3
  deriving DecidableEq, Repr, Fintype

/-- The eight branches in the order in which the kernels run them. -/
def Branch.all : List Branch :=
  [.forward0, .backward0, .forward1, .backward1, .forward2, .backward2, .forward3,
    .backward3]

/-- The conditions of the eight `if` statements (`tm:263`, `424`, `585`, `746`, `907`,
`1068`, `1229`, `1445`; the same text at `tmc:659`, `820`, `981`, `1142`, `1303`, `1464`,
`1625`, `1823`). -/
def Branch.condition {R : Type} (E : KernelContext R) (c : Site) : Branch → Bool
  | .forward0 => E.isActive c.dim 0 1 c.x1 c.x2 c.x3 c.x4 && decide (c.x1 = E.X1m1)
  | .backward0 => E.isActive c.dim 0 (-1) c.x1 c.x2 c.x3 c.x4 && decide (c.x1 = 0)
  | .forward1 => E.isActive c.dim 1 1 c.x1 c.x2 c.x3 c.x4 && decide (c.x2 = E.X2m1)
  | .backward1 => E.isActive c.dim 1 (-1) c.x1 c.x2 c.x3 c.x4 && decide (c.x2 = 0)
  | .forward2 => E.isActive c.dim 2 1 c.x1 c.x2 c.x3 c.x4 && decide (c.x3 = E.X3m1)
  | .backward2 => E.isActive c.dim 2 (-1) c.x1 c.x2 c.x3 c.x4 && decide (c.x3 = 0)
  | .forward3 => E.isActive c.dim 3 1 c.x1 c.x2 c.x3 c.x4 && decide (c.x4 = E.X4m1)
  | .backward3 => E.isActive c.dim 3 (-1) c.x1 c.x2 c.x3 c.x4 && decide (c.x4 = 0)

/-- What a branch has read when it starts to multiply: the new value of `face_idx`, its
`ga_idx`, the half spinor and the link. -/
structure GhostRead (R : Type) where
  face_idx : Int
  ga_idx : Int
  I : HalfSpinorRegs R
  G : Link R

/-- The statements of a branch that compute `face_idx`, `sp_idx`, `sp_norm_idx`,
`ga_idx`, `sp_stride_pad` and read the half spinor and the link (for `forward0`:
`tm:271-303`, `tmc:667-699`; the other branches alike); `face_idx` is the value of the
variable on entry.  In the temporal branches the link is read in the `else` part
only. -/
def Branch.read {R : Type} (E : KernelContext R) (c : Site) (k : Branch) (face_idx : Int) :
    GhostRead R :=
  match k with
  | .forward0 =>
    let face_idx := E.faceIndexFromCoords face_idx c.x1 c.x2 c.x3 c.x4 0
    let sp_idx := int32 (face_idx + E.ghostOffset 0)
    let sp_norm_idx :=
      if E.DD_PREC = 2 then
        some (int32 (int32 (face_idx + faceVolume E 0) + E.ghostNormOffset 0))
      else none
    let ga_idx := c.sid
    let sp_stride_pad := E.ghostFace 0
    { face_idx := face_idx, ga_idx := ga_idx,
      I := E.READ_HALF_SPINOR sp_stride_pad
        (int32 (sp_idx + int32 (Int.tdiv E.SPINOR_HOP 2 * sp_stride_pad))) sp_norm_idx,
      G := E.READ_GAUGE_MATRIX 0 ga_idx }
  | .backward0 =>
    let face_idx := E.faceIndexFromCoords face_idx c.x1 c.x2 c.x3 c.x4 0
    let sp_idx := int32 (face_idx + E.ghostOffset 0)
    let sp_norm_idx := if E.DD_PREC = 2 then some (int32 (face_idx + E.ghostNormOffset 0)) else none
    let ga_idx := int32 (E.Vh + face_idx)
    let sp_stride_pad := E.ghostFace 0
    { face_idx := face_idx, ga_idx := ga_idx,
      I := E.READ_HALF_SPINOR sp_stride_pad sp_idx sp_norm_idx,
      G := E.READ_GAUGE_MATRIX 1 ga_idx }
  | .forward1 =>
    let face_idx := E.faceIndexFromCoords face_idx c.x1 c.x2 c.x3 c.x4 1
    let sp_idx := int32 (face_idx + E.ghostOffset 1)
    let sp_norm_idx :=
      if E.DD_PREC = 2 then
        some (int32 (int32 (face_idx + faceVolume E 1) + E.ghostNormOffset 1))
      else none
    let ga_idx := c.sid
    let sp_stride_pad := E.ghostFace 1
    { face_idx := face_idx, ga_idx := ga_idx,
      I := E.READ_HALF_SPINOR sp_stride_pad
        (int32 (sp_idx + int32 (Int.tdiv E.SPINOR_HOP 2 * sp_stride_pad))) sp_norm_idx,
      G := E.READ_GAUGE_MATRIX 2 ga_idx }
  | .backward1 =>
    let face_idx := E.faceIndexFromCoords face_idx c.x1 c.x2 c.x3 c.x4 1
    let sp_idx := int32 (face_idx + E.ghostOffset 1)
    let sp_norm_idx := if E.DD_PREC = 2 then some (int32 (face_idx + E.ghostNormOffset 1)) else none
    let ga_idx := int32 (E.Vh + face_idx)
    let sp_stride_pad := E.ghostFace 1
    { face_idx := face_idx, ga_idx := ga_idx,
      I := E.READ_HALF_SPINOR sp_stride_pad sp_idx sp_norm_idx,
      G := E.READ_GAUGE_MATRIX 3 ga_idx }
  | .forward2 =>
    let face_idx := E.faceIndexFromCoords face_idx c.x1 c.x2 c.x3 c.x4 2
    let sp_idx := int32 (face_idx + E.ghostOffset 2)
    let sp_norm_idx :=
      if E.DD_PREC = 2 then
        some (int32 (int32 (face_idx + faceVolume E 2) + E.ghostNormOffset 2))
      else none
    let ga_idx := c.sid
    let sp_stride_pad := E.ghostFace 2
    { face_idx := face_idx, ga_idx := ga_idx,
      I := E.READ_HALF_SPINOR sp_stride_pad
        (int32 (sp_idx + int32 (Int.tdiv E.SPINOR_HOP 2 * sp_stride_pad))) sp_norm_idx,
      G := E.READ_GAUGE_MATRIX 4 ga_idx }
  | .backward2 =>
    let face_idx := E.faceIndexFromCoords face_idx c.x1 c.x2 c.x3 c.x4 2
    let sp_idx := int32 (face_idx + E.ghostOffset 2)
    let sp_norm_idx := if E.DD_PREC = 2 then some (int32 (face_idx + E.ghostNormOffset 2)) else none
    let ga_idx := int32 (E.Vh + face_idx)
    let sp_stride_pad := E.ghostFace 2
    { face_idx := face_idx, ga_idx := ga_idx,
      I := E.READ_HALF_SPINOR sp_stride_pad sp_idx sp_norm_idx,
      G := E.READ_GAUGE_MATRIX 5 ga_idx }
  | .forward3 =>
    let face_idx := E.faceIndexFromCoords face_idx c.x1 c.x2 c.x3 c.x4 3
    let sp_idx := int32 (face_idx + E.ghostOffset 3)
    let sp_norm_idx :=
      if E.DD_PREC = 2 then
        some (int32 (int32 (face_idx + faceVolume E 3) + E.ghostNormOffset 3))
      else none
    let ga_idx := c.sid
    let sp_stride_pad := E.ghostFace 3
    { face_idx := face_idx, ga_idx := ga_idx,
      I := E.READ_HALF_SPINOR sp_stride_pad
        (int32 (sp_idx + int32 (Int.tdiv E.SPINOR_HOP 2 * sp_stride_pad))) sp_norm_idx,
      G := E.READ_GAUGE_MATRIX 6 ga_idx }
  | .backward3 =>
    let face_idx := E.faceIndexFromCoords face_idx c.x1 c.x2 c.x3 c.x4 3
    let sp_idx := int32 (face_idx + E.ghostOffset 3)
    let sp_norm_idx := if E.DD_PREC = 2 then some (int32 (face_idx + E.ghostNormOffset 3)) else none
    let ga_idx := int32 (E.Vh + face_idx)
    let sp_stride_pad := E.ghostFace 3
    { face_idx := face_idx, ga_idx := ga_idx,
      I := E.READ_HALF_SPINOR sp_stride_pad sp_idx sp_norm_idx,
      G := E.READ_GAUGE_MATRIX 7 ga_idx }

/-- The variables a branch assigns that outlive it: `face_idx` and the output spinor
`o00_re` … `o32_im`. -/
structure Registers (R : Type) where
  face_idx : Int
  o : Spinor R

/-- The body of a branch of `tm`. -/
def tm.branchBody {R : Type} [Ring R] (TWIST_INV_DSLASH : Bool) (E : KernelContext R)
    (c : Site) (k : Branch) (r : Registers R) : Registers R :=
  let g := Branch.read E c k r.face_idx
  { face_idx := g.face_idx,
    o := match k with
      | .forward0 => tm.branch0_forward g.G g.I r.o
      | .backward0 => tm.branch0_backward g.G g.I r.o
      | .forward1 => tm.branch1_forward g.G g.I r.o
      | .backward1 => tm.branch1_backward g.G g.I r.o
      | .forward2 => tm.branch2_forward g.G g.I r.o
      | .backward2 => tm.branch2_backward g.G g.I r.o
      | .forward3 =>
        tm.branch3_forward TWIST_INV_DSLASH E.gauge_fixed g.ga_idx E.X4X3X2X1hmX3X2X1h
          g.G g.I r.o
      | .backward3 =>
        tm.branch3_backward TWIST_INV_DSLASH E.gauge_fixed g.ga_idx E.X4X3X2X1hmX3X2X1h
          g.G g.I r.o }

/-- The body of a branch of `tmc`. -/
def tmc.branchBody {R : Type} [Ring R] (TPROJSCALE : Int) (E : KernelContext R)
    (c : Site) (k : Branch) (r : Registers R) : Registers R :=
  let g := Branch.read E c k r.face_idx
  { face_idx := g.face_idx,
    o := match k with
      | .forward0 => tmc.branch0_forward g.G g.I r.o
      | .backward0 => tmc.branch0_backward g.G g.I r.o
      | .forward1 => tmc.branch1_forward g.G g.I r.o
      | .backward1 => tmc.branch1_backward g.G g.I r.o
      | .forward2 => tmc.branch2_forward g.G g.I r.o
      | .backward2 => tmc.branch2_backward g.G g.I r.o
      | .forward3 =>
        tmc.branch3_forward TPROJSCALE E.gauge_fixed g.ga_idx E.X4X3X2X1hmX3X2X1h
          g.G g.I r.o
      | .backward3 =>
        tmc.branch3_backward TPROJSCALE E.gauge_fixed g.ga_idx E.X4X3X2X1hmX3X2X1h
          g.G g.I r.o }

/-- One `if (…) { … }` of `tm`: the body when the condition holds, nothing otherwise. -/
def tm.branchIf {R : Type} [Ring R] (TWIST_INV_DSLASH : Bool) (E : KernelContext R)
    (c : Site) (r : Registers R) (k : Branch) : Registers R :=
  if Branch.condition E c k then tm.branchBody TWIST_INV_DSLASH E c k r else r

/-- One `if (…) { … }` of `tmc`: the body when the condition holds, nothing otherwise. -/
def tmc.branchIf {R : Type} [Ring R] (TPROJSCALE : Int) (E : KernelContext R)
    (c : Site) (r : Registers R) (k : Branch) : Registers R :=
  if Branch.condition E c k then tmc.branchBody TPROJSCALE E c k r else r

/-- The eight `if` statements of `tm` one after the other (`tm:263-1659`). -/
def tm.branches {R : Type} [Ring R] (TWIST_INV_DSLASH : Bool) (E : KernelContext R)
    (c : Site) (r : Registers R) : Registers R :=
  let r := tm.branchIf TWIST_INV_DSLASH E c r .forward0
  let r := tm.branchIf TWIST_INV_DSLASH E c r .backward0
  let r := tm.branchIf TWIST_INV_DSLASH E c r .forward1
  let r := tm.branchIf TWIST_INV_DSLASH E c r .backward1
  let r := tm.branchIf TWIST_INV_DSLASH E c r .forward2
  let r := tm.branchIf TWIST_INV_DSLASH E c r .backward2
  let r := tm.branchIf TWIST_INV_DSLASH E c r .forward3
  tm.branchIf TWIST_INV_DSLASH E c r .backward3

/-- The eight `if` statements of `tmc` one after the other (`tmc:659-2019`). -/
def tmc.branches {R : Type} [Ring R] (TPROJSCALE : Int) (E : KernelContext R)
    (c : Site) (r : Registers R) : Registers R :=
  let r := tmc.branchIf TPROJSCALE E c r .forward0
  let r := tmc.branchIf TPROJSCALE E c r .backward0
  let r := tmc.branchIf TPROJSCALE E c r .forward1
  let r := tmc.branchIf TPROJSCALE E c r .backward1
  let r := tmc.branchIf TPROJSCALE E c r .forward2
  let r := tmc.branchIf TPROJSCALE E c r .backward2
  let r := tmc.branchIf TPROJSCALE E c r .forward3
  tmc.branchIf TPROJSCALE E c r .backward3

/-- The body of the kernel `tm` for one thread (`tm:228-1731`): `none` when the thread
returns at `if (sid >= param.threads) return;` or at `if(!active) return;`, otherwise
the index `sid` and the spinor `o00_re` … `o32_im` that `WRITE_SPINOR(param.sp_stride)`
stores. -/
def tm.kernel {R : Type} [Ring R] (DSLASH_XPAY TWIST_XPAY TWIST_INV_DSLASH : Bool)
    (APPLY_TWIST_INV : R → R → Spinor R → Spinor R) (APPLY_TWIST : R → Spinor R → Spinor R)
    (a b : R) (E : KernelContext R) (blockIdx_x blockDim_x threadIdx_x : Nat) :
    Option (Int × Spinor R) :=
  let sid := threadIndex blockIdx_x blockDim_x threadIdx_x
  if sid ≥ E.threads then none
  else
    let c := locateSite E sid
    if !(active E c) then none
    else
      let i := E.READ_INTERMEDIATE_SPINOR c.sid
      let r := tm.branches TWIST_INV_DSLASH E c { face_idx := c.face_idx, o := i }
      let o := tm.finalStage DSLASH_XPAY TWIST_XPAY TWIST_INV_DSLASH APPLY_TWIST_INV
        APPLY_TWIST a b (E.READ_ACCUM c.sid) r.o
      some (c.sid, o)

/-- The body of the kernel `tmc` for one thread (`tmc:624-2073`): `none` when the thread
returns at `if (sid >= param.threads) return;` or at `if(!active) return;`, otherwise
the index `sid` and the spinor `o00_re` … `o32_im` that `WRITE_SPINOR(param.sp_stride)`
stores. -/
def tmc.kernel {R : Type} [Ring R]
    (DSLASH_XPAY CLOVER_TWIST_INV_DSLASH CLOVER_TWIST_XPAY DYNAMIC_CLOVER : Bool)
    (TPROJSCALE : Int)
    (APPLY_CLOVER_TWIST_INV APPLY_CLOVER_TWIST_DYN_INV APPLY_CLOVER_TWIST :
      R → Spinor R → Spinor R)
    (a b : R) (E : KernelContext R) (blockIdx_x blockDim_x threadIdx_x : Nat) :
    Option (Int × Spinor R) :=
  let sid := threadIndex blockIdx_x blockDim_x threadIdx_x
  if sid ≥ E.threads then none
  else
    let c := locateSite E sid
    if !(active E c) then none
    else
      let i := E.READ_INTERMEDIATE_SPINOR c.sid
      let r := tmc.branches TPROJSCALE E c { face_idx := c.face_idx, o := i }
      let o := tmc.finalStage DSLASH_XPAY CLOVER_TWIST_INV_DSLASH CLOVER_TWIST_XPAY
        DYNAMIC_CLOVER APPLY_CLOVER_TWIST_INV APPLY_CLOVER_TWIST_DYN_INV
        APPLY_CLOVER_TWIST a b (E.READ_ACCUM c.sid) r.o
      some (c.sid, o)

/-! ### Vocabulary of the statements on the kernel body -/

/-- The conjugate transpose `U†` of a complex 3x3 matrix, entry by entry: entry `(i, j)`
is the complex conjugate of entry `(j, i)` of `U`. -/
def conjTransposed (U : Matrix (Fin 3) (Fin 3) ℂ) : Matrix (Fin 3) (Fin 3) ℂ :=
  Matrix.of fun i j => ⟨(U j i).re, -(U j i).im⟩

/-- The product `U v` of a complex 3x3 matrix and a colour vector, written out. -/
def colourMul (U : Matrix (Fin 3) (Fin 3) ℂ) (v : Fin 3 → ℂ) : Fin 3 → ℂ :=
  fun i => U i 0 * v 0 + U i 1 * v 1 + U i 2 * v 2

/-- The product `P x` of a complex 4x4 matrix and a vector of four spin components,
written out. -/
def spinMul (P : Matrix (Fin 4) (Fin 4) ℂ) (x : Fin 4 → ℂ) : Fin 4 → ℂ :=
  fun s => P s 0 * x 0 + P s 1 * x 1 + P s 2 * x 2 + P s 3 * x 3

/-- The term of branch `k` of `tm` in the sum over the boundary: with `a`, `b` the two
colour vectors of the half spinor the branch reads and `U` the matrix of the link it
reads, in a spatial direction the projector commented in the branch applied to
`(U a, U b, 0, 0)` on the forward face and to `(U† a, U† b, 0, 0)` on the backward face
(`U†` is `conjTransposed U`);
in the temporal direction `(0, 0, κ U a, κ U b)` on the forward face and
`(κ U† a, κ U† b, 0, 0)` on the backward face, with `κ = 1` in a build with
`TWIST_INV_DSLASH` and `κ = 2` without, and the identity for `U` when `gauge_fixed &&
ga_idx < X4X3X2X1hmX3X2X1h`.  `face_idx` is the value of the variable on entry of the
branch. -/
def tm.hopTerm (TWIST_INV_DSLASH : Bool) (E : KernelContext ℝ) (c : Site) (k : Branch)
    (face_idx : Int) : Fin 4 → Fin 3 → ℂ :=
  let g := Branch.read E c k face_idx
  let U : Matrix (Fin 3) (Fin 3) ℂ := g.G.toMatrix
  let Udag : Matrix (Fin 3) (Fin 3) ℂ := conjTransposed U
  let a := g.I.upper
  let b := g.I.lower
  let fixed := E.gauge_fixed && decide (g.ga_idx < E.X4X3X2X1hmX3X2X1h)
  let κ : ℂ := if TWIST_INV_DSLASH then 1 else 2
  fun s col =>
    match k with
    | .forward0 => spinMul tm.projector0_forward
        ![colourMul U a col, colourMul U b col, 0, 0] s
    | .backward0 =>
      spinMul tm.projector0_backward
        ![colourMul Udag a col, colourMul Udag b col, 0, 0] s
    | .forward1 => spinMul tm.projector1_forward
        ![colourMul U a col, colourMul U b col, 0, 0] s
    | .backward1 =>
      spinMul tm.projector1_backward
        ![colourMul Udag a col, colourMul Udag b col, 0, 0] s
    | .forward2 => spinMul tm.projector2_forward
        ![colourMul U a col, colourMul U b col, 0, 0] s
    | .backward2 =>
      spinMul tm.projector2_backward
        ![colourMul Udag a col, colourMul Udag b col, 0, 0] s
    | .forward3 =>
      (![0, 0, κ * (if fixed then a else colourMul U a) col,
          κ * (if fixed then b else colourMul U b) col] : Fin 4 → ℂ) s
    | .backward3 =>
      (![κ * (if fixed then a else colourMul Udag a) col,
          κ * (if fixed then b else colourMul Udag b) col, 0, 0] : Fin 4 → ℂ) s

/-- The term of branch `k` of `tmc` in the sum over the boundary: as for `tm` with the
projectors commented in `tmc`, which are those of the opposite face; in the temporal
direction `(κ U a, κ U b, 0, 0)` on the forward face and `(0, 0, κ U† a, κ U† b)` on the
backward face, with `κ = TPROJSCALE`. -/
def tmc.hopTerm (TPROJSCALE : Int) (E : KernelContext ℝ) (c : Site) (k : Branch)
    (face_idx : Int) : Fin 4 → Fin 3 → ℂ :=
  let g := Branch.read E c k face_idx
  let U : Matrix (Fin 3) (Fin 3) ℂ := g.G.toMatrix
  let Udag : Matrix (Fin 3) (Fin 3) ℂ := conjTransposed U
  let a := g.I.upper
  let b := g.I.lower
  let fixed := E.gauge_fixed && decide (g.ga_idx < E.X4X3X2X1hmX3X2X1h)
  let κ : ℂ := (TPROJSCALE : ℂ)
  fun s col =>
    match k with
    | .forward0 => spinMul tmc.projector0_forward
        ![colourMul U a col, colourMul U b col, 0, 0] s
    | .backward0 =>
      spinMul tmc.projector0_backward
        ![colourMul Udag a col, colourMul Udag b col, 0, 0] s
    | .forward1 => spinMul tmc.projector1_forward
        ![colourMul U a col, colourMul U b col, 0, 0] s
    | .backward1 =>
      spinMul tmc.projector1_backward
        ![colourMul Udag a col, colourMul Udag b col, 0, 0] s
    | .forward2 => spinMul tmc.projector2_forward
        ![colourMul U a col, colourMul U b col, 0, 0] s
    | .backward2 =>
      spinMul tmc.projector2_backward
        ![colourMul Udag a col, colourMul Udag b col, 0, 0] s
    | .forward3 =>
      (![κ * (if fixed then a else colourMul U a) col,
          κ * (if fixed then b else colourMul U b) col, 0, 0] : Fin 4 → ℂ) s
    | .backward3 =>
      (![0, 0, κ * (if fixed then a else colourMul Udag a) col,
          κ * (if fixed then b else colourMul Udag b) col] : Fin 4 → ℂ) s

/-- The terms of those branches of the list whose condition holds, in the order of the
list, for `tm`; `face_idx` is the value of the variable before the first of them, and a
branch that runs passes on the value its `faceIndexFromCoords` call has set. -/
def tm.hopTerms (TWIST_INV_DSLASH : Bool) (E : KernelContext ℝ) (c : Site) :
    List Branch → Int → List (Fin 4 → Fin 3 → ℂ)
  | [], _ => []
  | k :: l, face_idx =>
    if Branch.condition E c k then
      tm.hopTerm TWIST_INV_DSLASH E c k face_idx ::
        tm.hopTerms TWIST_INV_DSLASH E c l (Branch.read E c k face_idx).face_idx
    else tm.hopTerms TWIST_INV_DSLASH E c l face_idx

/-- The terms of those branches of the list whose condition holds, in the order of the
list, for `tmc`; `face_idx` is the value of the variable before the first of them, and a
branch that runs passes on the value its `faceIndexFromCoords` call has set. -/
def tmc.hopTerms (TPROJSCALE : Int) (E : KernelContext ℝ) (c : Site) :
    List Branch → Int → List (Fin 4 → Fin 3 → ℂ)
  | [], _ => []
  | k :: l, face_idx =>
    if Branch.condition E c k then
      tmc.hopTerm TPROJSCALE E c k face_idx ::
        tmc.hopTerms TPROJSCALE E c l (Branch.read E c k face_idx).face_idx
    else tmc.hopTerms TPROJSCALE E c l face_idx

/-- A sample context on integer registers: 8 threads, every range of threads of size 4,
the coordinates of thread `sid` are `(sid, 1, 1, 1)` on a lattice with `X1m1` … `X4m1`
equal to 3, and `isActive` holds, for both offsets, in direction 0 when `x1` is 0, 1 or
3. -/
def sampleContext : KernelContext ℤ where
  threads := 8
  threadDimMapUpper := fun _ => 4
  threadDimMapLower := fun _ => 0
  ghostOffset := fun _ => 0
  ghostNormOffset := fun _ => 0
  ghostFace := fun _ => 1
  X1 := 4
  X2 := 4
  X3 := 4
  X4 := 4
  X1m1 := 3
  X2m1 := 3
  X3m1 := 3
  X4m1 := 3
  Vh := 128
  X4X3X2X1hmX3X2X1h := 96
  SPINOR_HOP := 12
  DD_PREC := 0
  gauge_fixed := false
  dimFromFaceIndex := fun sid => (0, sid)
  coordsFromFaceIndex := fun sid _ _ _ _ =>
    { X := sid, sid := sid, x1 := sid, x2 := 1, x3 := 1, x4 := 1 }
  isActive := fun _ dir _ x1 _ _ _ => decide (dir = 0) && decide (x1 = 0 ∨ x1 = 1 ∨ x1 = 3)
  faceIndexFromCoords := fun _ _ x2 _ _ _ => x2
  READ_INTERMEDIATE_SPINOR := fun sid => Spinor.const sid
  READ_HALF_SPINOR := fun _ _ _ => sampleHalfSpinorRegs
  READ_GAUGE_MATRIX := fun _ _ => sampleLink
  READ_ACCUM := fun _ => Spinor.const 100

/-- The sample context with three threads only: thread 3 is stopped by `if (sid >=
param.threads) return;`. -/
def paddedContext : KernelContext ℤ :=
  { sampleContext with threads := 3 }

/-- The sample context on real registers: the fields of `sampleContext`, every register
that is read holding the same integer as there. -/
def sampleRealContext : KernelContext ℝ where
  threads := 8
  threadDimMapUpper := fun _ => 4
  threadDimMapLower := fun _ => 0
  ghostOffset := fun _ => 0
  ghostNormOffset := fun _ => 0
  ghostFace := fun _ => 1
  X1 := 4
  X2 := 4
  X3 := 4
  X4 := 4
  X1m1 := 3
  X2m1 := 3
  X3m1 := 3
  X4m1 := 3
  Vh := 128
  X4X3X2X1hmX3X2X1h := 96
  SPINOR_HOP := 12
  DD_PREC := 0
  gauge_fixed := false
  dimFromFaceIndex := fun sid => (0, sid)
  coordsFromFaceIndex := fun sid _ _ _ _ =>
    { X := sid, sid := sid, x1 := sid, x2 := 1, x3 := 1, x4 := 1 }
  isActive := fun _ dir _ x1 _ _ _ => decide (dir = 0) && decide (x1 = 0 ∨ x1 = 1 ∨ x1 = 3)
  faceIndexFromCoords := fun _ _ x2 _ _ _ => x2
  READ_INTERMEDIATE_SPINOR := fun sid => Spinor.const (sid : ℝ)
  READ_HALF_SPINOR := fun _ _ _ =>
    { i00_re := 1, i00_im := 0, i01_re := 0, i01_im := 0, i02_re := 0, i02_im := 0,
      i10_re := 0, i10_im := 0, i11_re := 0, i11_im := 0, i12_re := 0, i12_im := 0 }
  READ_GAUGE_MATRIX := fun _ _ =>
    { g00_re := 2, g00_im := 1, g01_re := 0, g01_im := 3, g02_re := 1, g02_im := 0,
      g10_re := 0, g10_im := 0, g11_re := 1, g11_im := 2, g12_re := 4, g12_im := 0,
      g20_re := 1, g20_im := 1, g21_re := 0, g21_im := 0, g22_re := 3, g22_im := 5 }
  READ_ACCUM := fun _ => Spinor.const 100

/-! ### Shared lemmas -/

theorem Outcome.onReturn_eta {V α : Type} (r : Outcome (World V) α) :
    Outcome.onReturn (fun w' : World V => { dirac := w'.dirac, out := w'.out }) r = r := by
  cases r <;> rfl

theorem DiracMatrix.operator_eq {R V : Type} [Zero R] [DecidableEq R]
    (axpy : R → V → V → V) (ops : DiracOps V) (f : DiracMatrix R) (inp : V)
    (t : Temporaries) (w : World V) :
    DiracMatrix.operator axpy ops f inp t w =
      (f.wrapped ops inp { w with dirac := t.install w.dirac }).onReturn
        (fun w' => { dirac := t.clear w'.dirac, out := f.accumulate axpy inp w'.out }) := by
  cases f <;> cases t <;>
    simp only [DiracMatrix.operator, DiracM.operator, DiracM.operator_tmp,
      DiracM.operator_Tmp1_Tmp2, DiracMdagM.operator, DiracMdagM.operator_tmp,
      DiracMdagM.operator_Tmp1_Tmp2, DiracMMdag.operator, DiracMMdag.operator_tmp,
      DiracMMdag.operator_Tmp1_Tmp2, DiracMdag.operator, DiracMdag.operator_tmp,
      DiracMdag.operator_Tmp1_Tmp2, DiracMatrix.wrapped, Temporaries.install,
      Temporaries.clear, DiracMatrix.accumulate, bind, Call.bind, setTmp1, setTmp2,
      Outcome.onReturn_eta] <;>
    first
    | rfl
    | ((split <;> try split_ifs) <;>
        simp_all [Outcome.onReturn, axpyOut, pure, Call.bind, setTmp1, setTmp2])

/-! ### Shift of `DiracMdagM` -/

/-- C1: for every shift `s` (zero or not, over any ring of scalars, the reals among
them), every input `v` and each of the three overloads (selected by `t`), when the
wrapped `MdagM` returns with `out = MdagM(v)`, the functor `DiracMdagM` with
`shift = s` returns with `out = MdagM(v) + s·v`. -/
theorem DiracMdagM_shift_correct {R V : Type} [Ring R] [DecidableEq R] [AddCommGroup V]
    [Module R V] (ops : DiracOps V) (s : R) (v : V) (t : Temporaries) (w w' : World V)
    (h : ops.MdagM v { w with dirac := t.install w.dirac } = .returned () w') :
    ∃ w'' : World V,
      DiracMatrix.operator blas.axpy ops (.DiracMdagM s) v t w = .returned () w'' ∧
      w''.out = w'.out + s • v := by
  refine ⟨{ dirac := t.clear w'.dirac,
            out := (DiracMatrix.DiracMdagM s).accumulate blas.axpy v w'.out }, ?_, ?_⟩
  · rw [DiracMatrix.operator_eq]
    simp only [DiracMatrix.wrapped]
    rw [h]
    rfl
  · by_cases hs : s = 0
    · simp [DiracMatrix.accumulate, hs]
    · simp [DiracMatrix.accumulate, hs, blas.axpy, add_comm]

theorem DiracMdagM_shift_correct_witness :
    sampleOps.MdagM 5 { dirac := (Temporaries.one 21).install sampleDirac, out := 0 }
        = .returned ()
            { dirac := { sampleDirac with flops := 9, tmp1 := some 21 }, out := 45 } ∧
    ∃ w'' : World ℤ,
      DiracMatrix.operator blas.axpy sampleOps (.DiracMdagM (-2 : ℤ)) 5 (.one 21)
          { dirac := sampleDirac, out := 0 } = .returned () w'' ∧
      w''.out = 45 + (-2 : ℤ) • (5 : ℤ) :=
  ⟨rfl, DiracMdagM_shift_correct sampleOps (-2 : ℤ) 5 (.one 21)
      { dirac := sampleDirac, out := 0 }
      { dirac := { sampleDirac with flops := 9, tmp1 := some 21 }, out := 45 } rfl⟩

/-! ### The scratch slots after a call -/

/-- C2, as stated, fails: the zero-temporary overload of `DiracM` returns normally with
both slots still holding what they held before, and the one-temporary overload returns
with `tmp2` still occupied. -/
theorem slots_null_on_return_counterexample :
    (∃ w'' : World ℤ,
      DiracMatrix.operator (blas.axpy : ℤ → ℤ → ℤ → ℤ) sampleOps .DiracM 5 .zero
          { dirac := sampleDirac, out := 0 } = .returned () w'' ∧
      w''.dirac.tmp1 = some 11 ∧ w''.dirac.tmp2 = some 12) ∧
    (∃ w'' : World ℤ,
      DiracMatrix.operator (blas.axpy : ℤ → ℤ → ℤ → ℤ) sampleOps .DiracM 5 (.one 21)
          { dirac := sampleDirac, out := 0 } = .returned () w'' ∧
      w''.dirac.tmp1 = none ∧ w''.dirac.tmp2 = some 12) :=
  ⟨⟨_, rfl, rfl, rfl⟩, ⟨_, rfl, rfl, rfl⟩⟩

/-- C2, amended: when a functor call returns normally, the wrapped member has returned
from the state with the scratch fields installed, and relative to the state `w'` it
left: the two-temporary overload has set both slots to null, the one-temporary
overload has set `tmp1` to null and not written `tmp2`, the zero-temporary overload has
written neither slot. -/
theorem slots_after_normal_return {R V : Type} [Zero R] [DecidableEq R]
    (axpy : R → V → V → V) (ops : DiracOps V) (f : DiracMatrix R) (inp : V)
    (t : Temporaries) (w w'' : World V)
    (h : DiracMatrix.operator axpy ops f inp t w = .returned () w'') :
    ∃ w' : World V,
      f.wrapped ops inp { w with dirac := t.install w.dirac } = .returned () w' ∧
      (∀ Tmp1 Tmp2, t = .two Tmp1 Tmp2 → w''.dirac.tmp1 = none ∧ w''.dirac.tmp2 = none) ∧
      (∀ tmp, t = .one tmp → w''.dirac.tmp1 = none ∧ w''.dirac.tmp2 = w'.dirac.tmp2) ∧
      (t = .zero → w''.dirac.tmp1 = w'.dirac.tmp1 ∧ w''.dirac.tmp2 = w'.dirac.tmp2) := by
  rw [DiracMatrix.operator_eq] at h
  cases hw : f.wrapped ops inp { w with dirac := t.install w.dirac } with
  | thrown e w' => rw [hw] at h; cases h
  | returned a w' =>
    rw [hw] at h
    simp only [Outcome.onReturn, Outcome.returned.injEq, true_and] at h
    subst h
    refine ⟨w', rfl, ?_, ?_, ?_⟩
    · rintro _ _ rfl; exact ⟨rfl, rfl⟩
    · rintro _ rfl; exact ⟨rfl, rfl⟩
    · rintro rfl; exact ⟨rfl, rfl⟩

theorem slots_after_normal_return_witness :
    DiracMatrix.operator (blas.axpy : ℤ → ℤ → ℤ → ℤ) sampleOps (.DiracMMdag 4) 5 (.two 21 22)
        { dirac := sampleDirac, out := 0 }
      = .returned () { dirac := { sampleDirac with flops := 9, tmp1 := none, tmp2 := none },
                       out := 65 } ∧
    ∃ w' : World ℤ,
      sampleOps.MMdag 5 { dirac := { sampleDirac with tmp1 := some 21, tmp2 := some 22 },
                          out := 0 } = .returned () w' :=
  ⟨rfl,
   Exists.imp (fun _ hw' => hw'.1)
    (slots_after_normal_return (blas.axpy : ℤ → ℤ → ℤ → ℤ) sampleOps (.DiracMMdag 4) 5
      (.two 21 22) { dirac := sampleDirac, out := 0 }
      { dirac := { sampleDirac with flops := 9, tmp1 := none, tmp2 := none }, out := 65 }
      (by rfl))⟩

/-! ### The scratch slots on the failure path -/

/-- C3, as stated, fails: when `M` fails during a one-temporary call of `DiracM`, or
`MdagM` during a two-temporary call of `DiracMdagM`, on an operator whose slots were
null, the failure reaches the caller with the scratch fields still in the slots. -/
theorem slots_on_failure_counterexample :
    DiracMatrix.operator (blas.axpy : ℤ → ℤ → ℤ → ℤ) failingOps .DiracM 5 (.one 21)
        { dirac := { sampleDirac with tmp1 := none, tmp2 := none }, out := 0 }
      = .thrown "M failed"
          { dirac := { sampleDirac with tmp1 := some 21, tmp2 := none }, out := 0 } ∧
    DiracMatrix.operator (blas.axpy : ℤ → ℤ → ℤ → ℤ) failingOps (.DiracMdagM 4) 5 (.two 21 22)
        { dirac := { sampleDirac with tmp1 := none, tmp2 := none }, out := 0 }
      = .thrown "MdagM failed"
          { dirac := { sampleDirac with tmp1 := some 21, tmp2 := some 22 }, out := 0 } :=
  ⟨rfl, rfl⟩

/-- C3, amended: when the wrapped member fails during a functor call, the same failure
reaches the caller with the operator exactly as the wrapped member left it; no slot is
set to null on that path, so a slot the wrapped member has not written still holds the
caller's scratch field (`tmp1` in the one-temporary overload, `tmp1` and `tmp2` in the
two-temporary overload). -/
theorem slots_on_failure {R V : Type} [Zero R] [DecidableEq R]
    (axpy : R → V → V → V) (ops : DiracOps V) (f : DiracMatrix R) (inp : V)
    (t : Temporaries) (w w' : World V) (e : String)
    (h : f.wrapped ops inp { w with dirac := t.install w.dirac } = .thrown e w') :
    DiracMatrix.operator axpy ops f inp t w = .thrown e w' ∧
    (∀ tmp, t = .one tmp → w'.dirac.tmp1 = (t.install w.dirac).tmp1 →
      w'.dirac.tmp1 = some tmp) ∧
    (∀ Tmp1 Tmp2, t = .two Tmp1 Tmp2 →
      (w'.dirac.tmp1 = (t.install w.dirac).tmp1 → w'.dirac.tmp1 = some Tmp1) ∧
      (w'.dirac.tmp2 = (t.install w.dirac).tmp2 → w'.dirac.tmp2 = some Tmp2)) := by
  refine ⟨?_, ?_, ?_⟩
  · rw [DiracMatrix.operator_eq, h]
    rfl
  · rintro tmp rfl h1
    rw [h1]
    rfl
  · rintro Tmp1 Tmp2 rfl
    exact ⟨fun h1 => by rw [h1]; rfl, fun h2 => by rw [h2]; rfl⟩

theorem slots_on_failure_witness :
    (DiracMatrix.DiracMdag : DiracMatrix ℤ).wrapped failingOps 5
        { dirac := (Temporaries.one 21).install sampleDirac, out := 0 }
      = .thrown "Mdag failed" { dirac := { sampleDirac with tmp1 := some 21 }, out := 0 } ∧
    DiracMatrix.operator (blas.axpy : ℤ → ℤ → ℤ → ℤ) failingOps .DiracMdag 5 (.one 21)
        { dirac := sampleDirac, out := 0 }
      = .thrown "Mdag failed" { dirac := { sampleDirac with tmp1 := some 21 }, out := 0 } :=
  ⟨rfl, (slots_on_failure (blas.axpy : ℤ → ℤ → ℤ → ℤ) failingOps .DiracMdag 5 (.one 21)
      { dirac := sampleDirac, out := 0 }
      { dirac := { sampleDirac with tmp1 := some 21 }, out := 0 } "Mdag failed" rfl).1⟩

/-! ### The flop counter -/

/-- C4: `Flops()` returns the value `n` of the counter, sets the counter to 0 and
leaves every other member as it was, so a second `Flops()` right after it returns 0;
`DiracMatrix::flops()` does the same on the wrapped operator. -/
theorem Flops_read_and_reset (d : Dirac) (n : Nat) (hn : d.flops = n) :
    (Dirac.Flops d).1 = n ∧
    (Dirac.Flops d).2 = { d with flops := 0 } ∧
    (Dirac.Flops (Dirac.Flops d).2).1 = 0 ∧
    (DiracMatrix.flops d).1 = n ∧
    (DiracMatrix.flops d).2 = { d with flops := 0 } ∧
    (DiracMatrix.flops (DiracMatrix.flops d).2).1 = 0 := by
  subst hn
  exact ⟨rfl, rfl, rfl, rfl, rfl, rfl⟩

theorem Flops_read_and_reset_witness :
    sampleDirac.flops = 7 ∧
    (Dirac.Flops sampleDirac).1 = 7 ∧
    (Dirac.Flops (Dirac.Flops sampleDirac).2).1 = 0 ∧
    (DiracMatrix.flops sampleDirac).1 = 7 ∧
    (DiracMatrix.flops (DiracMatrix.flops sampleDirac).2).1 = 0 :=
  have h := Flops_read_and_reset sampleDirac 7 rfl
  ⟨rfl, h.1, h.2.2.1, h.2.2.2.1, h.2.2.2.2.2⟩

/-! ### The state in which the wrapped member runs -/

/-- C5: in the one-temporary overload of each functor the wrapped member is called on
the operator with `tmp1` holding the caller's scratch field `tmp` (and nothing else
changed); in the two-temporary overload it is called with `tmp1` holding `Tmp1` and
`tmp2` holding `Tmp2`; what the call then yields is the outcome of that member, with
the accumulate and the clearing of the filled slots applied on normal return. -/
theorem wrapped_runs_with_scratch_installed {R V : Type} [Zero R] [DecidableEq R]
    (axpy : R → V → V → V) (ops : DiracOps V) (s : R) (inp : V)
    (tmp Tmp1 Tmp2 : FieldPtr) (w : World V) :
    (DiracM.operator_tmp ops inp tmp w =
      (ops.M inp { w with dirac := { w.dirac with tmp1 := some tmp } }).onReturn
        (fun w' => { w' with dirac := { w'.dirac with tmp1 := none } })) ∧
    (DiracM.operator_Tmp1_Tmp2 ops inp Tmp1 Tmp2 w =
      (ops.M inp
        { w with dirac := { w.dirac with tmp1 := some Tmp1, tmp2 := some Tmp2 } }).onReturn
        (fun w' => { w' with dirac := { w'.dirac with tmp1 := none, tmp2 := none } })) ∧
    (DiracMdag.operator_tmp ops inp tmp w =
      (ops.Mdag inp { w with dirac := { w.dirac with tmp1 := some tmp } }).onReturn
        (fun w' => { w' with dirac := { w'.dirac with tmp1 := none } })) ∧
    (DiracMdag.operator_Tmp1_Tmp2 ops inp Tmp1 Tmp2 w =
      (ops.Mdag inp
        { w with dirac := { w.dirac with tmp1 := some Tmp1, tmp2 := some Tmp2 } }).onReturn
        (fun w' => { w' with dirac := { w'.dirac with tmp1 := none, tmp2 := none } })) ∧
    (DiracMdagM.operator_tmp axpy ops s inp tmp w =
      (ops.MdagM inp { w with dirac := { w.dirac with tmp1 := some tmp } }).onReturn
        (fun w' => { dirac := { w'.dirac with tmp1 := none },
                     out := if s ≠ 0 then axpy s inp w'.out else w'.out })) ∧
    (DiracMdagM.operator_Tmp1_Tmp2 axpy ops s inp Tmp1 Tmp2 w =
      (ops.MdagM inp
        { w with dirac := { w.dirac with tmp1 := some Tmp1, tmp2 := some Tmp2 } }).onReturn
        (fun w' => { dirac := { w'.dirac with tmp1 := none, tmp2 := none },
                     out := if s ≠ 0 then axpy s inp w'.out else w'.out })) ∧
    (DiracMMdag.operator_tmp axpy ops s inp tmp w =
      (ops.MMdag inp { w with dirac := { w.dirac with tmp1 := some tmp } }).onReturn
        (fun w' => { dirac := { w'.dirac with tmp1 := none },
                     out := if s ≠ 0 then axpy s inp w'.out else w'.out })) ∧
    (DiracMMdag.operator_Tmp1_Tmp2 axpy ops s inp Tmp1 Tmp2 w =
      (ops.MMdag inp
        { w with dirac := { w.dirac with tmp1 := some Tmp1, tmp2 := some Tmp2 } }).onReturn
        (fun w' => { dirac := { w'.dirac with tmp1 := none, tmp2 := none },
                     out := if s ≠ 0 then axpy s inp w'.out else w'.out })) :=
  ⟨DiracMatrix.operator_eq axpy ops .DiracM inp (.one tmp) w,
   DiracMatrix.operator_eq axpy ops .DiracM inp (.two Tmp1 Tmp2) w,
   DiracMatrix.operator_eq axpy ops .DiracMdag inp (.one tmp) w,
   DiracMatrix.operator_eq axpy ops .DiracMdag inp (.two Tmp1 Tmp2) w,
   DiracMatrix.operator_eq axpy ops (.DiracMdagM s) inp (.one tmp) w,
   DiracMatrix.operator_eq axpy ops (.DiracMdagM s) inp (.two Tmp1 Tmp2) w,
   DiracMatrix.operator_eq axpy ops (.DiracMMdag s) inp (.one tmp) w,
   DiracMatrix.operator_eq axpy ops (.DiracMMdag s) inp (.two Tmp1 Tmp2) w⟩

/-! ### The three overloads apply the same member -/

theorem sampleOps_slotIndependent : sampleOps.SlotIndependent := by
  intro op hop inp w t1 t2
  simp only [List.mem_cons, List.mem_singleton, List.not_mem_nil, or_false] at hop
  rcases hop with rfl | rfl | rfl | rfl <;> rfl

/-- C6: in each of the three overloads `DiracM` calls `M`, `DiracMdag` calls `Mdag`,
`DiracMdagM` calls `MdagM` and `DiracMMdag` calls `MMdag`: the field written is the one
that member writes from the state with the scratch fields installed (followed by the
accumulate for the two functors with a `shift`); hence, when the output of the members
does not depend on the scratch slots, every overload of a functor writes the same
output as its zero-temporary overload. -/
theorem overloads_apply_same_operation {R V : Type} [Zero R] [DecidableEq R]
    (axpy : R → V → V → V) (ops : DiracOps V) (s : R) (inp : V) (w : World V) :
    (∀ t : Temporaries,
      (DiracMatrix.operator axpy ops .DiracM inp t w).written
        = (ops.M inp { w with dirac := t.install w.dirac }).written) ∧
    (∀ t : Temporaries,
      (DiracMatrix.operator axpy ops .DiracMdag inp t w).written
        = (ops.Mdag inp { w with dirac := t.install w.dirac }).written) ∧
    (∀ t : Temporaries,
      (DiracMatrix.operator axpy ops (.DiracMdagM s) inp t w).written
        = (ops.MdagM inp { w with dirac := t.install w.dirac }).written.map
            (fun o => if s ≠ 0 then axpy s inp o else o)) ∧
    (∀ t : Temporaries,
      (DiracMatrix.operator axpy ops (.DiracMMdag s) inp t w).written
        = (ops.MMdag inp { w with dirac := t.install w.dirac }).written.map
            (fun o => if s ≠ 0 then axpy s inp o else o)) ∧
    (ops.SlotIndependent → ∀ (f : DiracMatrix R) (t : Temporaries),
      (DiracMatrix.operator axpy ops f inp t w).written
        = (DiracMatrix.operator axpy ops f inp .zero w).written) := by
  have key : ∀ (f : DiracMatrix R) (t : Temporaries),
      (DiracMatrix.operator axpy ops f inp t w).written
        = (f.wrapped ops inp { w with dirac := t.install w.dirac }).written.map
            (f.accumulate axpy inp) := by
    intro f t
    rw [DiracMatrix.operator_eq]
    cases f.wrapped ops inp { w with dirac := t.install w.dirac } <;> rfl
  refine ⟨fun t => ?_, fun t => ?_, fun t => ?_, fun t => ?_, fun hind f t => ?_⟩
  · rw [key]
    show Option.map (fun o => o) _ = _
    exact Option.map_id'
  · rw [key]
    show Option.map (fun o => o) _ = _
    exact Option.map_id'
  · rw [key]
    rfl
  · rw [key]
    rfl
  · rw [key f t, key f .zero]
    congr 1
    have hmem : f.wrapped ops ∈ [ops.M, ops.MdagM, ops.MMdag, ops.Mdag] := by
      cases f <;> simp [DiracMatrix.wrapped]
    cases t with
    | zero => rfl
    | one tmp => exact hind _ hmem inp w (some tmp) w.dirac.tmp2
    | two Tmp1 Tmp2 => exact hind _ hmem inp w (some Tmp1) (some Tmp2)

theorem overloads_apply_same_operation_witness :
    sampleOps.SlotIndependent ∧
    (DiracMatrix.operator (blas.axpy : ℤ → ℤ → ℤ → ℤ) sampleOps (.DiracMdagM 4) 5 (.two 21 22)
        { dirac := sampleDirac, out := 0 }).written
      = (DiracMatrix.operator (blas.axpy : ℤ → ℤ → ℤ → ℤ) sampleOps (.DiracMdagM 4) 5 .zero
        { dirac := sampleDirac, out := 0 }).written :=
  ⟨sampleOps_slotIndependent,
   (overloads_apply_same_operation (blas.axpy : ℤ → ℤ → ℤ → ℤ) sampleOps 4 5
      { dirac := sampleDirac, out := 0 }).2.2.2.2 sampleOps_slotIndependent
      (.DiracMdagM 4) (.two 21 22)⟩

/-! ### Shift of `DiracMMdag` -/

/-- C7: for every input and each of the three overloads, when the wrapped `MMdag`
returns with `out = MMdag(in)`, the functor `DiracMMdag` returns with
`out = MMdag(in) + shift·in` if `shift` is not zero; if `shift` is zero, which is its
value right after construction of a `DiracMdagM` or a `DiracMMdag`, it returns with
exactly the output of `MMdag`, whatever the accumulate routine would compute: the
accumulate is not called. -/
theorem DiracMMdag_shift {R V : Type} [Ring R] [DecidableEq R] [AddCommGroup V]
    [Module R V] (ops : DiracOps V) (s : R) (inp : V) (t : Temporaries) (w w' : World V)
    (h : ops.MMdag inp { w with dirac := t.install w.dirac } = .returned () w') :
    (s ≠ 0 →
      (DiracMatrix.operator blas.axpy ops (.DiracMMdag s) inp t w).written
        = some (w'.out + s • inp)) ∧
    (∀ axpy : R → V → V → V,
      DiracMatrix.operator axpy ops (.DiracMMdag 0) inp t w
        = .returned () { dirac := t.clear w'.dirac, out := w'.out }) ∧
    (DiracMMdag.DiracMMdag : DiracMatrix R) = .DiracMMdag 0 ∧
    (DiracMdagM.DiracMdagM : DiracMatrix R) = .DiracMdagM 0 := by
  refine ⟨fun hs => ?_, fun axpy => ?_, rfl, rfl⟩
  · rw [DiracMatrix.operator_eq]
    simp only [DiracMatrix.wrapped]
    rw [h]
    simp [Outcome.onReturn, Outcome.written, DiracMatrix.accumulate, hs, blas.axpy, add_comm]
  · rw [DiracMatrix.operator_eq]
    simp only [DiracMatrix.wrapped]
    rw [h]
    simp [Outcome.onReturn, DiracMatrix.accumulate]

theorem DiracMMdag_shift_witness :
    sampleOps.MMdag 5 { dirac := (Temporaries.one 21).install sampleDirac, out := 0 }
        = .returned ()
            { dirac := { sampleDirac with flops := 9, tmp1 := some 21 }, out := 45 } ∧
    (DiracMatrix.operator blas.axpy sampleOps (.DiracMMdag (3 : ℤ)) 5 (.one 21)
        { dirac := sampleDirac, out := 0 }).written = some (45 + (3 : ℤ) • (5 : ℤ)) :=
  ⟨rfl, (DiracMMdag_shift sampleOps (3 : ℤ) 5 (.one 21) { dirac := sampleDirac, out := 0 }
      { dirac := { sampleDirac with flops := 9, tmp1 := some 21 }, out := 45 } rfl).1
      (by decide)⟩

/-! ### `isStaggered` -/

theorem itaniumName_injective : Function.Injective itaniumName := by
  intro a b h
  cases a <;> cases b <;> first | rfl | (exact absurd h (by decide))

/-- C8: when distinct classes have distinct `typeid` names, `isStaggered()` answers
true exactly when the wrapped operator is a `DiracStaggered`, `DiracStaggeredPC`,
`DiracImprovedStaggered` or `DiracImprovedStaggeredPC`, and false for each of the
Wilson, clover, domain-wall, Mobius, twisted-mass and twisted-clover classes; the
operator is left as it was. -/
theorem isStaggered_iff (typeidName : DiracClass → String)
    (hinj : Function.Injective typeidName) (d : Dirac) :
    ((DiracMatrix.isStaggered typeidName d).1 = true ↔
      d.cls = .DiracStaggered ∨ d.cls = .DiracStaggeredPC ∨
      d.cls = .DiracImprovedStaggered ∨ d.cls = .DiracImprovedStaggeredPC) ∧
    (d.cls ∈ [DiracClass.DiracWilson, .DiracWilsonPC, .DiracClover, .DiracCloverPC,
        .DiracDomainWall, .DiracDomainWallPC, .DiracDomainWall4DPC,
        .DiracMobiusDomainWallPC, .DiracTwistedMass, .DiracTwistedMassPC,
        .DiracTwistedClover, .DiracTwistedCloverPC] →
      (DiracMatrix.isStaggered typeidName d).1 = false) ∧
    (DiracMatrix.isStaggered typeidName d).2 = d := by
  have key : (DiracMatrix.isStaggered typeidName d).1 = true ↔
      d.cls = .DiracStaggered ∨ d.cls = .DiracStaggeredPC ∨
      d.cls = .DiracImprovedStaggered ∨ d.cls = .DiracImprovedStaggeredPC := by
    simp only [DiracMatrix.isStaggered, DiracMatrix.TypeName, Bool.or_eq_true, beq_iff_eq,
      hinj.eq_iff, Bool.if_true_left, Bool.or_false, Bool.decide_eq_true, ite_eq_left_iff,
      decide_eq_true_eq]
    tauto
  refine ⟨key, fun hmem => ?_, rfl⟩
  rw [← Bool.not_eq_true, key]
  revert hmem
  generalize d.cls = c
  cases c <;> simp

theorem isStaggered_iff_witness :
    Function.Injective itaniumName ∧
    (DiracMatrix.isStaggered itaniumName { sampleDirac with cls := .DiracStaggeredPC }).1
      = true ∧
    (DiracMatrix.isStaggered itaniumName sampleDirac).1 = false :=
  ⟨itaniumName_injective,
   (isStaggered_iff itaniumName itaniumName_injective
      { sampleDirac with cls := .DiracStaggeredPC }).1.2 (Or.inr (Or.inl rfl)),
   (isStaggered_iff itaniumName itaniumName_injective sampleDirac).2.1 (by decide)⟩

/-! ### `createCoarseOp` -/

/-- C9, as stated, fails: `DiracTwistedMass` and `DiracDomainWall` have no
`createCoarseOp` of their own, yet a call on them does not fail with "Not implemented":
they derive from `DiracWilson`, whose definition runs (here one that returns
normally). -/
theorem createCoarseOp_not_implemented_counterexample :
    Dirac.virtual_createCoarseOp sampleCoarseOpBodies
        { sampleDirac with cls := .DiracTwistedMass } () (0, 0) = .returned () (1, 2) ∧
    Dirac.virtual_createCoarseOp sampleCoarseOpBodies
        { sampleDirac with cls := .DiracDomainWall } () (0, 0) = .returned () (1, 2) ∧
    DiracClass.declaresCreateCoarseOp .DiracTwistedMass = false ∧
    DiracClass.declaresCreateCoarseOp .DiracDomainWall = false :=
  ⟨rfl, rfl, rfl, rfl⟩

/-- C9, amended: `createCoarseOp` fails with "Not implemented", writing nothing, on the
staggered and improved-staggered classes and their preconditioned forms, which derive
from `Dirac` directly; on the domain-wall, Mobius, twisted-mass and twisted-clover
classes, as on `DiracWilson` and `DiracWilsonPC`, the definition of `DiracWilson` runs,
and on `DiracClover` and `DiracCloverPC` that of `DiracClover`; only `DiracWilson` and
`DiracClover` declare a replacement of the failing default of `Dirac`. -/
theorem createCoarseOp_dispatch {T G : Type} (bodies : CoarseOpBodies T G) (d : Dirac)
    (transfer : T) (YX : G × G) :
    (d.cls ∈ [DiracClass.DiracStaggered, .DiracStaggeredPC, .DiracImprovedStaggered,
        .DiracImprovedStaggeredPC] →
      Dirac.virtual_createCoarseOp bodies d transfer YX = .thrown "Not implemented" YX) ∧
    (d.cls ∈ [DiracClass.DiracWilson, .DiracWilsonPC, .DiracDomainWall, .DiracDomainWallPC,
        .DiracDomainWall4DPC, .DiracMobiusDomainWallPC, .DiracTwistedMass,
        .DiracTwistedMassPC, .DiracTwistedClover, .DiracTwistedCloverPC] →
      Dirac.virtual_createCoarseOp bodies d transfer YX
        = bodies.DiracWilson d transfer YX) ∧
    (d.cls ∈ [DiracClass.DiracClover, .DiracCloverPC] →
      Dirac.virtual_createCoarseOp bodies d transfer YX
        = bodies.DiracClover d transfer YX) ∧
    (∀ c : DiracClass, c.declaresCreateCoarseOp = true ↔
      c = .Dirac ∨ c = .DiracWilson ∨ c = .DiracClover) := by
  obtain ⟨c, dg, fl, t1, t2⟩ := d
  refine ⟨fun h => ?_, fun h => ?_, fun h => ?_, fun c' => ?_⟩
  · cases c <;> first | rfl | (simp at h)
  · cases c <;> first | rfl | (simp at h)
  · cases c <;> first | rfl | (simp at h)
  · cases c' <;> decide

theorem createCoarseOp_dispatch_witness :
    Dirac.virtual_createCoarseOp sampleCoarseOpBodies
        { sampleDirac with cls := .DiracStaggeredPC } () (0, 0)
      = .thrown "Not implemented" (0, 0) ∧
    Dirac.virtual_createCoarseOp sampleCoarseOpBodies
        { sampleDirac with cls := .DiracCloverPC } () (0, 0) = .returned () (3, 4) :=
  ⟨(createCoarseOp_dispatch sampleCoarseOpBodies
      { sampleDirac with cls := .DiracStaggeredPC } () (0, 0)).1 (by decide),
   (createCoarseOp_dispatch sampleCoarseOpBodies
      { sampleDirac with cls := .DiracCloverPC } () (0, 0)).2.2.1 (by decide)⟩

/-! ### The dagger flag -/

/-- C10, as stated, fails: the flag of a default-constructed `DiracParam` is
`QUDA_DAG_INVALID`, which is neither `QUDA_DAG_NO` nor `QUDA_DAG_YES`, and so is the
flag of an operator after `Dagger(QUDA_DAG_INVALID)`. -/
theorem dagger_two_valued_counterexample :
    (DiracParam.DiracParam.dagger ≠ .QUDA_DAG_NO ∧
      DiracParam.DiracParam.dagger ≠ .QUDA_DAG_YES) ∧
    ((Dirac.Dagger sampleDirac .QUDA_DAG_INVALID).dagger ≠ .QUDA_DAG_NO ∧
      (Dirac.Dagger sampleDirac .QUDA_DAG_INVALID).dagger ≠ .QUDA_DAG_YES) := by
  decide

/-- C10, amended: the dagger flag holds one of the three values `QUDA_DAG_NO`,
`QUDA_DAG_YES`, `QUDA_DAG_INVALID`; a default-constructed `DiracParam` holds
`QUDA_DAG_INVALID`; `Dagger(set)` stores `set` and changes no other member, so after
it the flag is `QUDA_DAG_NO` or `QUDA_DAG_YES` exactly when `set` is. -/
theorem dagger_flag_values (d : Dirac) (set : QudaDagType) :
    (d.dagger = .QUDA_DAG_NO ∨ d.dagger = .QUDA_DAG_YES ∨ d.dagger = .QUDA_DAG_INVALID) ∧
    DiracParam.DiracParam.dagger = .QUDA_DAG_INVALID ∧
    Dirac.Dagger d set = { d with dagger := set } ∧
    (Dirac.Dagger d set).dagger = set ∧
    ((Dirac.Dagger d set).dagger = .QUDA_DAG_NO ∨ (Dirac.Dagger d set).dagger = .QUDA_DAG_YES
      ↔ set = .QUDA_DAG_NO ∨ set = .QUDA_DAG_YES) := by
  refine ⟨?_, rfl, rfl, rfl, Iff.rfl⟩
  cases d.dagger <;> simp

/-! ### The dagger flag across `Mdag` and `MMdag` -/

/-- C11: `Mdag` and `MMdag` end with the dagger flag it had before the call, both when
the member they invoke returns and when it fails (they return exactly when it returns,
having run it with the flag toggled), and so do the three overloads of the functors
`DiracMdag` and `DiracMMdag` that call them. -/
theorem Mdag_MMdag_restore_dagger {R V : Type} [Zero R] [DecidableEq R]
    (axpy : R → V → V → V) (M MdagM inner : V → Call (World V) Unit) (s : R) (inp : V)
    (t : Temporaries) (w : World V) :
    (Dirac.Mdag M inp w).state.dirac.dagger = w.dirac.dagger ∧
    (Dirac.MMdag inner inp w).state.dirac.dagger = w.dirac.dagger ∧
    (∀ w', M inp { w with dirac := { w.dirac with dagger := w.dirac.dagger.toggle } }
        = .returned () w' →
      Dirac.Mdag M inp w
        = .returned () { w' with dirac := { w'.dirac with dagger := w.dirac.dagger } }) ∧
    (∀ e w', M inp { w with dirac := { w.dirac with dagger := w.dirac.dagger.toggle } }
        = .thrown e w' →
      Dirac.Mdag M inp w
        = .thrown e { w' with dirac := { w'.dirac with dagger := w.dirac.dagger } }) ∧
    (DiracMatrix.operator axpy (DiracOps.ofVirtual M MdagM inner) .DiracMdag inp t
        w).state.dirac.dagger = w.dirac.dagger ∧
    (DiracMatrix.operator axpy (DiracOps.ofVirtual M MdagM inner) (.DiracMMdag s) inp t
        w).state.dirac.dagger = w.dirac.dagger := by
  have hMdag : ∀ (N : V → Call (World V) Unit) (w0 : World V),
      (Dirac.Mdag N inp w0).state.dirac.dagger = w0.dirac.dagger := by
    intro N w0
    simp only [Dirac.Mdag]
    split <;> rfl
  have hMMdag : ∀ (N : V → Call (World V) Unit) (w0 : World V),
      (Dirac.MMdag N inp w0).state.dirac.dagger = w0.dirac.dagger := by
    intro N w0
    simp only [Dirac.MMdag]
    split <;> rfl
  refine ⟨hMdag M w, hMMdag inner w, ?_, ?_, ?_, ?_⟩
  · intro w' h
    simp only [Dirac.Mdag, h]
  · intro e w' h
    simp only [Dirac.Mdag, h]
  · rw [DiracMatrix.operator_eq]
    have h := hMdag M { w with dirac := t.install w.dirac }
    simp only [DiracMatrix.wrapped, DiracOps.ofVirtual]
    cases hr : Dirac.Mdag M inp { w with dirac := t.install w.dirac } <;>
      rw [hr] at h <;> cases t <;>
      simpa [Outcome.onReturn, Outcome.state, Temporaries.clear, Temporaries.install] using h
  · rw [DiracMatrix.operator_eq]
    have h := hMMdag inner { w with dirac := t.install w.dirac }
    simp only [DiracMatrix.wrapped, DiracOps.ofVirtual]
    cases hr : Dirac.MMdag inner inp { w with dirac := t.install w.dirac } <;>
      rw [hr] at h <;> cases t <;>
      simpa [Outcome.onReturn, Outcome.state, Temporaries.clear, Temporaries.install] using h

theorem Mdag_MMdag_restore_dagger_witness :
    failingOps.M 5
        { dirac := { sampleDirac with dagger := sampleDirac.dagger.toggle }, out := 0 }
      = .thrown "M failed" { dirac := { sampleDirac with dagger := .QUDA_DAG_YES }, out := 0 } ∧
    Dirac.Mdag failingOps.M 5 { dirac := sampleDirac, out := 0 }
      = .thrown "M failed" { dirac := sampleDirac, out := 0 } ∧
    sampleOps.M 5
        { dirac := { sampleDirac with dagger := sampleDirac.dagger.toggle }, out := 0 }
      = .returned ()
          { dirac := { sampleDirac with dagger := .QUDA_DAG_YES, flops := 8 }, out := 15 } ∧
    Dirac.Mdag sampleOps.M 5 { dirac := sampleDirac, out := 0 }
      = .returned () { dirac := { sampleDirac with flops := 8 }, out := 15 } :=
  ⟨rfl,
   (Mdag_MMdag_restore_dagger (blas.axpy : ℤ → ℤ → ℤ → ℤ) failingOps.M failingOps.MdagM
      failingOps.M 0 5 .zero { dirac := sampleDirac, out := 0 }).2.2.2.1 "M failed"
      { dirac := { sampleDirac with dagger := .QUDA_DAG_YES }, out := 0 } rfl,
   rfl,
   (Mdag_MMdag_restore_dagger (blas.axpy : ℤ → ℤ → ℤ → ℤ) sampleOps.M sampleOps.MdagM
      sampleOps.M 0 5 .zero { dirac := sampleDirac, out := 0 }).2.2.1
      { dirac := { sampleDirac with dagger := .QUDA_DAG_YES, flops := 8 }, out := 15 } rfl⟩

/-! ### Self-adjointness of the shifted `DiracMdagM` -/

/-- C14: let the wrapped `MdagM` write `A v` for every input `v`, in whatever state it
is called.  Then for every real shift `s` the functor `DiracMdagM` writes `F v` for a
map `F` that is self-adjoint, `<u, F v> = <F u, v>`, whenever `A` is, and positive
semi-definite, `<v, F v> >= 0`, whenever `A` is and `s >= 0`; the inner product is the
one of a real or complex inner-product space of fields. -/
theorem DiracMdagM_selfAdjoint {𝕜 V : Type} [RCLike 𝕜] [DecidableEq 𝕜]
    [NormedAddCommGroup V] [InnerProductSpace 𝕜 V] (ops : DiracOps V) (A : V → V)
    (hA : ∀ (v : V) (w : World V), ∃ w', ops.MdagM v w = .returned () w' ∧ w'.out = A v)
    (s : ℝ) (t : Temporaries) (w : World V) :
    ∃ F : V → V,
      (∀ v, (DiracMatrix.operator blas.axpy ops (.DiracMdagM (s : 𝕜)) v t w).written
        = some (F v)) ∧
      ((∀ u v, (inner u (A v) : 𝕜) = inner (A u) v) →
        ∀ u v, (inner u (F v) : 𝕜) = inner (F u) v) ∧
      ((∀ v, 0 ≤ RCLike.re (inner v (A v) : 𝕜)) → 0 ≤ s →
        ∀ v, 0 ≤ RCLike.re (inner v (F v) : 𝕜)) := by
  refine ⟨fun v => A v + (s : 𝕜) • v, fun v => ?_, fun hsa u v => ?_, fun hpsd hs v => ?_⟩
  · obtain ⟨w', hw', hout⟩ := hA v { w with dirac := t.install w.dirac }
    rw [DiracMatrix.operator_eq]
    simp only [DiracMatrix.wrapped]
    rw [hw']
    by_cases h0 : (s : 𝕜) = 0
    · simp [Outcome.onReturn, Outcome.written, DiracMatrix.accumulate, h0, hout]
    · simp [Outcome.onReturn, Outcome.written, DiracMatrix.accumulate, h0, hout, blas.axpy,
        add_comm]
  · simp only [inner_add_right, inner_add_left, inner_smul_right, inner_smul_left,
      RCLike.conj_ofReal, hsa u v]
  · simp only [inner_add_right, inner_smul_right, map_add, RCLike.re_ofReal_mul,
      inner_self_eq_norm_sq_to_K]
    have h1 := hpsd v
    have h2 : 0 ≤ s * RCLike.re (((‖v‖ : ℝ) : 𝕜) ^ 2) := by
      apply mul_nonneg hs
      rw [← RCLike.ofReal_pow, RCLike.ofReal_re]
      positivity
    linarith

theorem DiracMdagM_selfAdjoint_witness :
    ∃ F : ℝ → ℝ,
      (∀ v, (DiracMatrix.operator blas.axpy
          (DiracOps.mk (fun (v : ℝ) w => .returned () { w with out := 9 * v })
            (fun (v : ℝ) w => .returned () { w with out := 9 * v })
            (fun (v : ℝ) w => .returned () { w with out := 9 * v })
            (fun (v : ℝ) w => .returned () { w with out := 9 * v }))
          (.DiracMdagM ((2 : ℝ) : ℝ)) v (.one 21) { dirac := sampleDirac, out := 0 }).written
        = some (F v)) ∧
      ((∀ u v : ℝ, (inner u (9 * v) : ℝ) = inner (9 * u) v) →
        ∀ u v, (inner u (F v) : ℝ) = inner (F u) v) ∧
      ((∀ v : ℝ, 0 ≤ RCLike.re (inner v (9 * v) : ℝ)) → (0 : ℝ) ≤ 2 →
        ∀ v, 0 ≤ RCLike.re (inner v (F v) : ℝ)) :=
  @DiracMdagM_selfAdjoint ℝ ℝ _ _ _ _
    (DiracOps.mk (fun (v : ℝ) w => .returned () { w with out := 9 * v })
      (fun (v : ℝ) w => .returned () { w with out := 9 * v })
      (fun (v : ℝ) w => .returned () { w with out := 9 * v })
      (fun (v : ℝ) w => .returned () { w with out := 9 * v }))
    (fun v => 9 * v) (fun _ _ => ⟨_, rfl, rfl⟩) 2 (.one 21) { dirac := sampleDirac, out := 0 }

/-! ### The final stage with `DSLASH_XPAY` -/

/-- C12, as stated, fails: with `DSLASH_XPAY`, the final stage does not write
`hop + k·x`.  In `tm` built with `TWIST_INV_DSLASH` and without `TWIST_XPAY`, from
`hop = 1`, `x = 1` and scalars `a = b = 2` it writes `2 = hop + x` in every register,
not `3`; in `tmc` built with `CLOVER_TWIST_INV_DSLASH`, from `hop = 1`, `x = 0` and
`b = 2` it writes `2 = b·hop + x`, not `1`. -/
theorem xpay_scales_accumulate_counterexample :
    tm.finalStage true false true (fun _ _ s => s) (fun _ s => s) (2 : ℤ) 2
        (Spinor.const 1) (Spinor.const 1) = Spinor.const 2 ∧
    Spinor.add (Spinor.const 1) (Spinor.scale (2 : ℤ) (Spinor.const 1)) = Spinor.const 3 ∧
    tmc.finalStage true true false false (fun _ s => s) (fun _ s => s) (fun _ s => s)
        (2 : ℤ) 2 (Spinor.const 0) (Spinor.const 1) = Spinor.const 2 ∧
    Spinor.add (Spinor.const 1) (Spinor.scale (2 : ℤ) (Spinor.const 0)) = Spinor.const 1 :=
  ⟨rfl, rfl, rfl, rfl⟩

/-- C12, amended: with `DSLASH_XPAY`, the final stage of `tmc` writes `b·hop' + x'` and
the one of `tm` writes `b·hop + APPLY_TWIST(a, x)` when built with `TWIST_XPAY` and
`hop' + x`, with no scale, when built without it; the scale `b` multiplies the hopping
result, not the accumulate field.  Here `hop` is the output spinor on entry, `x` the
field read by `READ_ACCUM`, `hop'` is `hop`, or `hop` after the kernel's twist-inverse
macro in a build that applies it, and `x'` is `x`, or `APPLY_CLOVER_TWIST(c, -a, x)` in
a build with `CLOVER_TWIST_XPAY` and without `CLOVER_TWIST_INV_DSLASH`. -/
theorem xpay_final_stage {R : Type} [Ring R]
    (TWIST_INV_DSLASH CLOVER_TWIST_INV_DSLASH CLOVER_TWIST_XPAY DYNAMIC_CLOVER : Bool)
    (APPLY_TWIST_INV : R → R → Spinor R → Spinor R) (APPLY_TWIST : R → Spinor R → Spinor R)
    (APPLY_CLOVER_TWIST_INV APPLY_CLOVER_TWIST_DYN_INV APPLY_CLOVER_TWIST :
      R → Spinor R → Spinor R)
    (a b : R) (x hop : Spinor R) :
    tm.finalStage true false TWIST_INV_DSLASH APPLY_TWIST_INV APPLY_TWIST a b x hop
      = Spinor.add (if TWIST_INV_DSLASH then hop else APPLY_TWIST_INV a b hop) x ∧
    tm.finalStage true true TWIST_INV_DSLASH APPLY_TWIST_INV APPLY_TWIST a b x hop
      = Spinor.add (Spinor.scale b hop) (APPLY_TWIST a x) ∧
    tmc.finalStage true CLOVER_TWIST_INV_DSLASH CLOVER_TWIST_XPAY DYNAMIC_CLOVER
        APPLY_CLOVER_TWIST_INV APPLY_CLOVER_TWIST_DYN_INV APPLY_CLOVER_TWIST a b x hop
      = Spinor.add
          (Spinor.scale b
            (if CLOVER_TWIST_INV_DSLASH || CLOVER_TWIST_XPAY then hop
             else if DYNAMIC_CLOVER then APPLY_CLOVER_TWIST_DYN_INV (-a) hop
             else APPLY_CLOVER_TWIST_INV (-a) hop))
          (if !CLOVER_TWIST_INV_DSLASH && CLOVER_TWIST_XPAY then APPLY_CLOVER_TWIST (-a) x
           else x) := by
  refine ⟨?_, ?_, ?_⟩
  · cases TWIST_INV_DSLASH <;> rfl
  · rfl
  · cases CLOVER_TWIST_INV_DSLASH <;> cases CLOVER_TWIST_XPAY <;> cases DYNAMIC_CLOVER <;> rfl

/-- C13: built without `TWIST_XPAY`, the output of `tm` with `DSLASH_XPAY` is its output
without `DSLASH_XPAY` plus the accumulate field; built without `CLOVER_TWIST_XPAY`, the
output of `tmc` with `DSLASH_XPAY` is `b` times its output without `DSLASH_XPAY` plus
the accumulate field; this for every output spinor on entry, every accumulate field and
every setting of the other build symbols. -/
theorem xpay_is_plain_then_accumulate {R : Type} [Ring R]
    (TWIST_INV_DSLASH CLOVER_TWIST_INV_DSLASH DYNAMIC_CLOVER : Bool)
    (APPLY_TWIST_INV : R → R → Spinor R → Spinor R) (APPLY_TWIST : R → Spinor R → Spinor R)
    (APPLY_CLOVER_TWIST_INV APPLY_CLOVER_TWIST_DYN_INV APPLY_CLOVER_TWIST :
      R → Spinor R → Spinor R)
    (a b : R) (acc hop : Spinor R) :
    tm.finalStage true false TWIST_INV_DSLASH APPLY_TWIST_INV APPLY_TWIST a b acc hop
      = Spinor.add
          (tm.finalStage false false TWIST_INV_DSLASH APPLY_TWIST_INV APPLY_TWIST a b acc hop)
          acc ∧
    tmc.finalStage true CLOVER_TWIST_INV_DSLASH false DYNAMIC_CLOVER APPLY_CLOVER_TWIST_INV
        APPLY_CLOVER_TWIST_DYN_INV APPLY_CLOVER_TWIST a b acc hop
      = Spinor.add
          (Spinor.scale b
            (tmc.finalStage false CLOVER_TWIST_INV_DSLASH false DYNAMIC_CLOVER
              APPLY_CLOVER_TWIST_INV APPLY_CLOVER_TWIST_DYN_INV APPLY_CLOVER_TWIST a b acc hop))
          acc := by
  refine ⟨?_, ?_⟩
  · cases TWIST_INV_DSLASH <;> rfl
  · cases CLOVER_TWIST_INV_DSLASH <;> cases DYNAMIC_CLOVER <;> rfl

/-! ### The clover blocks -/

theorem cloverFirstBlock_isHermitian (D : Bool) (C : CloverRegs ℝ) :
    (cloverFirstBlock D C).IsHermitian := by
  ext ⟨s, c⟩ ⟨s', c'⟩
  fin_cases s <;> fin_cases c <;> fin_cases s' <;> fin_cases c' <;>
    apply Complex.ext <;> first | rfl | exact neg_neg _ | exact neg_zero

theorem cloverInvFirstBlock_isHermitian (D : Bool) (C : CloverRegs ℝ) :
    (cloverInvFirstBlock D C).IsHermitian := by
  ext ⟨s, c⟩ ⟨s', c'⟩
  fin_cases s <;> fin_cases c <;> fin_cases s' <;> fin_cases c' <;>
    apply Complex.ext <;> first | rfl | exact neg_neg _ | exact neg_zero

theorem cloverSecondBlock_eq (D : Bool) (C : CloverRegs ℝ) :
    cloverSecondBlock D C = cloverFirstBlock D C := by
  ext ⟨s, c⟩ ⟨s', c'⟩
  fin_cases s <;> fin_cases c <;> fin_cases s' <;> fin_cases c' <;> rfl

theorem cloverInvSecondBlock_eq (D : Bool) (C : CloverRegs ℝ) :
    cloverInvSecondBlock D C = cloverInvFirstBlock D C := by
  ext ⟨s, c⟩ ⟨s', c'⟩
  fin_cases s <;> fin_cases c <;> fin_cases s' <;> fin_cases c' <;> rfl

/-- C15: for every content of the clover registers and in both register layouts, each
6x6 chiral block addressed through the macros `c##_##`, and each one addressed through
the macros `cinv##_##`, is a Hermitian matrix: its diagonal entries are real and every
entry is the complex conjugate of the mirrored one; the macros of the second chiral
block are those of the first, on the registers as reloaded, so the 12x12 matrix made of
the two blocks on the diagonal is Hermitian. -/
theorem clover_blocks_hermitian (D : Bool) (C C' : CloverRegs ℝ) :
    (cloverFirstBlock D C).IsHermitian ∧
    (cloverSecondBlock D C').IsHermitian ∧
    (cloverInvFirstBlock D C).IsHermitian ∧
    (cloverInvSecondBlock D C').IsHermitian ∧
    (∀ r, (cloverFirstBlock D C r r).im = 0 ∧ (cloverSecondBlock D C' r r).im = 0 ∧
      (cloverInvFirstBlock D C r r).im = 0 ∧ (cloverInvSecondBlock D C' r r).im = 0) ∧
    (∀ r k, cloverFirstBlock D C r k = (starRingEnd ℂ) (cloverFirstBlock D C k r) ∧
      cloverSecondBlock D C' r k = (starRingEnd ℂ) (cloverSecondBlock D C' k r) ∧
      cloverInvFirstBlock D C r k = (starRingEnd ℂ) (cloverInvFirstBlock D C k r) ∧
      cloverInvSecondBlock D C' r k = (starRingEnd ℂ) (cloverInvSecondBlock D C' k r)) ∧
    cloverSecondBlock D C = cloverFirstBlock D C ∧
    cloverInvSecondBlock D C = cloverInvFirstBlock D C ∧
    (Matrix.fromBlocks (cloverFirstBlock D C) 0 0 (cloverSecondBlock D C')).IsHermitian ∧
    (Matrix.fromBlocks (cloverInvFirstBlock D C) 0 0
      (cloverInvSecondBlock D C')).IsHermitian := by
  have h1 := cloverFirstBlock_isHermitian D C
  have h2 : (cloverSecondBlock D C').IsHermitian := by
    rw [cloverSecondBlock_eq]
    exact cloverFirstBlock_isHermitian D C'
  have h3 := cloverInvFirstBlock_isHermitian D C
  have h4 : (cloverInvSecondBlock D C').IsHermitian := by
    rw [cloverInvSecondBlock_eq]
    exact cloverInvFirstBlock_isHermitian D C'
  have him : ∀ (M : Matrix (Fin 2 × Fin 3) (Fin 2 × Fin 3) ℂ), M.IsHermitian →
      ∀ r, (M r r).im = 0 := by
    intro M hM r
    have h := congrArg Complex.im (hM.apply r r)
    simp only [Complex.star_def, Complex.conj_im] at h
    linarith
  have hconj : ∀ (M : Matrix (Fin 2 × Fin 3) (Fin 2 × Fin 3) ℂ), M.IsHermitian →
      ∀ r k, M r k = (starRingEnd ℂ) (M k r) := fun M hM r k => (hM.apply r k).symm
  exact ⟨h1, h2, h3, h4,
    fun r => ⟨him _ h1 r, him _ h2 r, him _ h3 r, him _ h4 r⟩,
    fun r k => ⟨hconj _ h1 r k, hconj _ h2 r k, hconj _ h3 r k, hconj _ h4 r k⟩,
    cloverSecondBlock_eq D C, cloverInvSecondBlock_eq D C,
    Matrix.IsHermitian.fromBlocks h1 (Matrix.conjTranspose_zero) h2,
    Matrix.IsHermitian.fromBlocks h3 (Matrix.conjTranspose_zero) h4⟩

/-! ### The link multiplication of the exterior kernels -/

theorem mulVec_three (M : Matrix (Fin 3) (Fin 3) ℂ) (v : Fin 3 → ℂ) :
    M.mulVec v = ![M 0 0 * v 0 + M 0 1 * v 1 + M 0 2 * v 2,
                   M 1 0 * v 0 + M 1 1 * v 1 + M 1 2 * v 2,
                   M 2 0 * v 0 + M 2 1 * v 1 + M 2 2 * v 2] := by
  ext i
  fin_cases i <;> simp [Matrix.mulVec, Matrix.dotProduct, Fin.sum_univ_three]

theorem Link.gTMatrix_eq (G : Link ℝ) : G.gTMatrix = G.toMatrix.conjTranspose := by
  ext i j
  fin_cases i <;> fin_cases j <;>
    simp [Link.gTMatrix, Link.toMatrix, Matrix.conjTranspose_apply, Complex.ext_iff,
      Link.gT00_re, Link.gT00_im, Link.gT01_re, Link.gT01_im, Link.gT02_re, Link.gT02_im,
      Link.gT10_re, Link.gT10_im, Link.gT11_re, Link.gT11_im, Link.gT12_re, Link.gT12_im,
      Link.gT20_re, Link.gT20_im, Link.gT21_re, Link.gT21_im, Link.gT22_re, Link.gT22_im]

theorem multiplyForward_A (G : Link ℝ) (h : HalfSpinor ℝ) :
    (multiplyForward G h).A = G.toMatrix.mulVec h.a := by
  rw [mulVec_three]
  simp only [LinkedHalfSpinor.A, HalfSpinor.a, Link.toMatrix, multiplyForward]
  ext i
  fin_cases i <;> apply Complex.ext <;> simp <;> ring

theorem multiplyForward_B (G : Link ℝ) (h : HalfSpinor ℝ) :
    (multiplyForward G h).B = G.toMatrix.mulVec h.b := by
  rw [mulVec_three]
  simp only [LinkedHalfSpinor.B, HalfSpinor.b, Link.toMatrix, multiplyForward]
  ext i
  fin_cases i <;> apply Complex.ext <;> simp <;> ring

theorem multiplyBackward_A (G : Link ℝ) (h : HalfSpinor ℝ) :
    (multiplyBackward G h).A = G.toMatrix.conjTranspose.mulVec h.a := by
  rw [← Link.gTMatrix_eq, mulVec_three]
  simp only [LinkedHalfSpinor.A, HalfSpinor.a, Link.gTMatrix, multiplyBackward]
  ext i
  fin_cases i <;> apply Complex.ext <;> simp <;> ring

theorem multiplyBackward_B (G : Link ℝ) (h : HalfSpinor ℝ) :
    (multiplyBackward G h).B = G.toMatrix.conjTranspose.mulVec h.b := by
  rw [← Link.gTMatrix_eq, mulVec_three]
  simp only [LinkedHalfSpinor.B, HalfSpinor.b, Link.gTMatrix, multiplyBackward]
  ext i
  fin_cases i <;> apply Complex.ext <;> simp <;> ring

/-- C16: for every link matrix `U` (registers `g00` … `g22`) and every half spinor with
colour vectors `a`, `b`, the `multiply row` block of the forward branches of both
kernels computes the complex products `A = U a`, `B = U b`, and the one of the backward
branches computes `A = U† a`, `B = U† b`, where `U†`, the conjugate transpose of `U`, is
the matrix of the macros `gT##` (`gT_ij = conj(g_ji)`). -/
theorem multiply_blocks_are_matrix_products (G : Link ℝ) (h : HalfSpinor ℝ) :
    (multiplyForward G h).A = G.toMatrix.mulVec h.a ∧
    (multiplyForward G h).B = G.toMatrix.mulVec h.b ∧
    (multiplyBackward G h).A = G.toMatrix.conjTranspose.mulVec h.a ∧
    (multiplyBackward G h).B = G.toMatrix.conjTranspose.mulVec h.b ∧
    G.gTMatrix = G.toMatrix.conjTranspose ∧
    (∀ i j, G.gTMatrix i j = (starRingEnd ℂ) (G.toMatrix j i)) :=
  ⟨multiplyForward_A G h, multiplyForward_B G h, multiplyBackward_A G h,
   multiplyBackward_B G h, Link.gTMatrix_eq G,
   fun i j => by rw [Link.gTMatrix_eq]; rfl⟩

/-! ### The spin reconstruction of the spatial branches -/

theorem mulVec_four_upper (P : Matrix (Fin 4) (Fin 4) ℂ) (x y : ℂ) :
    P.mulVec ![x, y, 0, 0]
      = ![P 0 0 * x + P 0 1 * y, P 1 0 * x + P 1 1 * y, P 2 0 * x + P 2 1 * y,
          P 3 0 * x + P 3 1 * y] := by
  ext i
  fin_cases i <;> simp [Matrix.mulVec, Matrix.dotProduct, Fin.sum_univ_four]

theorem tm_accumulate0_forward_projects (L : LinkedHalfSpinor ℝ) (o : Spinor ℝ)
    (c : Fin 3) :
    (fun s => (tm.accumulate0_forward L o).toComplex s c - o.toComplex s c)
      = tm.projector0_forward.mulVec ![L.A c, L.B c, 0, 0] := by
  rw [mulVec_four_upper]
  simp only [tm.accumulate0_forward, tm.projector0_forward, Spinor.toComplex,
    LinkedHalfSpinor.A, LinkedHalfSpinor.B]
  ext s
  fin_cases s <;> fin_cases c <;> apply Complex.ext <;> simp

theorem tm_branch0_forward_addsProjected :
    AddsProjected tm.projector0_forward Link.toMatrix tm.branch0_forward := by
  intro G I o c
  have h := tm_accumulate0_forward_projects (multiplyForward G (copyHalfSpinor I)) o c
  rw [multiplyForward_A, multiplyForward_B] at h
  exact h

theorem tm_accumulate0_backward_projects (L : LinkedHalfSpinor ℝ) (o : Spinor ℝ)
    (c : Fin 3) :
    (fun s => (tm.accumulate0_backward L o).toComplex s c - o.toComplex s c)
      = tm.projector0_backward.mulVec ![L.A c, L.B c, 0, 0] := by
  rw [mulVec_four_upper]
  simp only [tm.accumulate0_backward, tm.projector0_backward, Spinor.toComplex,
    LinkedHalfSpinor.A, LinkedHalfSpinor.B]
  ext s
  fin_cases s <;> fin_cases c <;> apply Complex.ext <;> simp

theorem tm_branch0_backward_addsProjected :
    AddsProjected tm.projector0_backward (fun G => G.toMatrix.conjTranspose) tm.branch0_backward := by
  intro G I o c
  have h := tm_accumulate0_backward_projects (multiplyBackward G (copyHalfSpinor I)) o c
  rw [multiplyBackward_A, multiplyBackward_B] at h
  exact h

theorem tm_accumulate1_forward_projects (L : LinkedHalfSpinor ℝ) (o : Spinor ℝ)
    (c : Fin 3) :
    (fun s => (tm.accumulate1_forward L o).toComplex s c - o.toComplex s c)
      = tm.projector1_forward.mulVec ![L.A c, L.B c, 0, 0] := by
  rw [mulVec_four_upper]
  simp only [tm.accumulate1_forward, tm.projector1_forward, Spinor.toComplex,
    LinkedHalfSpinor.A, LinkedHalfSpinor.B]
  ext s
  fin_cases s <;> fin_cases c <;> apply Complex.ext <;> simp

theorem tm_branch1_forward_addsProjected :
    AddsProjected tm.projector1_forward Link.toMatrix tm.branch1_forward := by
  intro G I o c
  have h := tm_accumulate1_forward_projects (multiplyForward G (copyHalfSpinor I)) o c
  rw [multiplyForward_A, multiplyForward_B] at h
  exact h

theorem tm_accumulate1_backward_projects (L : LinkedHalfSpinor ℝ) (o : Spinor ℝ)
    (c : Fin 3) :
    (fun s => (tm.accumulate1_backward L o).toComplex s c - o.toComplex s c)
      = tm.projector1_backward.mulVec ![L.A c, L.B c, 0, 0] := by
  rw [mulVec_four_upper]
  simp only [tm.accumulate1_backward, tm.projector1_backward, Spinor.toComplex,
    LinkedHalfSpinor.A, LinkedHalfSpinor.B]
  ext s
  fin_cases s <;> fin_cases c <;> apply Complex.ext <;> simp

theorem tm_branch1_backward_addsProjected :
    AddsProjected tm.projector1_backward (fun G => G.toMatrix.conjTranspose) tm.branch1_backward := by
  intro G I o c
  have h := tm_accumulate1_backward_projects (multiplyBackward G (copyHalfSpinor I)) o c
  rw [multiplyBackward_A, multiplyBackward_B] at h
  exact h

theorem tm_accumulate2_forward_projects (L : LinkedHalfSpinor ℝ) (o : Spinor ℝ)
    (c : Fin 3) :
    (fun s => (tm.accumulate2_forward L o).toComplex s c - o.toComplex s c)
      = tm.projector2_forward.mulVec ![L.A c, L.B c, 0, 0] := by
  rw [mulVec_four_upper]
  simp only [tm.accumulate2_forward, tm.projector2_forward, Spinor.toComplex,
    LinkedHalfSpinor.A, LinkedHalfSpinor.B]
  ext s
  fin_cases s <;> fin_cases c <;> apply Complex.ext <;> simp

theorem tm_branch2_forward_addsProjected :
    AddsProjected tm.projector2_forward Link.toMatrix tm.branch2_forward := by
  intro G I o c
  have h := tm_accumulate2_forward_projects (multiplyForward G (copyHalfSpinor I)) o c
  rw [multiplyForward_A, multiplyForward_B] at h
  exact h

theorem tm_accumulate2_backward_projects (L : LinkedHalfSpinor ℝ) (o : Spinor ℝ)
    (c : Fin 3) :
    (fun s => (tm.accumulate2_backward L o).toComplex s c - o.toComplex s c)
      = tm.projector2_backward.mulVec ![L.A c, L.B c, 0, 0] := by
  rw [mulVec_four_upper]
  simp only [tm.accumulate2_backward, tm.projector2_backward, Spinor.toComplex,
    LinkedHalfSpinor.A, LinkedHalfSpinor.B]
  ext s
  fin_cases s <;> fin_cases c <;> apply Complex.ext <;> simp

theorem tm_branch2_backward_addsProjected :
    AddsProjected tm.projector2_backward (fun G => G.toMatrix.conjTranspose) tm.branch2_backward := by
  intro G I o c
  have h := tm_accumulate2_backward_projects (multiplyBackward G (copyHalfSpinor I)) o c
  rw [multiplyBackward_A, multiplyBackward_B] at h
  exact h

theorem tmc_accumulate0_forward_projects (L : LinkedHalfSpinor ℝ) (o : Spinor ℝ)
    (c : Fin 3) :
    (fun s => (tmc.accumulate0_forward L o).toComplex s c - o.toComplex s c)
      = tmc.projector0_forward.mulVec ![L.A c, L.B c, 0, 0] := by
  rw [mulVec_four_upper]
  simp only [tmc.accumulate0_forward, tmc.projector0_forward, Spinor.toComplex,
    LinkedHalfSpinor.A, LinkedHalfSpinor.B]
  ext s
  fin_cases s <;> fin_cases c <;> apply Complex.ext <;> simp

theorem tmc_branch0_forward_addsProjected :
    AddsProjected tmc.projector0_forward Link.toMatrix tmc.branch0_forward := by
  intro G I o c
  have h := tmc_accumulate0_forward_projects (multiplyForward G (copyHalfSpinor I)) o c
  rw [multiplyForward_A, multiplyForward_B] at h
  exact h

theorem tmc_accumulate0_backward_projects (L : LinkedHalfSpinor ℝ) (o : Spinor ℝ)
    (c : Fin 3) :
    (fun s => (tmc.accumulate0_backward L o).toComplex s c - o.toComplex s c)
      = tmc.projector0_backward.mulVec ![L.A c, L.B c, 0, 0] := by
  rw [mulVec_four_upper]
  simp only [tmc.accumulate0_backward, tmc.projector0_backward, Spinor.toComplex,
    LinkedHalfSpinor.A, LinkedHalfSpinor.B]
  ext s
  fin_cases s <;> fin_cases c <;> apply Complex.ext <;> simp

theorem tmc_branch0_backward_addsProjected :
    AddsProjected tmc.projector0_backward (fun G => G.toMatrix.conjTranspose) tmc.branch0_backward := by
  intro G I o c
  have h := tmc_accumulate0_backward_projects (multiplyBackward G (copyHalfSpinor I)) o c
  rw [multiplyBackward_A, multiplyBackward_B] at h
  exact h

theorem tmc_accumulate1_forward_projects (L : LinkedHalfSpinor ℝ) (o : Spinor ℝ)
    (c : Fin 3) :
    (fun s => (tmc.accumulate1_forward L o).toComplex s c - o.toComplex s c)
      = tmc.projector1_forward.mulVec ![L.A c, L.B c, 0, 0] := by
  rw [mulVec_four_upper]
  simp only [tmc.accumulate1_forward, tmc.projector1_forward, Spinor.toComplex,
    LinkedHalfSpinor.A, LinkedHalfSpinor.B]
  ext s
  fin_cases s <;> fin_cases c <;> apply Complex.ext <;> simp

theorem tmc_branch1_forward_addsProjected :
    AddsProjected tmc.projector1_forward Link.toMatrix tmc.branch1_forward := by
  intro G I o c
  have h := tmc_accumulate1_forward_projects (multiplyForward G (copyHalfSpinor I)) o c
  rw [multiplyForward_A, multiplyForward_B] at h
  exact h

theorem tmc_accumulate1_backward_projects (L : LinkedHalfSpinor ℝ) (o : Spinor ℝ)
    (c : Fin 3) :
    (fun s => (tmc.accumulate1_backward L o).toComplex s c - o.toComplex s c)
      = tmc.projector1_backward.mulVec ![L.A c, L.B c, 0, 0] := by
  rw [mulVec_four_upper]
  simp only [tmc.accumulate1_backward, tmc.projector1_backward, Spinor.toComplex,
    LinkedHalfSpinor.A, LinkedHalfSpinor.B]
  ext s
  fin_cases s <;> fin_cases c <;> apply Complex.ext <;> simp

theorem tmc_branch1_backward_addsProjected :
    AddsProjected tmc.projector1_backward (fun G => G.toMatrix.conjTranspose) tmc.branch1_backward := by
  intro G I o c
  have h := tmc_accumulate1_backward_projects (multiplyBackward G (copyHalfSpinor I)) o c
  rw [multiplyBackward_A, multiplyBackward_B] at h
  exact h

theorem tmc_accumulate2_forward_projects (L : LinkedHalfSpinor ℝ) (o : Spinor ℝ)
    (c : Fin 3) :
    (fun s => (tmc.accumulate2_forward L o).toComplex s c - o.toComplex s c)
      = tmc.projector2_forward.mulVec ![L.A c, L.B c, 0, 0] := by
  rw [mulVec_four_upper]
  simp only [tmc.accumulate2_forward, tmc.projector2_forward, Spinor.toComplex,
    LinkedHalfSpinor.A, LinkedHalfSpinor.B]
  ext s
  fin_cases s <;> fin_cases c <;> apply Complex.ext <;> simp

theorem tmc_branch2_forward_addsProjected :
    AddsProjected tmc.projector2_forward Link.toMatrix tmc.branch2_forward := by
  intro G I o c
  have h := tmc_accumulate2_forward_projects (multiplyForward G (copyHalfSpinor I)) o c
  rw [multiplyForward_A, multiplyForward_B] at h
  exact h

theorem tmc_accumulate2_backward_projects (L : LinkedHalfSpinor ℝ) (o : Spinor ℝ)
    (c : Fin 3) :
    (fun s => (tmc.accumulate2_backward L o).toComplex s c - o.toComplex s c)
      = tmc.projector2_backward.mulVec ![L.A c, L.B c, 0, 0] := by
  rw [mulVec_four_upper]
  simp only [tmc.accumulate2_backward, tmc.projector2_backward, Spinor.toComplex,
    LinkedHalfSpinor.A, LinkedHalfSpinor.B]
  ext s
  fin_cases s <;> fin_cases c <;> apply Complex.ext <;> simp

theorem tmc_branch2_backward_addsProjected :
    AddsProjected tmc.projector2_backward (fun G => G.toMatrix.conjTranspose) tmc.branch2_backward := by
  intro G I o c
  have h := tmc_accumulate2_backward_projects (multiplyBackward G (copyHalfSpinor I)) o c
  rw [multiplyBackward_A, multiplyBackward_B] at h
  exact h

/-- C17: in each of the six spatial branches of each of the two kernels, the spinor
added to the output is, for every colour, the 4x4 matrix of the branch's
`// Projector` comment applied to the spinor `(A, B, 0, 0)` made of the
link-multiplied half spinor (`A = U a`, `B = U b` on a forward face, `A = U† a`,
`B = U† b` on a backward face); in particular the `P0-` branch of `tm` adds
`(A, B, i·B, i·A)` and its `P1+` branch adds `(A, B, -B, A)`. -/
theorem spatial_branches_apply_documented_projector :
    AddsProjected tm.projector0_forward Link.toMatrix tm.branch0_forward ∧
    AddsProjected tm.projector0_backward (fun G => G.toMatrix.conjTranspose) tm.branch0_backward ∧
    AddsProjected tm.projector1_forward Link.toMatrix tm.branch1_forward ∧
    AddsProjected tm.projector1_backward (fun G => G.toMatrix.conjTranspose) tm.branch1_backward ∧
    AddsProjected tm.projector2_forward Link.toMatrix tm.branch2_forward ∧
    AddsProjected tm.projector2_backward (fun G => G.toMatrix.conjTranspose) tm.branch2_backward ∧
    AddsProjected tmc.projector0_forward Link.toMatrix tmc.branch0_forward ∧
    AddsProjected tmc.projector0_backward (fun G => G.toMatrix.conjTranspose) tmc.branch0_backward ∧
    AddsProjected tmc.projector1_forward Link.toMatrix tmc.branch1_forward ∧
    AddsProjected tmc.projector1_backward (fun G => G.toMatrix.conjTranspose) tmc.branch1_backward ∧
    AddsProjected tmc.projector2_forward Link.toMatrix tmc.branch2_forward ∧
    AddsProjected tmc.projector2_backward (fun G => G.toMatrix.conjTranspose) tmc.branch2_backward ∧
    (∀ (G : Link ℝ) (I : HalfSpinorRegs ℝ) (o : Spinor ℝ) (c : Fin 3),
      (fun s => (tm.branch0_forward G I o).toComplex s c - o.toComplex s c)
        = ![G.toMatrix.mulVec I.upper c, G.toMatrix.mulVec I.lower c,
            Complex.I * G.toMatrix.mulVec I.lower c,
            Complex.I * G.toMatrix.mulVec I.upper c]) ∧
    (∀ (G : Link ℝ) (I : HalfSpinorRegs ℝ) (o : Spinor ℝ) (c : Fin 3),
      (fun s => (tm.branch1_backward G I o).toComplex s c - o.toComplex s c)
        = ![G.toMatrix.conjTranspose.mulVec I.upper c,
            G.toMatrix.conjTranspose.mulVec I.lower c,
            -G.toMatrix.conjTranspose.mulVec I.lower c,
            G.toMatrix.conjTranspose.mulVec I.upper c]) := by
  refine ⟨tm_branch0_forward_addsProjected, tm_branch0_backward_addsProjected, tm_branch1_forward_addsProjected, tm_branch1_backward_addsProjected,
    tm_branch2_forward_addsProjected, tm_branch2_backward_addsProjected, tmc_branch0_forward_addsProjected, tmc_branch0_backward_addsProjected,
    tmc_branch1_forward_addsProjected, tmc_branch1_backward_addsProjected, tmc_branch2_forward_addsProjected, tmc_branch2_backward_addsProjected, ?_, ?_⟩
  · intro G I o c
    rw [tm_branch0_forward_addsProjected G I o c, mulVec_four_upper]
    simp [tm.projector0_forward]
  · intro G I o c
    rw [tm_branch1_backward_addsProjected G I o c, mulVec_four_upper]
    simp [tm.projector1_backward]

/-! ### The temporal branches -/

theorem tm_accumulate3_forward_complex (L : LinkedHalfSpinor ℝ) (o : Spinor ℝ) :
    (tm.accumulate3_forward L o).toComplex
      = fun s c => o.toComplex s c + (![0, 0, L.A c, L.B c] : Fin 4 → ℂ) s := by
  simp only [tm.accumulate3_forward, Spinor.toComplex, LinkedHalfSpinor.A, LinkedHalfSpinor.B]
  ext s c
  fin_cases s <;> fin_cases c <;> apply Complex.ext <;> simp

theorem tm_accumulate3_backward_complex (L : LinkedHalfSpinor ℝ) (o : Spinor ℝ) :
    (tm.accumulate3_backward L o).toComplex
      = fun s c => o.toComplex s c + (![L.A c, L.B c, 0, 0] : Fin 4 → ℂ) s := by
  simp only [tm.accumulate3_backward, Spinor.toComplex, LinkedHalfSpinor.A,
    LinkedHalfSpinor.B]
  ext s c
  fin_cases s <;> fin_cases c <;> apply Complex.ext <;> simp

theorem tm_temporalHalfSpinor_a (T : Bool) (I : HalfSpinorRegs ℝ) :
    (tm.temporalHalfSpinor T I).a = (if T then (1 : ℂ) else 2) • I.upper := by
  cases T <;> ext c <;> fin_cases c <;> apply Complex.ext <;>
    simp [tm.temporalHalfSpinor, tm.doubleHalfSpinor, copyHalfSpinor, HalfSpinor.a,
      HalfSpinorRegs.upper]

theorem tm_temporalHalfSpinor_b (T : Bool) (I : HalfSpinorRegs ℝ) :
    (tm.temporalHalfSpinor T I).b = (if T then (1 : ℂ) else 2) • I.lower := by
  cases T <;> ext c <;> fin_cases c <;> apply Complex.ext <;>
    simp [tm.temporalHalfSpinor, tm.doubleHalfSpinor, copyHalfSpinor, HalfSpinor.b,
      HalfSpinorRegs.lower]

/-- C18, as stated, fails: built with `TWIST_INV_DSLASH`, the forward temporal branch of
`tm` adds the link-multiplied half spinor `U h` itself, not `U (2h)`: for the identity
link and the half spinor with `i00 = 1`, register `o20_re` goes from 5 to 6, in the
general part and in the `identity gauge matrix` part alike, where `U (2h)` would
give 7; the backward branch does the same to `o00_re`. -/
theorem temporal_factor_two_counterexample :
    (tm.branch3_forward true false 3 8 (Link.identity : Link ℤ) sampleHalfSpinorRegs
        (Spinor.const 5)).v20_re = 6 ∧
    (tm.branch3_forward true true 3 8 (Link.identity : Link ℤ) sampleHalfSpinorRegs
        (Spinor.const 5)).v20_re = 6 ∧
    (tm.branch3_backward true false 3 8 (Link.identity : Link ℤ) sampleHalfSpinorRegs
        (Spinor.const 5)).v00_re = 6 ∧
    (5 : ℤ) + (multiplyForward (Link.identity : Link ℤ)
        (tm.doubleHalfSpinor sampleHalfSpinorRegs)).A0_re = 7 := by
  refine ⟨?_, ?_, ?_, ?_⟩ <;> decide

/-- C18, amended: in the temporal direction of `tm`, the forward face adds `k·(U h)` to
spin components 2 and 3 and the backward face adds `k·(U† h)` to spin components 0 and
1, leaving the other two spin components unchanged, where `h` is the half spinor read
from the ghost zone, `k = 2` in a build without `TWIST_INV_DSLASH` (the documented
`P3- = diag(0,0,2,2)`, `P3+ = diag(2,2,0,0)`) and `k = 1` in a build with it, and `U` is
the link read, or the identity in the `gauge_fixed` part, which reads no link. -/
theorem tm_temporal_branches (TWIST_INV_DSLASH gauge_fixed : Bool)
    (ga_idx X4X3X2X1hmX3X2X1h : Int) (G : Link ℝ) (I : HalfSpinorRegs ℝ) (o : Spinor ℝ) :
    (tm.branch3_forward TWIST_INV_DSLASH gauge_fixed ga_idx X4X3X2X1hmX3X2X1h G I o).toComplex
      = (fun s c => o.toComplex s c +
          (![0, 0,
             (if TWIST_INV_DSLASH then (1 : ℂ) else 2) *
               (if gauge_fixed && decide (ga_idx < X4X3X2X1hmX3X2X1h) then 1
                else G.toMatrix).mulVec I.upper c,
             (if TWIST_INV_DSLASH then (1 : ℂ) else 2) *
               (if gauge_fixed && decide (ga_idx < X4X3X2X1hmX3X2X1h) then 1
                else G.toMatrix).mulVec I.lower c] : Fin 4 → ℂ) s) ∧
    (tm.branch3_backward TWIST_INV_DSLASH gauge_fixed ga_idx X4X3X2X1hmX3X2X1h G I o).toComplex
      = (fun s c => o.toComplex s c +
          (![(if TWIST_INV_DSLASH then (1 : ℂ) else 2) *
               (if gauge_fixed && decide (ga_idx < X4X3X2X1hmX3X2X1h) then 1
                else G.toMatrix.conjTranspose).mulVec I.upper c,
             (if TWIST_INV_DSLASH then (1 : ℂ) else 2) *
               (if gauge_fixed && decide (ga_idx < X4X3X2X1hmX3X2X1h) then 1
                else G.toMatrix.conjTranspose).mulVec I.lower c,
             0, 0] : Fin 4 → ℂ) s) := by
  constructor
  · by_cases hc : (gauge_fixed && decide (ga_idx < X4X3X2X1hmX3X2X1h)) = true
    · simp only [tm.branch3_forward, hc, if_true, tm_accumulate3_forward_complex,
        Matrix.one_mulVec]
      have hA : (identityGauge (tm.temporalHalfSpinor TWIST_INV_DSLASH I)).A
          = (tm.temporalHalfSpinor TWIST_INV_DSLASH I).a := rfl
      have hB : (identityGauge (tm.temporalHalfSpinor TWIST_INV_DSLASH I)).B
          = (tm.temporalHalfSpinor TWIST_INV_DSLASH I).b := rfl
      rw [hA, hB, tm_temporalHalfSpinor_a, tm_temporalHalfSpinor_b]
      rfl
    · simp only [tm.branch3_forward, hc, if_false, tm_accumulate3_forward_complex,
        multiplyForward_A, multiplyForward_B, tm_temporalHalfSpinor_a,
        tm_temporalHalfSpinor_b, Matrix.mulVec_smul, Bool.false_eq_true]
      rfl
  · by_cases hc : (gauge_fixed && decide (ga_idx < X4X3X2X1hmX3X2X1h)) = true
    · simp only [tm.branch3_backward, hc, if_true, tm_accumulate3_backward_complex,
        Matrix.one_mulVec]
      have hA : (identityGauge (tm.temporalHalfSpinor TWIST_INV_DSLASH I)).A
          = (tm.temporalHalfSpinor TWIST_INV_DSLASH I).a := rfl
      have hB : (identityGauge (tm.temporalHalfSpinor TWIST_INV_DSLASH I)).B
          = (tm.temporalHalfSpinor TWIST_INV_DSLASH I).b := rfl
      rw [hA, hB, tm_temporalHalfSpinor_a, tm_temporalHalfSpinor_b]
      rfl
    · simp only [tm.branch3_backward, hc, if_false, tm_accumulate3_backward_complex,
        multiplyBackward_A, multiplyBackward_B, tm_temporalHalfSpinor_a,
        tm_temporalHalfSpinor_b, Matrix.mulVec_smul, Bool.false_eq_true]
      rfl

/-! ### The dagger kernel against the non-dagger kernel -/

/-- C19: for every direction and face, the spin reconstruction of the dagger kernel
`tmc` is the one of the non-dagger kernel `tm` on the other face of the same direction,
while the link is used in the same orientation (`multiplyForward`, i.e. `U`, on the
forward face and `multiplyBackward`, i.e. `U†`, on the backward face); and the
documented projectors of the two kernels on one face are of opposite sign: they add up
to twice the unit matrix. -/
theorem dagger_kernel_swaps_projectors {R : Type} [Ring R] (TPROJSCALE : Int)
    (gauge_fixed : Bool) (ga_idx X4X3X2X1hmX3X2X1h : Int) (G : Link R)
    (I : HalfSpinorRegs R) (L : LinkedHalfSpinor R) (o : Spinor R) :
    (tmc.accumulate0_forward L o = tm.accumulate0_backward L o) ∧
    (tmc.accumulate0_backward L o = tm.accumulate0_forward L o) ∧
    (tmc.accumulate1_forward L o = tm.accumulate1_backward L o) ∧
    (tmc.accumulate1_backward L o = tm.accumulate1_forward L o) ∧
    (tmc.accumulate2_forward L o = tm.accumulate2_backward L o) ∧
    (tmc.accumulate2_backward L o = tm.accumulate2_forward L o) ∧
    (tmc.accumulate3_forward L o = tm.accumulate3_backward L o) ∧
    (tmc.accumulate3_backward L o = tm.accumulate3_forward L o) ∧
    (tmc.branch0_forward G I o
      = tm.accumulate0_backward (multiplyForward G (copyHalfSpinor I)) o) ∧
    (tmc.branch0_backward G I o
      = tm.accumulate0_forward (multiplyBackward G (copyHalfSpinor I)) o) ∧
    (tmc.branch1_forward G I o
      = tm.accumulate1_backward (multiplyForward G (copyHalfSpinor I)) o) ∧
    (tmc.branch1_backward G I o
      = tm.accumulate1_forward (multiplyBackward G (copyHalfSpinor I)) o) ∧
    (tmc.branch2_forward G I o
      = tm.accumulate2_backward (multiplyForward G (copyHalfSpinor I)) o) ∧
    (tmc.branch2_backward G I o
      = tm.accumulate2_forward (multiplyBackward G (copyHalfSpinor I)) o) ∧
    (tmc.branch3_forward TPROJSCALE gauge_fixed ga_idx X4X3X2X1hmX3X2X1h G I o
      = tm.accumulate3_backward
          (if gauge_fixed && decide (ga_idx < X4X3X2X1hmX3X2X1h)
           then identityGauge (tmc.temporalHalfSpinor TPROJSCALE I)
           else multiplyForward G (tmc.temporalHalfSpinor TPROJSCALE I)) o) ∧
    (tmc.branch3_backward TPROJSCALE gauge_fixed ga_idx X4X3X2X1hmX3X2X1h G I o
      = tm.accumulate3_forward
          (if gauge_fixed && decide (ga_idx < X4X3X2X1hmX3X2X1h)
           then identityGauge (tmc.temporalHalfSpinor TPROJSCALE I)
           else multiplyBackward G (tmc.temporalHalfSpinor TPROJSCALE I)) o) ∧
    (tm.projector0_forward + tmc.projector0_forward = 2 • (1 : Matrix (Fin 4) (Fin 4) ℂ)) ∧
    (tm.projector0_backward + tmc.projector0_backward = 2 • (1 : Matrix (Fin 4) (Fin 4) ℂ)) ∧
    (tm.projector1_forward + tmc.projector1_forward = 2 • (1 : Matrix (Fin 4) (Fin 4) ℂ)) ∧
    (tm.projector1_backward + tmc.projector1_backward = 2 • (1 : Matrix (Fin 4) (Fin 4) ℂ)) ∧
    (tm.projector2_forward + tmc.projector2_forward = 2 • (1 : Matrix (Fin 4) (Fin 4) ℂ)) ∧
    (tm.projector2_backward + tmc.projector2_backward = 2 • (1 : Matrix (Fin 4) (Fin 4) ℂ)) ∧
    (tm.projector3_forward + tmc.projector3_forward = 2 • (1 : Matrix (Fin 4) (Fin 4) ℂ)) ∧
    (tm.projector3_backward + tmc.projector3_backward = 2 • (1 : Matrix (Fin 4) (Fin 4) ℂ)) := by
  refine ⟨rfl, rfl, rfl, rfl, rfl, rfl, rfl, rfl, rfl, rfl, rfl, rfl, rfl, rfl, ?_, ?_, ?_, ?_, ?_, ?_, ?_, ?_, ?_, ?_⟩
  · simp only [tmc.branch3_forward]
    split <;> rfl
  · simp only [tmc.branch3_backward]
    split <;> rfl
  · ext i j
    fin_cases i <;> fin_cases j <;>
      simp [tm.projector0_forward, tmc.projector0_forward, Matrix.one_apply] <;> norm_num
  · ext i j
    fin_cases i <;> fin_cases j <;>
      simp [tm.projector0_backward, tmc.projector0_backward, Matrix.one_apply] <;> norm_num
  · ext i j
    fin_cases i <;> fin_cases j <;>
      simp [tm.projector1_forward, tmc.projector1_forward, Matrix.one_apply] <;> norm_num
  · ext i j
    fin_cases i <;> fin_cases j <;>
      simp [tm.projector1_backward, tmc.projector1_backward, Matrix.one_apply] <;> norm_num
  · ext i j
    fin_cases i <;> fin_cases j <;>
      simp [tm.projector2_forward, tmc.projector2_forward, Matrix.one_apply] <;> norm_num
  · ext i j
    fin_cases i <;> fin_cases j <;>
      simp [tm.projector2_backward, tmc.projector2_backward, Matrix.one_apply] <;> norm_num
  · ext i j
    fin_cases i <;> fin_cases j <;>
      simp [tm.projector3_forward, tmc.projector3_forward, Matrix.one_apply, Matrix.vecHead,
        Matrix.vecTail]
  · ext i j
    fin_cases i <;> fin_cases j <;>
      simp [tm.projector3_backward, tmc.projector3_backward, Matrix.one_apply, Matrix.vecHead,
        Matrix.vecTail]

theorem multiplyForward_identity {R : Type} [Ring R] (h : HalfSpinor R) :
    multiplyForward Link.identity h = identityGauge h := by
  simp [multiplyForward, identityGauge, Link.identity]

theorem multiplyBackward_identity {R : Type} [Ring R] (h : HalfSpinor R) :
    multiplyBackward Link.identity h = identityGauge h := by
  simp [multiplyBackward, identityGauge, Link.identity,
    Link.gT00_re, Link.gT00_im, Link.gT01_re, Link.gT01_im, Link.gT02_re, Link.gT02_im,
    Link.gT10_re, Link.gT10_im, Link.gT11_re, Link.gT11_im, Link.gT12_re, Link.gT12_im,
    Link.gT20_re, Link.gT20_im, Link.gT21_re, Link.gT21_im, Link.gT22_re, Link.gT22_im]

/-- C20: in the temporal branches of both kernels, when `gauge_fixed` holds and
`ga_idx < X4X3X2X1hmX3X2X1h`, the branch (which then runs its `identity gauge matrix`
part and reads no link) yields the output that its general part yields when the link
it reads is the 3x3 identity, for every half spinor and every output spinor. -/
theorem temporal_shortcut_is_identity_link {R : Type} [Ring R] (TWIST_INV_DSLASH : Bool)
    (TPROJSCALE : Int) (gauge_fixed : Bool) (ga_idx X4X3X2X1hmX3X2X1h : Int) (G : Link R)
    (I : HalfSpinorRegs R) (o : Spinor R) (hfixed : gauge_fixed = true)
    (hidx : ga_idx < X4X3X2X1hmX3X2X1h) :
    tm.branch3_forward TWIST_INV_DSLASH gauge_fixed ga_idx X4X3X2X1hmX3X2X1h G I o
      = tm.branch3_forward TWIST_INV_DSLASH false ga_idx X4X3X2X1hmX3X2X1h Link.identity I o ∧
    tm.branch3_backward TWIST_INV_DSLASH gauge_fixed ga_idx X4X3X2X1hmX3X2X1h G I o
      = tm.branch3_backward TWIST_INV_DSLASH false ga_idx X4X3X2X1hmX3X2X1h Link.identity I o ∧
    tmc.branch3_forward TPROJSCALE gauge_fixed ga_idx X4X3X2X1hmX3X2X1h G I o
      = tmc.branch3_forward TPROJSCALE false ga_idx X4X3X2X1hmX3X2X1h Link.identity I o ∧
    tmc.branch3_backward TPROJSCALE gauge_fixed ga_idx X4X3X2X1hmX3X2X1h G I o
      = tmc.branch3_backward TPROJSCALE false ga_idx X4X3X2X1hmX3X2X1h Link.identity I o := by
  subst hfixed
  refine ⟨?_, ?_, ?_, ?_⟩
  · simp only [tm.branch3_forward, hidx, decide_True, Bool.and_self, if_true, Bool.false_and,
      multiplyForward_identity]
    rfl
  · simp only [tm.branch3_backward, hidx, decide_True, Bool.and_self, if_true, Bool.false_and,
      multiplyBackward_identity]
    rfl
  · simp only [tmc.branch3_forward, hidx, decide_True, Bool.and_self, if_true, Bool.false_and,
      multiplyForward_identity]
    rfl
  · simp only [tmc.branch3_backward, hidx, decide_True, Bool.and_self, if_true,
      Bool.false_and, multiplyBackward_identity]
    rfl

theorem temporal_shortcut_is_identity_link_witness :
    (true = true ∧ (3 : Int) < 8) ∧
    tm.branch3_forward false true 3 8 sampleLink sampleHalfSpinorRegs (Spinor.const 5)
      = tm.branch3_forward false false 3 8 (Link.identity : Link ℤ) sampleHalfSpinorRegs
        (Spinor.const 5) :=
  ⟨⟨rfl, by decide⟩,
   (temporal_shortcut_is_identity_link false 2 true 3 8 sampleLink sampleHalfSpinorRegs
      (Spinor.const 5) rfl (by decide)).1⟩

/-! ### The branches add their terms of the boundary sum -/

theorem colourMul_eq_mulVec (U : Matrix (Fin 3) (Fin 3) ℂ) (v : Fin 3 → ℂ) :
    colourMul U v = U.mulVec v := by
  ext i
  simp [colourMul, Matrix.mulVec, Matrix.dotProduct, Fin.sum_univ_three]

theorem spinMul_eq_mulVec (P : Matrix (Fin 4) (Fin 4) ℂ) (x : Fin 4 → ℂ) :
    spinMul P x = P.mulVec x := by
  ext s
  simp [spinMul, Matrix.mulVec, Matrix.dotProduct, Fin.sum_univ_four]

theorem conjTransposed_eq_conjTranspose (U : Matrix (Fin 3) (Fin 3) ℂ) :
    conjTransposed U = U.conjTranspose := by
  ext i j
  apply Complex.ext <;> simp [conjTransposed]

theorem addsProjected_apply {P : Matrix (Fin 4) (Fin 4) ℂ}
    {W : Link ℝ → Matrix (Fin 3) (Fin 3) ℂ}
    {branch : Link ℝ → HalfSpinorRegs ℝ → Spinor ℝ → Spinor ℝ} (h : AddsProjected P W branch)
    (G : Link ℝ) (I : HalfSpinorRegs ℝ) (o : Spinor ℝ) (s : Fin 4) (col : Fin 3) :
    (branch G I o).toComplex s col
      = o.toComplex s col
        + spinMul P ![colourMul (W G) I.upper col, colourMul (W G) I.lower col, 0, 0] s := by
  have e := congrFun (h G I o col) s
  rw [spinMul_eq_mulVec, colourMul_eq_mulVec, colourMul_eq_mulVec, ← e]
  ring

theorem tmc_accumulate3_forward_complex (L : LinkedHalfSpinor ℝ) (o : Spinor ℝ) :
    (tmc.accumulate3_forward L o).toComplex
      = fun s c => o.toComplex s c + (![L.A c, L.B c, 0, 0] : Fin 4 → ℂ) s := by
  simp only [tmc.accumulate3_forward, Spinor.toComplex, LinkedHalfSpinor.A,
    LinkedHalfSpinor.B]
  ext s c
  fin_cases s <;> fin_cases c <;> apply Complex.ext <;> simp

theorem tmc_accumulate3_backward_complex (L : LinkedHalfSpinor ℝ) (o : Spinor ℝ) :
    (tmc.accumulate3_backward L o).toComplex
      = fun s c => o.toComplex s c + (![0, 0, L.A c, L.B c] : Fin 4 → ℂ) s := by
  simp only [tmc.accumulate3_backward, Spinor.toComplex, LinkedHalfSpinor.A,
    LinkedHalfSpinor.B]
  ext s c
  fin_cases s <;> fin_cases c <;> apply Complex.ext <;> simp

theorem tmc_temporalHalfSpinor_a (P : Int) (I : HalfSpinorRegs ℝ) :
    (tmc.temporalHalfSpinor P I).a = (P : ℂ) • I.upper := by
  ext c
  fin_cases c <;> apply Complex.ext <;>
    simp [tmc.temporalHalfSpinor, HalfSpinor.a, HalfSpinorRegs.upper]

theorem tmc_temporalHalfSpinor_b (P : Int) (I : HalfSpinorRegs ℝ) :
    (tmc.temporalHalfSpinor P I).b = (P : ℂ) • I.lower := by
  ext c
  fin_cases c <;> apply Complex.ext <;>
    simp [tmc.temporalHalfSpinor, HalfSpinor.b, HalfSpinorRegs.lower]

theorem identityGauge_A (h : HalfSpinor ℝ) : (identityGauge h).A = h.a := rfl

theorem identityGauge_B (h : HalfSpinor ℝ) : (identityGauge h).B = h.b := rfl

theorem tm_branchBody_complex (TWIST_INV_DSLASH : Bool) (E : KernelContext ℝ) (c : Site)
    (k : Branch) (r : Registers ℝ) :
    (tm.branchBody TWIST_INV_DSLASH E c k r).o.toComplex
      = r.o.toComplex + tm.hopTerm TWIST_INV_DSLASH E c k r.face_idx := by
  funext s col
  cases k
  case forward0 => exact addsProjected_apply tm_branch0_forward_addsProjected _ _ _ s col
  case forward1 => exact addsProjected_apply tm_branch1_forward_addsProjected _ _ _ s col
  case forward2 => exact addsProjected_apply tm_branch2_forward_addsProjected _ _ _ s col
  case backward0 =>
    have h := addsProjected_apply tm_branch0_backward_addsProjected
      (Branch.read E c .backward0 r.face_idx).G (Branch.read E c .backward0 r.face_idx).I r.o
      s col
    simp only [← conjTransposed_eq_conjTranspose] at h
    exact h
  case backward1 =>
    have h := addsProjected_apply tm_branch1_backward_addsProjected
      (Branch.read E c .backward1 r.face_idx).G (Branch.read E c .backward1 r.face_idx).I r.o
      s col
    simp only [← conjTransposed_eq_conjTranspose] at h
    exact h
  case backward2 =>
    have h := addsProjected_apply tm_branch2_backward_addsProjected
      (Branch.read E c .backward2 r.face_idx).G (Branch.read E c .backward2 r.face_idx).I r.o
      s col
    simp only [← conjTransposed_eq_conjTranspose] at h
    exact h
  case forward3 =>
    simp only [tm.branchBody, tm.hopTerm, tm.branch3_forward, Pi.add_apply]
    cases TWIST_INV_DSLASH <;>
      simp only [Bool.false_eq_true, if_true, if_false] <;>
      split_ifs <;>
      simp only [tm_accumulate3_forward_complex, identityGauge_A, identityGauge_B,
        multiplyForward_A, multiplyForward_B, tm_temporalHalfSpinor_a,
        tm_temporalHalfSpinor_b, Matrix.mulVec_smul, colourMul_eq_mulVec,
        Bool.false_eq_true, if_true, if_false] <;>
      fin_cases s <;> simp
  case backward3 =>
    simp only [tm.branchBody, tm.hopTerm, tm.branch3_backward, Pi.add_apply]
    cases TWIST_INV_DSLASH <;>
      simp only [Bool.false_eq_true, if_true, if_false] <;>
      split_ifs <;>
      simp only [tm_accumulate3_backward_complex, identityGauge_A, identityGauge_B,
        multiplyBackward_A, multiplyBackward_B, tm_temporalHalfSpinor_a,
        tm_temporalHalfSpinor_b, Matrix.mulVec_smul, colourMul_eq_mulVec,
        conjTransposed_eq_conjTranspose, Bool.false_eq_true, if_true, if_false] <;>
      fin_cases s <;> simp

theorem tmc_branchBody_complex (TPROJSCALE : Int) (E : KernelContext ℝ) (c : Site)
    (k : Branch) (r : Registers ℝ) :
    (tmc.branchBody TPROJSCALE E c k r).o.toComplex
      = r.o.toComplex + tmc.hopTerm TPROJSCALE E c k r.face_idx := by
  funext s col
  cases k
  case forward0 => exact addsProjected_apply tmc_branch0_forward_addsProjected _ _ _ s col
  case forward1 => exact addsProjected_apply tmc_branch1_forward_addsProjected _ _ _ s col
  case forward2 => exact addsProjected_apply tmc_branch2_forward_addsProjected _ _ _ s col
  case backward0 =>
    have h := addsProjected_apply tmc_branch0_backward_addsProjected
      (Branch.read E c .backward0 r.face_idx).G (Branch.read E c .backward0 r.face_idx).I r.o
      s col
    simp only [← conjTransposed_eq_conjTranspose] at h
    exact h
  case backward1 =>
    have h := addsProjected_apply tmc_branch1_backward_addsProjected
      (Branch.read E c .backward1 r.face_idx).G (Branch.read E c .backward1 r.face_idx).I r.o
      s col
    simp only [← conjTransposed_eq_conjTranspose] at h
    exact h
  case backward2 =>
    have h := addsProjected_apply tmc_branch2_backward_addsProjected
      (Branch.read E c .backward2 r.face_idx).G (Branch.read E c .backward2 r.face_idx).I r.o
      s col
    simp only [← conjTransposed_eq_conjTranspose] at h
    exact h
  case forward3 =>
    simp only [tmc.branchBody, tmc.hopTerm, tmc.branch3_forward, Pi.add_apply]
    split_ifs <;>
      simp only [tmc_accumulate3_forward_complex, identityGauge_A, identityGauge_B,
        multiplyForward_A, multiplyForward_B, tmc_temporalHalfSpinor_a,
        tmc_temporalHalfSpinor_b, Matrix.mulVec_smul, colourMul_eq_mulVec] <;>
      fin_cases s <;> simp
  case backward3 =>
    simp only [tmc.branchBody, tmc.hopTerm, tmc.branch3_backward, Pi.add_apply]
    split_ifs <;>
      simp only [tmc_accumulate3_backward_complex, identityGauge_A, identityGauge_B,
        multiplyBackward_A, multiplyBackward_B, tmc_temporalHalfSpinor_a,
        tmc_temporalHalfSpinor_b, Matrix.mulVec_smul, colourMul_eq_mulVec,
        conjTransposed_eq_conjTranspose] <;>
      fin_cases s <;> simp

theorem tm_foldl_branchIf_complex (TWIST_INV_DSLASH : Bool) (E : KernelContext ℝ) (c : Site)
    (l : List Branch) (r : Registers ℝ) :
    (l.foldl (tm.branchIf TWIST_INV_DSLASH E c) r).o.toComplex
      = r.o.toComplex + (tm.hopTerms TWIST_INV_DSLASH E c l r.face_idx).sum := by
  induction l generalizing r with
  | nil => simp [tm.hopTerms]
  | cons k l ih =>
    rw [List.foldl_cons, ih]
    by_cases h : Branch.condition E c k = true
    · simp only [tm.branchIf, tm.hopTerms, h, if_true, tm_branchBody_complex,
        List.sum_cons, add_assoc]
      rfl
    · simp only [tm.branchIf, tm.hopTerms, h, if_false, Bool.false_eq_true]

theorem tm_hopTerms_length (TWIST_INV_DSLASH : Bool) (E : KernelContext ℝ) (c : Site)
    (l : List Branch) (face_idx : Int) :
    (tm.hopTerms TWIST_INV_DSLASH E c l face_idx).length
      = (l.filter (Branch.condition E c)).length := by
  induction l generalizing face_idx with
  | nil => rfl
  | cons k l ih =>
    by_cases h : Branch.condition E c k = true
    · simp [tm.hopTerms, h, ih]
    · simp [tm.hopTerms, h, ih]

theorem tm_branches_eq_foldl {R : Type} [Ring R] (TWIST_INV_DSLASH : Bool) (E : KernelContext R)
    (c : Site) (r : Registers R) :
    tm.branches TWIST_INV_DSLASH E c r = Branch.all.foldl (tm.branchIf TWIST_INV_DSLASH E c) r := rfl

theorem tm_branches_of_no_condition {R : Type} [Ring R] (TWIST_INV_DSLASH : Bool)
    (E : KernelContext R) (c : Site) (hnone : ∀ k, Branch.condition E c k = false)
    (r : Registers R) : tm.branches TWIST_INV_DSLASH E c r = r := by
  simp [tm.branches, tm.branchIf, hnone]

theorem tmc_foldl_branchIf_complex (TPROJSCALE : Int) (E : KernelContext ℝ) (c : Site)
    (l : List Branch) (r : Registers ℝ) :
    (l.foldl (tmc.branchIf TPROJSCALE E c) r).o.toComplex
      = r.o.toComplex + (tmc.hopTerms TPROJSCALE E c l r.face_idx).sum := by
  induction l generalizing r with
  | nil => simp [tmc.hopTerms]
  | cons k l ih =>
    rw [List.foldl_cons, ih]
    by_cases h : Branch.condition E c k = true
    · simp only [tmc.branchIf, tmc.hopTerms, h, if_true, tmc_branchBody_complex,
        List.sum_cons, add_assoc]
      rfl
    · simp only [tmc.branchIf, tmc.hopTerms, h, if_false, Bool.false_eq_true]

theorem tmc_hopTerms_length (TPROJSCALE : Int) (E : KernelContext ℝ) (c : Site)
    (l : List Branch) (face_idx : Int) :
    (tmc.hopTerms TPROJSCALE E c l face_idx).length
      = (l.filter (Branch.condition E c)).length := by
  induction l generalizing face_idx with
  | nil => rfl
  | cons k l ih =>
    by_cases h : Branch.condition E c k = true
    · simp [tmc.hopTerms, h, ih]
    · simp [tmc.hopTerms, h, ih]

theorem tmc_branches_eq_foldl {R : Type} [Ring R] (TPROJSCALE : Int) (E : KernelContext R)
    (c : Site) (r : Registers R) :
    tmc.branches TPROJSCALE E c r = Branch.all.foldl (tmc.branchIf TPROJSCALE E c) r := rfl

theorem tmc_branches_of_no_condition {R : Type} [Ring R] (TPROJSCALE : Int)
    (E : KernelContext R) (c : Site) (hnone : ∀ k, Branch.condition E c k = false)
    (r : Registers R) : tmc.branches TPROJSCALE E c r = r := by
  simp [tmc.branches, tmc.branchIf, hnone]

/-! ### The spinor before the final stage -/

/-- C21: in both exterior kernels, in exact arithmetic (real registers).  The output
spinor after the eight branches is, as complex numbers, the spinor held before them
plus the sum of the terms of exactly those branches whose condition holds (as many
terms as conditions that hold), the term of a branch being the projector commented in
it applied to the link-multiplied half spinor it reads (`tm.hopTerm`, `tmc.hopTerm`).
For a thread that passes both tests of the prologue the spinor held before the
branches is the intermediate spinor read at `sid`, and the kernel stores at `sid` the
final stage applied to the spinor held after them.  When no condition holds, in a build
without `DSLASH_XPAY` and with `TWIST_INV_DSLASH` (`tm`) or `CLOVER_TWIST_INV_DSLASH`
(`tmc`), which has no twist-inverse step, the kernel stores the intermediate spinor
unchanged. -/
theorem hopping_is_intermediate_plus_active_contributions (TWIST_INV_DSLASH : Bool)
    (TPROJSCALE : Int) (E : KernelContext ℝ) :
    (∀ (c : Site) (r : Registers ℝ),
      (tm.branches TWIST_INV_DSLASH E c r).o.toComplex
        = r.o.toComplex + (tm.hopTerms TWIST_INV_DSLASH E c Branch.all r.face_idx).sum ∧
      (tmc.branches TPROJSCALE E c r).o.toComplex
        = r.o.toComplex + (tmc.hopTerms TPROJSCALE E c Branch.all r.face_idx).sum ∧
      (tm.hopTerms TWIST_INV_DSLASH E c Branch.all r.face_idx).length
        = (Branch.all.filter (Branch.condition E c)).length ∧
      (tmc.hopTerms TPROJSCALE E c Branch.all r.face_idx).length
        = (Branch.all.filter (Branch.condition E c)).length) ∧
    (∀ (blockIdx_x blockDim_x threadIdx_x : Nat),
      threadIndex blockIdx_x blockDim_x threadIdx_x < E.threads →
      active E (locateSite E (threadIndex blockIdx_x blockDim_x threadIdx_x)) = true →
      (∀ (DSLASH_XPAY TWIST_XPAY : Bool) (APPLY_TWIST_INV : ℝ → ℝ → Spinor ℝ → Spinor ℝ)
          (APPLY_TWIST : ℝ → Spinor ℝ → Spinor ℝ) (a b : ℝ),
        tm.kernel DSLASH_XPAY TWIST_XPAY TWIST_INV_DSLASH APPLY_TWIST_INV APPLY_TWIST a b E
            blockIdx_x blockDim_x threadIdx_x
          = some ((locateSite E (threadIndex blockIdx_x blockDim_x threadIdx_x)).sid,
              tm.finalStage DSLASH_XPAY TWIST_XPAY TWIST_INV_DSLASH APPLY_TWIST_INV
                APPLY_TWIST a b
                (E.READ_ACCUM (locateSite E (threadIndex blockIdx_x blockDim_x threadIdx_x)).sid)
                (tm.branches TWIST_INV_DSLASH E
                  (locateSite E (threadIndex blockIdx_x blockDim_x threadIdx_x))
                  { face_idx :=
                      (locateSite E (threadIndex blockIdx_x blockDim_x threadIdx_x)).face_idx,
                    o := E.READ_INTERMEDIATE_SPINOR
                      (locateSite E (threadIndex blockIdx_x blockDim_x threadIdx_x)).sid }).o)) ∧
      (∀ (DSLASH_XPAY CLOVER_TWIST_INV_DSLASH CLOVER_TWIST_XPAY DYNAMIC_CLOVER : Bool)
          (APPLY_CLOVER_TWIST_INV APPLY_CLOVER_TWIST_DYN_INV APPLY_CLOVER_TWIST :
            ℝ → Spinor ℝ → Spinor ℝ) (a b : ℝ),
        tmc.kernel DSLASH_XPAY CLOVER_TWIST_INV_DSLASH CLOVER_TWIST_XPAY DYNAMIC_CLOVER
            TPROJSCALE APPLY_CLOVER_TWIST_INV APPLY_CLOVER_TWIST_DYN_INV APPLY_CLOVER_TWIST
            a b E blockIdx_x blockDim_x threadIdx_x
          = some ((locateSite E (threadIndex blockIdx_x blockDim_x threadIdx_x)).sid,
              tmc.finalStage DSLASH_XPAY CLOVER_TWIST_INV_DSLASH CLOVER_TWIST_XPAY
                DYNAMIC_CLOVER APPLY_CLOVER_TWIST_INV APPLY_CLOVER_TWIST_DYN_INV
                APPLY_CLOVER_TWIST a b
                (E.READ_ACCUM (locateSite E (threadIndex blockIdx_x blockDim_x threadIdx_x)).sid)
                (tmc.branches TPROJSCALE E
                  (locateSite E (threadIndex blockIdx_x blockDim_x threadIdx_x))
                  { face_idx :=
                      (locateSite E (threadIndex blockIdx_x blockDim_x threadIdx_x)).face_idx,
                    o := E.READ_INTERMEDIATE_SPINOR
                      (locateSite E (threadIndex blockIdx_x blockDim_x threadIdx_x)).sid }).o)) ∧
      ((∀ k, Branch.condition E
            (locateSite E (threadIndex blockIdx_x blockDim_x threadIdx_x)) k = false) →
        (∀ (TWIST_XPAY : Bool) (APPLY_TWIST_INV : ℝ → ℝ → Spinor ℝ → Spinor ℝ)
            (APPLY_TWIST : ℝ → Spinor ℝ → Spinor ℝ) (a b : ℝ),
          tm.kernel false TWIST_XPAY true APPLY_TWIST_INV APPLY_TWIST a b E
              blockIdx_x blockDim_x threadIdx_x
            = some ((locateSite E (threadIndex blockIdx_x blockDim_x threadIdx_x)).sid,
                E.READ_INTERMEDIATE_SPINOR
                  (locateSite E (threadIndex blockIdx_x blockDim_x threadIdx_x)).sid)) ∧
        (∀ (CLOVER_TWIST_XPAY DYNAMIC_CLOVER : Bool)
            (APPLY_CLOVER_TWIST_INV APPLY_CLOVER_TWIST_DYN_INV APPLY_CLOVER_TWIST :
              ℝ → Spinor ℝ → Spinor ℝ) (a b : ℝ),
          tmc.kernel false true CLOVER_TWIST_XPAY DYNAMIC_CLOVER TPROJSCALE
              APPLY_CLOVER_TWIST_INV APPLY_CLOVER_TWIST_DYN_INV APPLY_CLOVER_TWIST a b E
              blockIdx_x blockDim_x threadIdx_x
            = some ((locateSite E (threadIndex blockIdx_x blockDim_x threadIdx_x)).sid,
                E.READ_INTERMEDIATE_SPINOR
                  (locateSite E (threadIndex blockIdx_x blockDim_x threadIdx_x)).sid)))) := by
  refine ⟨fun c r => ⟨?_, ?_, ?_, ?_⟩, ?_⟩
  · rw [tm_branches_eq_foldl, tm_foldl_branchIf_complex]
  · rw [tmc_branches_eq_foldl, tmc_foldl_branchIf_complex]
  · exact tm_hopTerms_length _ _ _ _ _
  · exact tmc_hopTerms_length _ _ _ _ _
  · intro blockIdx_x blockDim_x threadIdx_x hguard hactive
    have hg : ¬ threadIndex blockIdx_x blockDim_x threadIdx_x ≥ E.threads := not_le.mpr hguard
    have htm : ∀ (DSLASH_XPAY TWIST_XPAY T : Bool)
        (APPLY_TWIST_INV : ℝ → ℝ → Spinor ℝ → Spinor ℝ)
        (APPLY_TWIST : ℝ → Spinor ℝ → Spinor ℝ) (a b : ℝ),
        tm.kernel DSLASH_XPAY TWIST_XPAY T APPLY_TWIST_INV APPLY_TWIST a b E
            blockIdx_x blockDim_x threadIdx_x
          = some ((locateSite E (threadIndex blockIdx_x blockDim_x threadIdx_x)).sid,
              tm.finalStage DSLASH_XPAY TWIST_XPAY T APPLY_TWIST_INV APPLY_TWIST a b
                (E.READ_ACCUM (locateSite E (threadIndex blockIdx_x blockDim_x threadIdx_x)).sid)
                (tm.branches T E
                  (locateSite E (threadIndex blockIdx_x blockDim_x threadIdx_x))
                  { face_idx :=
                      (locateSite E (threadIndex blockIdx_x blockDim_x threadIdx_x)).face_idx,
                    o := E.READ_INTERMEDIATE_SPINOR
                      (locateSite E (threadIndex blockIdx_x blockDim_x threadIdx_x)).sid }).o) := by
      intro DSLASH_XPAY TWIST_XPAY T APPLY_TWIST_INV APPLY_TWIST a b
      simp only [tm.kernel, hg, if_false, hactive, Bool.not_true, Bool.false_eq_true]
    have htmc : ∀ (DSLASH_XPAY CLOVER_TWIST_INV_DSLASH CLOVER_TWIST_XPAY DYNAMIC_CLOVER : Bool)
        (APPLY_CLOVER_TWIST_INV APPLY_CLOVER_TWIST_DYN_INV APPLY_CLOVER_TWIST :
          ℝ → Spinor ℝ → Spinor ℝ) (a b : ℝ),
        tmc.kernel DSLASH_XPAY CLOVER_TWIST_INV_DSLASH CLOVER_TWIST_XPAY DYNAMIC_CLOVER
            TPROJSCALE APPLY_CLOVER_TWIST_INV APPLY_CLOVER_TWIST_DYN_INV APPLY_CLOVER_TWIST
            a b E blockIdx_x blockDim_x threadIdx_x
          = some ((locateSite E (threadIndex blockIdx_x blockDim_x threadIdx_x)).sid,
              tmc.finalStage DSLASH_XPAY CLOVER_TWIST_INV_DSLASH CLOVER_TWIST_XPAY
                DYNAMIC_CLOVER APPLY_CLOVER_TWIST_INV APPLY_CLOVER_TWIST_DYN_INV
                APPLY_CLOVER_TWIST a b
                (E.READ_ACCUM (locateSite E (threadIndex blockIdx_x blockDim_x threadIdx_x)).sid)
                (tmc.branches TPROJSCALE E
                  (locateSite E (threadIndex blockIdx_x blockDim_x threadIdx_x))
                  { face_idx :=
                      (locateSite E (threadIndex blockIdx_x blockDim_x threadIdx_x)).face_idx,
                    o := E.READ_INTERMEDIATE_SPINOR
                      (locateSite E (threadIndex blockIdx_x blockDim_x threadIdx_x)).sid }).o) := by
      intro DSLASH_XPAY CLOVER_TWIST_INV_DSLASH CLOVER_TWIST_XPAY DYNAMIC_CLOVER
        APPLY_CLOVER_TWIST_INV APPLY_CLOVER_TWIST_DYN_INV APPLY_CLOVER_TWIST a b
      simp only [tmc.kernel, hg, if_false, hactive, Bool.not_true, Bool.false_eq_true]
    refine ⟨fun X1 X2 => htm X1 X2 TWIST_INV_DSLASH, htmc, fun hnone => ⟨?_, ?_⟩⟩
    · intro TWIST_XPAY APPLY_TWIST_INV APPLY_TWIST a b
      rw [htm, tm_branches_of_no_condition true E _ hnone]
      rfl
    · intro CLOVER_TWIST_XPAY DYNAMIC_CLOVER APPLY_CLOVER_TWIST_INV
        APPLY_CLOVER_TWIST_DYN_INV APPLY_CLOVER_TWIST a b
      rw [htmc, tmc_branches_of_no_condition TPROJSCALE E _ hnone]
      rfl

theorem hopping_is_intermediate_plus_active_contributions_witness :
    (threadIndex 0 4 3 < sampleRealContext.threads ∧
      active sampleRealContext (locateSite sampleRealContext (threadIndex 0 4 3)) = true ∧
      Branch.all.filter
          (Branch.condition sampleRealContext (locateSite sampleRealContext (threadIndex 0 4 3)))
        = [.forward0]) ∧
    (tm.branches false sampleRealContext (locateSite sampleRealContext (threadIndex 0 4 3))
        { face_idx := (locateSite sampleRealContext (threadIndex 0 4 3)).face_idx,
          o := sampleRealContext.READ_INTERMEDIATE_SPINOR
            (locateSite sampleRealContext (threadIndex 0 4 3)).sid }).o.toComplex
      = (Spinor.const (3 : ℝ)).toComplex
        + tm.hopTerm false sampleRealContext (locateSite sampleRealContext (threadIndex 0 4 3))
            .forward0 1 ∧
    tm.hopTerm false sampleRealContext (locateSite sampleRealContext (threadIndex 0 4 3))
        .forward0 1 0 0 = ⟨2, 1⟩ ∧
    tm.hopTerm false sampleRealContext (locateSite sampleRealContext (threadIndex 0 4 3))
        .forward0 1 3 0 = ⟨-1, 2⟩ ∧
    tm.kernel false false false (fun _ _ o => o) (fun _ o => o) (2 : ℝ) 3 sampleRealContext
        0 4 3
      = some ((locateSite sampleRealContext (threadIndex 0 4 3)).sid,
          (tm.branches false sampleRealContext
            (locateSite sampleRealContext (threadIndex 0 4 3))
            { face_idx := (locateSite sampleRealContext (threadIndex 0 4 3)).face_idx,
              o := sampleRealContext.READ_INTERMEDIATE_SPINOR
                (locateSite sampleRealContext (threadIndex 0 4 3)).sid }).o) ∧
    (threadIndex 0 4 1 < sampleRealContext.threads ∧
      active sampleRealContext (locateSite sampleRealContext (threadIndex 0 4 1)) = true ∧
      ∀ k, Branch.condition sampleRealContext
        (locateSite sampleRealContext (threadIndex 0 4 1)) k = false) ∧
    tm.kernel false false true (fun _ _ o => o) (fun _ o => o) (2 : ℝ) 3 sampleRealContext
        0 4 1
      = some ((locateSite sampleRealContext (threadIndex 0 4 1)).sid,
          sampleRealContext.READ_INTERMEDIATE_SPINOR
            (locateSite sampleRealContext (threadIndex 0 4 1)).sid) := by
  have hsite : locateSite sampleRealContext (threadIndex 0 4 3)
      = { sid := 3, dim := 0, X := 3, x1 := 3, x2 := 1, x3 := 1, x4 := 1, face_idx := 1 } := by
    rfl
  refine ⟨⟨by decide, by decide, by decide⟩, ?_, ?_, ?_, ?_,
    ⟨by decide, by decide, by decide⟩, ?_⟩
  · have h := ((hopping_is_intermediate_plus_active_contributions false 2
      sampleRealContext).1 (locateSite sampleRealContext (threadIndex 0 4 3))
        { face_idx := (locateSite sampleRealContext (threadIndex 0 4 3)).face_idx,
          o := sampleRealContext.READ_INTERMEDIATE_SPINOR
            (locateSite sampleRealContext (threadIndex 0 4 3)).sid }).1
    rw [h, hsite]
    simp [tm.hopTerms, Branch.all, Branch.condition, sampleRealContext, Branch.read]
  · rw [hsite]
    apply Complex.ext <;>
      simp [tm.hopTerm, Branch.read, sampleRealContext, spinMul, colourMul,
        tm.projector0_forward, Link.toMatrix, HalfSpinorRegs.upper, HalfSpinorRegs.lower]
  · rw [hsite]
    apply Complex.ext <;>
      simp [tm.hopTerm, Branch.read, sampleRealContext, spinMul, colourMul,
        tm.projector0_forward, Link.toMatrix, HalfSpinorRegs.upper, HalfSpinorRegs.lower]
  · exact (((hopping_is_intermediate_plus_active_contributions false 2
      sampleRealContext).2 0 4 3 (by decide) (by decide)).1 false false
        (fun _ _ o => o) (fun _ o => o) 2 3)
  · exact (((hopping_is_intermediate_plus_active_contributions false 2
      sampleRealContext).2 0 4 1 (by decide) (by decide)).2.2 (by decide)).1 false
        (fun _ _ o => o) (fun _ o => o) 2 3

/-! ### The early returns -/

/-- C22, as stated, fails for a thread stopped by `if (sid >= param.threads) return;`:
in the sample context with `param.threads = 3`, whose `isActive` does not depend on the
offset, thread 3 returns at that test and stores nothing, yet at the `dim` and the
coordinates that the statements after the test compute for it the condition of the
first branch, `isActive(dim,0,+1,…) && x1==X1m1`, holds; with `param.threads = 8` the
same thread runs that branch and stores a spinor. -/
theorem guard_stopped_thread_counterexample :
    paddedContext.threads ≤ threadIndex 0 4 3 ∧
    tm.kernel false false true (fun _ _ o => o) (fun _ o => o) (2 : ℤ) 3 paddedContext 0 4 3
      = none ∧
    (∀ dim dir x1 x2 x3 x4 : Int,
      paddedContext.isActive dim dir 1 x1 x2 x3 x4
        = paddedContext.isActive dim dir (-1) x1 x2 x3 x4) ∧
    Branch.condition paddedContext (locateSite paddedContext (threadIndex 0 4 3)) .forward0
      = true ∧
    (tm.kernel false false true (fun _ _ o => o) (fun _ o => o) (2 : ℤ) 3 sampleContext 0 4 3
      ).isSome = true :=
  ⟨by decide, rfl, fun _ _ _ _ _ _ => rfl, by decide, by decide⟩

/-- C22, amended: in both exterior kernels and every build, a thread that returns at
`if (sid >= param.threads) return;`, or at `if(!active) return;` because
`isActive(dim,dir,+1,…)` is false for the four directions, stores no spinor; and a
thread for which `isActive(dim,dir,+1,…)` is false for the four directions and, at its
coordinates, `isActive` gives the same answer for the offsets `+1` and `-1`, satisfies
none of the eight conditions of the branches, so the return at `if(!active)` skips no
branch.  Nothing of the kind holds of a thread stopped by the first test alone, which
has computed neither `dim` nor the coordinates in which the conditions are written. -/
theorem early_return_stores_nothing_and_skips_no_branch {R : Type} [Ring R]
    (E : KernelContext R) (blockIdx_x blockDim_x threadIdx_x : Nat) :
    ((E.threads ≤ threadIndex blockIdx_x blockDim_x threadIdx_x ∨
        ∀ dir ∈ [(0 : Int), 1, 2, 3],
          E.isActive (locateSite E (threadIndex blockIdx_x blockDim_x threadIdx_x)).dim dir 1
            (locateSite E (threadIndex blockIdx_x blockDim_x threadIdx_x)).x1
            (locateSite E (threadIndex blockIdx_x blockDim_x threadIdx_x)).x2
            (locateSite E (threadIndex blockIdx_x blockDim_x threadIdx_x)).x3
            (locateSite E (threadIndex blockIdx_x blockDim_x threadIdx_x)).x4 = false) →
      (∀ (DSLASH_XPAY TWIST_XPAY TWIST_INV_DSLASH : Bool)
          (APPLY_TWIST_INV : R → R → Spinor R → Spinor R)
          (APPLY_TWIST : R → Spinor R → Spinor R) (a b : R),
        tm.kernel DSLASH_XPAY TWIST_XPAY TWIST_INV_DSLASH APPLY_TWIST_INV APPLY_TWIST a b E
          blockIdx_x blockDim_x threadIdx_x = none) ∧
      (∀ (DSLASH_XPAY CLOVER_TWIST_INV_DSLASH CLOVER_TWIST_XPAY DYNAMIC_CLOVER : Bool)
          (TPROJSCALE : Int)
          (APPLY_CLOVER_TWIST_INV APPLY_CLOVER_TWIST_DYN_INV APPLY_CLOVER_TWIST :
            R → Spinor R → Spinor R) (a b : R),
        tmc.kernel DSLASH_XPAY CLOVER_TWIST_INV_DSLASH CLOVER_TWIST_XPAY DYNAMIC_CLOVER
          TPROJSCALE APPLY_CLOVER_TWIST_INV APPLY_CLOVER_TWIST_DYN_INV APPLY_CLOVER_TWIST
          a b E blockIdx_x blockDim_x threadIdx_x = none)) ∧
    ((∀ dir ∈ [(0 : Int), 1, 2, 3],
          E.isActive (locateSite E (threadIndex blockIdx_x blockDim_x threadIdx_x)).dim dir 1
            (locateSite E (threadIndex blockIdx_x blockDim_x threadIdx_x)).x1
            (locateSite E (threadIndex blockIdx_x blockDim_x threadIdx_x)).x2
            (locateSite E (threadIndex blockIdx_x blockDim_x threadIdx_x)).x3
            (locateSite E (threadIndex blockIdx_x blockDim_x threadIdx_x)).x4 = false) →
      (∀ dir ∈ [(0 : Int), 1, 2, 3],
          E.isActive (locateSite E (threadIndex blockIdx_x blockDim_x threadIdx_x)).dim dir (-1)
            (locateSite E (threadIndex blockIdx_x blockDim_x threadIdx_x)).x1
            (locateSite E (threadIndex blockIdx_x blockDim_x threadIdx_x)).x2
            (locateSite E (threadIndex blockIdx_x blockDim_x threadIdx_x)).x3
            (locateSite E (threadIndex blockIdx_x blockDim_x threadIdx_x)).x4
          = E.isActive (locateSite E (threadIndex blockIdx_x blockDim_x threadIdx_x)).dim dir 1
            (locateSite E (threadIndex blockIdx_x blockDim_x threadIdx_x)).x1
            (locateSite E (threadIndex blockIdx_x blockDim_x threadIdx_x)).x2
            (locateSite E (threadIndex blockIdx_x blockDim_x threadIdx_x)).x3
            (locateSite E (threadIndex blockIdx_x blockDim_x threadIdx_x)).x4) →
      ∀ k, Branch.condition E
        (locateSite E (threadIndex blockIdx_x blockDim_x threadIdx_x)) k = false) := by
  constructor
  · intro hearly
    have hcases : E.threads ≤ threadIndex blockIdx_x blockDim_x threadIdx_x ∨
        active E (locateSite E (threadIndex blockIdx_x blockDim_x threadIdx_x)) = false := by
      rcases hearly with h | h
      · exact Or.inl h
      · refine Or.inr ?_
        have h0 := h 0 (by simp)
        have h1 := h 1 (by simp)
        have h2 := h 2 (by simp)
        have h3 := h 3 (by simp)
        simp only [active, List.range, List.range.loop, List.foldl, Nat.cast_ofNat,
          Nat.cast_zero, Nat.cast_one] at *
        simp [h0, h1, h2, h3]
    constructor
    · intro DSLASH_XPAY TWIST_XPAY TWIST_INV_DSLASH APPLY_TWIST_INV APPLY_TWIST a b
      rcases hcases with h | h
      · simp [tm.kernel, h]
      · simp [tm.kernel, h]
    · intro DSLASH_XPAY CLOVER_TWIST_INV_DSLASH CLOVER_TWIST_XPAY DYNAMIC_CLOVER TPROJSCALE
        APPLY_CLOVER_TWIST_INV APPLY_CLOVER_TWIST_DYN_INV APPLY_CLOVER_TWIST a b
      rcases hcases with h | h
      · simp [tmc.kernel, h]
      · simp [tmc.kernel, h]
  · intro hplus hsym k
    have p0 := hplus 0 (by simp)
    have p1 := hplus 1 (by simp)
    have p2 := hplus 2 (by simp)
    have p3 := hplus 3 (by simp)
    have m0 := hsym 0 (by simp)
    have m1 := hsym 1 (by simp)
    have m2 := hsym 2 (by simp)
    have m3 := hsym 3 (by simp)
    rw [p0] at m0
    rw [p1] at m1
    rw [p2] at m2
    rw [p3] at m3
    cases k <;> simp [Branch.condition, p0, p1, p2, p3, m0, m1, m2, m3]

theorem early_return_stores_nothing_and_skips_no_branch_witness :
    (∀ dir ∈ [(0 : Int), 1, 2, 3],
        sampleContext.isActive (locateSite sampleContext (threadIndex 0 4 2)).dim dir 1
          (locateSite sampleContext (threadIndex 0 4 2)).x1
          (locateSite sampleContext (threadIndex 0 4 2)).x2
          (locateSite sampleContext (threadIndex 0 4 2)).x3
          (locateSite sampleContext (threadIndex 0 4 2)).x4 = false) ∧
    tm.kernel true false false (fun _ _ o => o) (fun _ o => o) (2 : ℤ) 3 sampleContext 0 4 2
      = none ∧
    sampleContext.threads ≤ threadIndex 2 4 0 ∧
    tmc.kernel true false false false 2 (fun _ o => o) (fun _ o => o) (fun _ o => o) (2 : ℤ) 3
      sampleContext 2 4 0 = none ∧
    ∀ k, Branch.condition sampleContext (locateSite sampleContext (threadIndex 0 4 2)) k
      = false :=
  ⟨by decide,
   ((early_return_stores_nothing_and_skips_no_branch sampleContext 0 4 2).1
      (Or.inr (by decide))).1 true false false (fun _ _ o => o) (fun _ o => o) 2 3,
   by decide,
   ((early_return_stores_nothing_and_skips_no_branch sampleContext 2 4 0).1
      (Or.inl (by decide))).2 true false false false 2 (fun _ o => o) (fun _ o => o)
      (fun _ o => o) 2 3,
   (early_return_stores_nothing_and_skips_no_branch sampleContext 0 4 2).2 (by decide)
      (by decide)⟩

/-! ### The face of a thread -/

/-- C23: let `n` be the `int` value of `threadDimMapUpper[dim] - threadDimMapLower[dim]`,
even and positive, and `face_volume = n >> 1`.  For every `sid` with `0 <= sid < n`:
`face_volume` is `n/2`; `face_num` is 0 when `sid < face_volume` and 1 otherwise;
`face_idx = sid - face_num*face_volume`, computed in `int` arithmetic, satisfies
`0 <= face_idx < face_volume` and `face_num*face_volume + face_idx = sid`; and two such
thread indices with the same `face_num` and the same `face_idx` are equal. -/
theorem face_num_face_idx_decompose_sid (threadDimMapUpper threadDimMapLower : Int)
    (hpos : 0 < int32 (threadDimMapUpper - threadDimMapLower))
    (heven : int32 (threadDimMapUpper - threadDimMapLower) % 2 = 0) :
    2 * face_volume threadDimMapUpper threadDimMapLower
      = int32 (threadDimMapUpper - threadDimMapLower) ∧
    (∀ sid : Int, 0 ≤ sid → sid < int32 (threadDimMapUpper - threadDimMapLower) →
      (sid < face_volume threadDimMapUpper threadDimMapLower →
        face_num sid (face_volume threadDimMapUpper threadDimMapLower) = 0) ∧
      (¬ sid < face_volume threadDimMapUpper threadDimMapLower →
        face_num sid (face_volume threadDimMapUpper threadDimMapLower) = 1) ∧
      0 ≤ face_idx sid (face_num sid (face_volume threadDimMapUpper threadDimMapLower))
            (face_volume threadDimMapUpper threadDimMapLower) ∧
      face_idx sid (face_num sid (face_volume threadDimMapUpper threadDimMapLower))
          (face_volume threadDimMapUpper threadDimMapLower)
        < face_volume threadDimMapUpper threadDimMapLower ∧
      face_num sid (face_volume threadDimMapUpper threadDimMapLower)
          * face_volume threadDimMapUpper threadDimMapLower
        + face_idx sid (face_num sid (face_volume threadDimMapUpper threadDimMapLower))
            (face_volume threadDimMapUpper threadDimMapLower) = sid) ∧
    (∀ sid sid' : Int, 0 ≤ sid → sid < int32 (threadDimMapUpper - threadDimMapLower) →
      0 ≤ sid' → sid' < int32 (threadDimMapUpper - threadDimMapLower) →
      face_num sid (face_volume threadDimMapUpper threadDimMapLower)
        = face_num sid' (face_volume threadDimMapUpper threadDimMapLower) →
      face_idx sid (face_num sid (face_volume threadDimMapUpper threadDimMapLower))
          (face_volume threadDimMapUpper threadDimMapLower)
        = face_idx sid' (face_num sid' (face_volume threadDimMapUpper threadDimMapLower))
          (face_volume threadDimMapUpper threadDimMapLower) →
      sid = sid') := by
  have hr : int32 (threadDimMapUpper - threadDimMapLower) < 2147483648 := by
    unfold int32; omega
  have hfv : face_volume threadDimMapUpper threadDimMapLower
      = int32 (threadDimMapUpper - threadDimMapLower) / 2 := by
    unfold face_volume
    rw [Int.shiftRight_eq_div_pow]
    norm_num
  generalize int32 (threadDimMapUpper - threadDimMapLower) = n at *
  rw [hfv]
  have key : ∀ sid : Int, 0 ≤ sid → sid < n →
      (sid < n / 2 → face_num sid (n / 2) = 0) ∧
      (¬ sid < n / 2 → face_num sid (n / 2) = 1) ∧
      0 ≤ face_idx sid (face_num sid (n / 2)) (n / 2) ∧
      face_idx sid (face_num sid (n / 2)) (n / 2) < n / 2 ∧
      face_num sid (n / 2) * (n / 2) + face_idx sid (face_num sid (n / 2)) (n / 2) = sid := by
    intro sid h0 h1
    by_cases h : sid < n / 2
    · have hn : face_num sid (n / 2) = 0 := by simp [face_num]; omega
      have hi : face_idx sid 0 (n / 2) = sid := by
        simp only [face_idx, zero_mul]
        have e0 : int32 0 = 0 := by decide
        rw [e0, sub_zero]
        unfold int32; omega
      rw [hn, hi]
      refine ⟨fun _ => rfl, fun h' => absurd h h', h0, h, by omega⟩
    · have hn : face_num sid (n / 2) = 1 := by simp [face_num]; omega
      have hi : face_idx sid 1 (n / 2) = sid - n / 2 := by
        simp only [face_idx, one_mul]
        have e1 : int32 (n / 2) = n / 2 := by unfold int32; omega
        rw [e1]
        unfold int32; omega
      rw [hn, hi]
      refine ⟨fun h' => absurd h' h, fun _ => rfl, by omega, by omega, by omega⟩
  refine ⟨by omega, key, ?_⟩
  intro sid sid' h0 h1 h0' h1' hnum hidx
  have e := (key sid h0 h1).2.2.2.2
  have e' := (key sid' h0' h1').2.2.2.2
  rw [hidx, hnum] at e
  exact e.symm.trans e'

theorem face_num_face_idx_decompose_sid_witness :
    (0 < int32 (10 - 4) ∧ int32 (10 - 4) % 2 = 0 ∧ (0 : Int) ≤ 5 ∧ 5 < int32 (10 - 4)) ∧
    face_volume 10 4 = 3 ∧ face_num 5 (face_volume 10 4) = 1 ∧
    face_idx 5 (face_num 5 (face_volume 10 4)) (face_volume 10 4) = 2 ∧
    face_num 5 (face_volume 10 4) * face_volume 10 4
      + face_idx 5 (face_num 5 (face_volume 10 4)) (face_volume 10 4) = 5 :=
  ⟨⟨by decide, by decide, by decide, by decide⟩, by decide, by decide, by decide,
   ((face_num_face_idx_decompose_sid 10 4 (by decide) (by decide)).2.1 5 (by decide)
      (by decide)).2.2.2.2⟩

/-! ### The slots the overloads do not write -/

/-- C24: for each of the four functors, every input and every initial state.  In the
one-temporary overload the wrapped member runs with `tmp2` as the caller left it, and
on either path the call ends with `tmp2` as the member left it: the overload never
writes `tmp2`, so `tmp2` after the call equals `tmp2` before it whenever the member
itself leaves `tmp2` as it found it; and when the member returns, the call returns with
`tmp1` null, whatever `tmp1` held before.  In the zero-temporary overload the member
runs in the caller's state and the call ends with both slots as the member left them:
the overload writes neither, so both are as before the call whenever the member leaves
them as it found them. -/
theorem one_temporary_overload_frame {R V : Type} [Zero R] [DecidableEq R]
    (axpy : R → V → V → V) (ops : DiracOps V) (f : DiracMatrix R) (inp : V)
    (tmp : FieldPtr) (w : World V) :
    ({ w with dirac := (Temporaries.one tmp).install w.dirac } : World V).dirac.tmp2
      = w.dirac.tmp2 ∧
    (DiracMatrix.operator axpy ops f inp (.one tmp) w).state.dirac.tmp2
      = (f.wrapped ops inp
          { w with dirac := (Temporaries.one tmp).install w.dirac }).state.dirac.tmp2 ∧
    ((f.wrapped ops inp
          { w with dirac := (Temporaries.one tmp).install w.dirac }).state.dirac.tmp2
        = w.dirac.tmp2 →
      (DiracMatrix.operator axpy ops f inp (.one tmp) w).state.dirac.tmp2 = w.dirac.tmp2) ∧
    (∀ w' : World V,
      f.wrapped ops inp { w with dirac := (Temporaries.one tmp).install w.dirac }
        = .returned () w' →
      ∃ w'' : World V, DiracMatrix.operator axpy ops f inp (.one tmp) w = .returned () w'' ∧
        w''.dirac.tmp1 = none) ∧
    ({ w with dirac := Temporaries.zero.install w.dirac } : World V) = w ∧
    (DiracMatrix.operator axpy ops f inp .zero w).state.dirac.tmp1
      = (f.wrapped ops inp w).state.dirac.tmp1 ∧
    (DiracMatrix.operator axpy ops f inp .zero w).state.dirac.tmp2
      = (f.wrapped ops inp w).state.dirac.tmp2 ∧
    ((f.wrapped ops inp w).state.dirac.tmp1 = w.dirac.tmp1 →
      (f.wrapped ops inp w).state.dirac.tmp2 = w.dirac.tmp2 →
      (DiracMatrix.operator axpy ops f inp .zero w).state.dirac.tmp1 = w.dirac.tmp1 ∧
      (DiracMatrix.operator axpy ops f inp .zero w).state.dirac.tmp2 = w.dirac.tmp2) := by
  have h1 : (DiracMatrix.operator axpy ops f inp (.one tmp) w).state.dirac.tmp2
      = (f.wrapped ops inp
          { w with dirac := (Temporaries.one tmp).install w.dirac }).state.dirac.tmp2 := by
    rw [DiracMatrix.operator_eq]
    cases f.wrapped ops inp { w with dirac := (Temporaries.one tmp).install w.dirac } <;> rfl
  have h0 : (DiracMatrix.operator axpy ops f inp .zero w).state.dirac
      = (f.wrapped ops inp w).state.dirac := by
    rw [DiracMatrix.operator_eq]
    have hw : ({ w with dirac := Temporaries.zero.install w.dirac } : World V) = w := rfl
    rw [hw]
    cases f.wrapped ops inp w <;> rfl
  refine ⟨rfl, h1, fun h => h1.trans h, ?_, rfl, by rw [h0], by rw [h0], ?_⟩
  · intro w' hw'
    refine ⟨{ dirac := (Temporaries.one tmp).clear w'.dirac,
              out := f.accumulate axpy inp w'.out }, ?_, rfl⟩
    rw [DiracMatrix.operator_eq, hw']
    rfl
  · intro ht1 ht2
    rw [h0]
    exact ⟨ht1, ht2⟩

theorem one_temporary_overload_frame_witness :
    ((sampleOps.M 5 { dirac := (Temporaries.one 21).install sampleDirac, out := 0 }).state.dirac.tmp2
        = sampleDirac.tmp2 ∧
      sampleOps.M 5 { dirac := (Temporaries.one 21).install sampleDirac, out := 0 }
        = .returned ()
            { dirac := { sampleDirac with flops := 8, tmp1 := some 21 }, out := 15 }) ∧
    (DiracMatrix.operator (blas.axpy : ℤ → ℤ → ℤ → ℤ) sampleOps .DiracM 5 (.one 21)
        { dirac := sampleDirac, out := 0 }).state.dirac.tmp2 = some 12 ∧
    ∃ w'' : World ℤ,
      DiracMatrix.operator (blas.axpy : ℤ → ℤ → ℤ → ℤ) sampleOps .DiracM 5 (.one 21)
        { dirac := sampleDirac, out := 0 } = .returned () w'' ∧ w''.dirac.tmp1 = none :=
  ⟨⟨rfl, rfl⟩,
   (one_temporary_overload_frame (blas.axpy : ℤ → ℤ → ℤ → ℤ) sampleOps .DiracM 5 21
      { dirac := sampleDirac, out := 0 }).2.2.1 rfl,
   (one_temporary_overload_frame (blas.axpy : ℤ → ℤ → ℤ → ℤ) sampleOps .DiracM 5 21
      { dirac := sampleDirac, out := 0 }).2.2.2.1
      { dirac := { sampleDirac with flops := 8, tmp1 := some 21 }, out := 15 } rfl⟩

end quda
